import Mathlib

/-!
# Verification of the PCBSchemaGen topology-verifier core

This file is a shallow embedding, in Lean 4, of the verification pipeline of
the PCBSchemaGen repository (`task/topo/*.py`), together with proofs about the
embedded functions.

Conventions used throughout the embedding:
* Python dictionaries holding snapshot data are modelled by structures; a
  Python value of `None` (or a missing key) for a string-valued field is
  modelled by the empty string `""`, matching Python truthiness tests
  (`if not net: ...`), which treat `None` and `""` identically in the source.
* Python lists are Lean `List`s; Python sets whose only observable use is
  membership are modelled as `List`s with first-insertion order and explicit
  deduplication (Python set iteration order is unspecified, so wherever the
  source iterates over a set we fix first-insertion order and note it).
* Python `dict`s are association lists; lookup takes the first binding except
  where the source builds the dict by comprehension (`{k: v for ...}`), where
  the last binding wins, and we model the lookup accordingly.
* The source's `while` loops over work queues are modelled by fuel-indexed
  recursion; every use either supplies fuel that is proved sufficient (where a
  claim needs the loop's semantics) or a bound that dominates the iteration
  count of the Python loop.
-/

set_option maxHeartbeats 1000000

namespace PCB

/-! ## String helpers mirroring Python primitives -/

/-- Python `needle in hay` on strings (substring containment). -/
def strContains (hay needle : String) : Bool :=
  go needle.toList hay.toList
where
  go (n : List Char) : List Char → Bool
    | [] => n.isPrefixOf []
    | c :: rest => n.isPrefixOf (c :: rest) || go n rest

/-- Python `s.upper()` (ASCII uppercasing, which is all the source uses). -/
def pyUpper (s : String) : String := String.mk (s.toList.map Char.toUpper)

/-- Python `s.lower()`. -/
def pyLower (s : String) : String := String.mk (s.toList.map Char.toLower)

/-- Python `s.strip()` (both-ends whitespace strip). -/
def pyStrip (s : String) : String :=
  String.mk (((s.toList.dropWhile Char.isWhitespace).reverse.dropWhile Char.isWhitespace).reverse)

/-- Python `s.startswith(pre)`. -/
def pyStartsWith (s pre : String) : Bool := pre.toList.isPrefixOf s.toList

/-- Python `s.endswith(suf)`. -/
def pyEndsWith (s suf : String) : Bool := suf.toList.reverse.isPrefixOf s.toList.reverse

/-- Python `s[n:]` on the strings this pipeline slices. -/
def pyDrop (s : String) (n : Nat) : String := String.mk (s.toList.drop n)

/-- Python `int(s)` on a non-negative digit string (`none` when `int` would
raise, for the inputs this pipeline passes). -/
def pyToNat? (s : String) : Option Nat :=
  if s.length ≠ 0 ∧ s.toList.all Char.isDigit then
    some (s.toList.foldl (fun acc c => acc * 10 + (c.toNat - 48)) 0)
  else none

/-- Python `<=` on strings: lexicographic comparison by code point. -/
def charListLe : List Char → List Char → Bool
  | [], _ => true
  | _ :: _, [] => false
  | a :: xs, b :: ys =>
      if a.toNat < b.toNat then true
      else if b.toNat < a.toNat then false
      else charListLe xs ys

def strLe (a b : String) : Bool := charListLe a.toList b.toList

/-- Stable insertion into an ascending list: a new element goes before the
first strictly-greater element, preserving the original order of equals. -/
def insertSorted (x : String) : List String → List String
  | [] => [x]
  | y :: rest => if !(strLe x y) then y :: insertSorted x rest else x :: y :: rest

/-- Python `sorted` on a list of strings (stable, ascending). -/
def sortStrings : List String → List String
  | [] => []
  | x :: rest => insertSorted x (sortStrings rest)

/-- Insert a string into a list acting as a Python `set` (first-insertion order). -/
def setInsert (l : List String) (s : String) : List String :=
  if s ∈ l then l else l ++ [s]

/-- Deduplicate, keeping the first occurrence (models building a Python `set`
by repeated insertion and then iterating it). -/
def dedup : List String → List String
  | [] => []
  | s :: rest => s :: (dedup rest).filter (fun x => x ≠ s)

/-- Python `repr` of a list of strings as it appears interpolated into
f-strings (e.g. `['GND', 'VSW']`). -/
def pyReprStrList (l : List String) : String :=
  "[" ++ String.intercalate ", " (l.map (fun s => "'" ++ s ++ "'")) ++ "]"

/-- The two nets of an unordered pair, sorted: models `frozenset([a, b])` /
`tuple(sorted([a, b]))` used as a set element. -/
def sortPair (a b : String) : String × String :=
  if strLe a b then (a, b) else (b, a)

/-! ## Data model (snapshot JSON, §3 of the spec)

A pin/endpoint string field that Python may hold as `None` is the empty
string here. `pin_id` values are modelled as strings; the source converts
them with `str(...)` at every comparison point. -/

structure Pin where
  pin_id : String
  pin_name : String
  net : String := ""
  pin_role : String := ""
  deriving DecidableEq, Repr

structure Component where
  ref : String
  part_id : String
  value : String := ""
  category : String := ""
  pins : List Pin := []
  deriving DecidableEq, Repr

structure Endpoint where
  ref : String
  pin_id : String
  pin_name : String
  pin_role : String := ""
  component_category : String := ""
  deriving DecidableEq, Repr

structure Net where
  name : String
  endpoints : List Endpoint := []
  deriving DecidableEq, Repr

structure Snapshot where
  components : List Component := []
  nets : List Net := []
  deriving DecidableEq, Repr

/-! ## Knowledge-graph store (`kg_loader.py`)

`generic_constraints` entries are dictionaries tagged by `type`; we use a
tagged variant with the fields each branch of `_check_constraints` reads. -/

inductive GenericConstraint where
  | must_be_connected (pins : List String)
  | supply_pair (vdd_pin gnd_pin : String)
  | differential_pair_must_be_distinct (pins : List String)
  | driving_pair (gate_pin source_pin : String)
  deriving DecidableEq, Repr

/-- One entry of the KG overlay (`kg_component.json`); `category = ""` models
an absent/empty category. `pin_roles` is an ordered mapping pin-key → role. -/
structure KGEntry where
  id : String
  category : String := ""
  pin_roles : List (String × String) := []
  generic_constraints : List GenericConstraint := []
  isolation_boundary : Bool := false
  primary_pins : List String := []
  secondary_pins : List String := []
  deriving DecidableEq, Repr

/-- One entry of the base component table (`component.json`); only the
category is ever read by the pipeline. -/
structure BaseEntry where
  id : String
  category : String := ""
  deriving DecidableEq, Repr

structure KGStore where
  kg_component_map : List KGEntry := []
  component_map : List BaseEntry := []
  deriving DecidableEq, Repr

/-- `_normalize_part_id`. -/
def normalize_part_id (part_id : String) : String := pyStrip part_id

/-- `KGStore.get_component`: lookup in the KG overlay map. -/
def KGStore.get_component (kg : KGStore) (part_id : String) : Option KGEntry :=
  kg.kg_component_map.find? (fun e => e.id = normalize_part_id part_id)

/-- `KGStore.get_component_info`: lookup in the base component table. -/
def KGStore.get_component_info (kg : KGStore) (part_id : String) : Option BaseEntry :=
  kg.component_map.find? (fun e => e.id = normalize_part_id part_id)

/-- `KGStore.get_category`: KG overlay category first, then base table. -/
def KGStore.get_category (kg : KGStore) (part_id : String) : String :=
  match kg.get_component part_id with
  | some e => if e.category ≠ "" then e.category else
      match kg.get_component_info part_id with
      | some b => b.category
      | none => ""
  | none =>
      match kg.get_component_info part_id with
      | some b => b.category
      | none => ""

/-- `KGStore.get_pin_roles`. -/
def KGStore.get_pin_roles (kg : KGStore) (part_id : String) : List (String × String) :=
  match kg.get_component part_id with
  | some e => e.pin_roles
  | none => []

/-- `KGStore.get_constraints`. -/
def KGStore.get_constraints (kg : KGStore) (part_id : String) : List GenericConstraint :=
  match kg.get_component part_id with
  | some e => e.generic_constraints
  | none => []

/-- First character of the trimmed ref, uppercased (`ref.strip()[:1].upper()`). -/
def refFirstUpper (ref : String) : String :=
  match (pyStrip ref).toList with
  | [] => ""
  | c :: _ => String.mk [c.toUpper]

/-- `infer_category` from `kg_loader.py`.  The `kg_store` argument of the
source is always supplied in the pipeline, so it is non-optional here. -/
def infer_category (part_id : String) (ref : String) (kg : KGStore) : String :=
  let part_id := normalize_part_id part_id
  let fromKg := kg.get_category part_id
  if fromKg ≠ "" then fromKg
  else
    let refPre := refFirstUpper ref
    if part_id = "R" ∨ part_id = "C" ∨ part_id = "L" ∨ part_id = "D" then "passive"
    else if refPre = "R" ∨ refPre = "C" ∨ refPre = "L" ∨ refPre = "D" then "passive"
    else if strContains (pyUpper part_id) "MOSFET" ∨ refPre = "Q" then "MOSFET"
    else "unknown"

end PCB

namespace PCB

/-! ## `passive_collapse.py` (the part used by the pipeline) -/

/-- `classify_passive`: returns `some "R" | "C" | "L" | "D"` or `none`. -/
def classify_passive (c : Component) : Option String :=
  let part_id := pyStrip c.part_id
  let ref := pyStrip c.ref
  if part_id = "R" ∨ part_id = "C" ∨ part_id = "L" ∨ part_id = "D" then some part_id
  else if c.category ≠ "passive" then none
  else
    let pre := refFirstUpper ref
    if pre = "R" ∨ pre = "C" ∨ pre = "L" ∨ pre = "D" then some pre
    else none

/-- `phase2_checks._is_passive_type`. -/
def is_passive_type (c : Component) (passive_type : String) : Bool :=
  let part_id := pyStrip c.part_id
  let pre := refFirstUpper (pyStrip c.ref)
  if part_id = passive_type then true
  else if c.category ≠ "passive" then false
  else pre = passive_type

/-! ## `build_topology.py` -/

/-- `_lookup_pin_role`: first pin of a component with matching `ref` whose
`pin_id` or `pin_name` matches (the source's three-way cascade per pin
collapses to this disjunction); `""` when nothing matches (Python `None`). -/
def lookup_pin_role (s : Snapshot) (ref pin_id pin_name : String) : String :=
  match s.components.findSome? (fun c =>
    if c.ref ≠ ref then none
    else c.pins.findSome? (fun p =>
      if p.pin_id = pin_id ∧ p.pin_name = pin_name then some p.pin_role
      else if p.pin_id = pin_id then some p.pin_role
      else if p.pin_name = pin_name then some p.pin_role
      else none)) with
  | some r => r
  | none => ""

/-- `_lookup_component_category`. -/
def lookup_component_category (s : Snapshot) (ref : String) : String :=
  match s.components.find? (fun c => c.ref = ref) with
  | some c => c.category
  | none => ""

/-- The component-loop body of `augment_snapshot`: set `category` and each
pin's `pin_role` (pin id takes precedence over pin name). -/
def augComponent (kg : KGStore) (c : Component) : Component :=
  let category := infer_category c.part_id c.ref kg
  let roles := kg.get_pin_roles c.part_id
  { c with
    category := category,
    pins := c.pins.map (fun p =>
      let role :=
        match roles.find? (fun kv => kv.fst = p.pin_id) with
        | some kv => kv.snd
        | none =>
          match roles.find? (fun kv => kv.fst = p.pin_name) with
          | some kv => kv.snd
          | none => ""
      { p with pin_role := role }) }

/-- The net-loop body of `augment_snapshot`, reading the already-updated
components (`s1`). -/
def augEndpoint (s1 : Snapshot) (ep : Endpoint) : Endpoint :=
  { ep with
    pin_role := lookup_pin_role s1 ep.ref ep.pin_id ep.pin_name,
    component_category := lookup_component_category s1 ep.ref }

/-- `augment_snapshot`.  The source mutates in place: the component loop runs
first, so the endpoint loop sees the updated components; we thread that
explicitly through `s1`. -/
def augment_snapshot (s : Snapshot) (kg : KGStore) : Snapshot :=
  let comps := s.components.map (augComponent kg)
  let s1 : Snapshot := { components := comps, nets := s.nets }
  { components := comps,
    nets := s.nets.map (fun n => { n with endpoints := n.endpoints.map (augEndpoint s1) }) }

/-- `index_snapshot`'s net index: Python's dict comprehension keeps the last
binding for a duplicated name. -/
def netsIndexFind (s : Snapshot) (name : String) : Option Net :=
  s.nets.reverse.find? (fun n => n.name = name)

/-! ## `isolation_domain.py` -/

/-- The record `_find_isolation_components` builds per boundary component. -/
structure IsoComp where
  ref : String
  part_id : String
  primary_pins : List String
  secondary_pins : List String
  pins : List Pin
  deriving DecidableEq, Repr

/-- `_find_isolation_components`. -/
def find_isolation_components (s : Snapshot) (kg : KGStore) : List IsoComp :=
  s.components.filterMap (fun c =>
    match kg.get_component c.part_id with
    | some e =>
        if e.isolation_boundary then
          some { ref := c.ref, part_id := c.part_id,
                 primary_pins := e.primary_pins, secondary_pins := e.secondary_pins,
                 pins := c.pins }
        else none
    | none => none)

/-- `_pin_in_set` (string/int tolerant pin membership). -/
def pin_in_set (pin_id : String) (pin_set : List String) : Bool :=
  match pyToNat? pin_id with
  | some n => pin_set.any (fun p => pyToNat? p = some n)
  | none => pin_set.any (fun p => p = pin_id)

/-- The refs appearing in net endpoints, in first-appearance order
(`comp_pins.items()` iteration order of `_build_net_graph`). -/
def compPinsRefs (s : Snapshot) : List String :=
  dedup (s.nets.flatMap (fun n => n.endpoints.map (fun ep => ep.ref)))

/-- The `(pin_id, net_name)` list `_build_net_graph` accumulates per ref. -/
def compPinsFor (s : Snapshot) (ref : String) : List (String × String) :=
  s.nets.flatMap (fun n =>
    n.endpoints.filterMap (fun ep =>
      if ep.ref = ref then some (ep.pin_id, n.name) else none))

/-- Neighbours contributed by one fully-connected pin group.  The source adds
every unordered pair of group members to the adjacency sets; for queries this
is the whole group whenever `net` belongs to it (the self-edge this includes
is invisible to the BFS, which skips visited nets). -/
def groupAdj (l : List String) (net : String) : List String :=
  if net ∈ l then l else []

/-- `_build_net_graph`, as an adjacency function.  Boundary components
connect only nets on the same side; other components connect all their
pins' nets.  A ref appearing in `iso_refs` resolves to the *last* matching
boundary record (Python dict construction). -/
def netGraphAdj (s : Snapshot) (isoComps : List IsoComp) (net : String) : List String :=
  (compPinsRefs s).flatMap (fun ref =>
    let pins := compPinsFor s ref
    match isoComps.reverse.find? (fun ic => ic.ref = ref) with
    | some ic =>
        let priNets := pins.filterMap (fun pn =>
          if pin_in_set pn.1 ic.primary_pins then some pn.2 else none)
        let secNets := pins.filterMap (fun pn =>
          if pin_in_set pn.1 ic.secondary_pins then some pn.2 else none)
        groupAdj priNets net ++ groupAdj secNets net
    | none => groupAdj (pins.map (fun pn => pn.2)) net)

/-- `_bfs_connected_nets`, fuel-indexed.  A popped net already visited is
skipped; otherwise it is marked visited and its unvisited neighbours are
enqueued.  The visited list is the result (a set: membership only). -/
def bfsConnectedAux (adj : String → List String) :
    Nat → List String → List String → List String
  | 0, _, visited => visited
  | _ + 1, [], visited => visited
  | fuel + 1, net :: q, visited =>
      if net ∈ visited then bfsConnectedAux adj fuel q visited
      else
        let visited' := visited ++ [net]
        bfsConnectedAux adj fuel (q ++ (adj net).filter (fun nb => nb ∉ visited')) visited'

/-- Fuel that dominates the iteration count of `_bfs_connected_nets`: every
pop consumes one unit, pops are bounded by enqueues, enqueues by the start
list plus (#nets that can turn visited) × (longest adjacency list + 1). -/
def isoBfsFuel (s : Snapshot) (start : List String) : Nat :=
  let e := s.nets.foldl (fun acc n => acc + n.endpoints.length) 0
  let p := s.components.foldl (fun acc c => acc + c.pins.length) 0
  (s.nets.length + p + start.length + 1) * (2 * e + 2) + start.length + 1

/-- `_bfs_connected_nets` at the dominating fuel. -/
def bfs_connected_nets (s : Snapshot) (start : List String)
    (adj : String → List String) : List String :=
  bfsConnectedAux adj (isoBfsFuel s start) start []

/-- The anchor-net seed list of `_find_primary_domain`. -/
def anchorPatterns : List String :=
  ["VIN", "VBUS", "VCC", "V12", "V5", "GND_PRI", "PGND"]

/-- `_find_primary_domain`'s start nets, including both fallbacks. -/
def primaryStartNets (s : Snapshot) : List String :=
  let start := s.nets.filterMap (fun n =>
    if anchorPatterns.any (fun pat => strContains (pyUpper n.name) pat)
    then some n.name else none)
  if start ≠ [] then start
  else
    match s.nets.find? (fun n => strContains (pyUpper n.name) "VIN") with
    | some n => [n.name]
    | none =>
      match s.nets with
      | [] => []
      | n :: _ => [n.name]

/-- `_find_primary_domain`. -/
def find_primary_domain (s : Snapshot) (adj : String → List String) : List String :=
  bfs_connected_nets s (primaryStartNets s) adj

/-- `_find_secondary_domains`, folding over the boundary components while
threading the accumulated domains and the all-visited set. -/
def find_secondary_domains_aux (s : Snapshot) (adj : String → List String) :
    List IsoComp → List (List String) → List String → List (List String)
  | [], domains, _ => domains
  | ic :: rest, domains, allVisited =>
      let secStart := ic.pins.filterMap (fun p =>
        if pin_in_set p.pin_id ic.secondary_pins ∧ p.net ≠ "" ∧ p.net ∉ allVisited
        then some p.net else none)
      if secStart = [] then find_secondary_domains_aux s adj rest domains allVisited
      else
        let domain := (bfs_connected_nets s secStart adj).filter (fun x => x ∉ allVisited)
        if domain = [] then find_secondary_domains_aux s adj rest domains allVisited
        else find_secondary_domains_aux s adj rest (domains ++ [domain]) (allVisited ++ domain)

def find_secondary_domains (s : Snapshot) (adj : String → List String)
    (isoComps : List IsoComp) (primary : List String) : List (List String) :=
  find_secondary_domains_aux s adj isoComps [] primary

/-- Result record of `identify_isolation_domains`; the net-name sets are
lists whose only observable use is membership. -/
structure Domains where
  primary : List String
  secondary : List (List String)
  deriving DecidableEq, Repr

/-- `identify_isolation_domains`. -/
def identify_isolation_domains (s : Snapshot) (kg : KGStore) : Domains :=
  let isoComps := find_isolation_components s kg
  if isoComps.isEmpty then
    { primary := dedup (s.nets.map (fun n => n.name)), secondary := [] }
  else
    let adj := netGraphAdj s isoComps
    let primary := find_primary_domain s adj
    { primary := primary,
      secondary := find_secondary_domains s adj isoComps primary }

/-- `get_net_domain` (index-carrying helper). -/
def getNetDomainAux (net : String) : List (List String) → Nat → String
  | [], _ => "unknown"
  | dom :: rest, i =>
      if net ∈ dom then "secondary_" ++ toString i
      else getNetDomainAux net rest (i + 1)

/-- `get_net_domain`. -/
def get_net_domain (net_name : String) (d : Domains) : String :=
  if net_name ∈ d.primary then "primary"
  else getNetDomainAux net_name d.secondary 0

/-- `check_isolation_boundary_violations`.  The source iterates a Python set
for the overlap; we iterate in first-insertion order of the primary side. -/
def check_isolation_boundary_violations (s : Snapshot) (kg : KGStore) : List String :=
  (find_isolation_components s kg).flatMap (fun ic =>
    let usable := ic.pins.filter (fun p => p.net ≠ "" ∧ p.net ≠ "NC")
    let primaryNets := dedup ((usable.filter
      (fun p => pin_in_set p.pin_id ic.primary_pins)).map (fun p => p.net))
    let secondaryNets := dedup ((usable.filter
      (fun p => ¬ pin_in_set p.pin_id ic.primary_pins ∧
                pin_in_set p.pin_id ic.secondary_pins)).map (fun p => p.net))
    let overlap := primaryNets.filter (fun n => n ∈ secondaryNets)
    overlap.map (fun net =>
      s!"{ic.ref}: Net '{net}' connects both primary and secondary sides (isolation barrier violation)"))

end PCB

namespace PCB

/-! ## `net_conflict_checker.py` -/

def RESERVED_PATTERNS : List String := ["GND", "VCC", "VDD", "VSS", "VEE", "VBUS"]

/-- The loop of `_check_cross_domain_nets`, threading the `net_domains`
name→domain map (first binding wins: the source only writes a missing key). -/
def crossDomainAux (domains : Domains) :
    List Net → List (String × String) → List String
  | [], _ => []
  | n :: rest, seenMap =>
      let domain := get_net_domain n.name domains
      match seenMap.find? (fun kv => kv.1 = n.name) with
      | some kv =>
          (if kv.2 ≠ domain then
            [s!"NET CONFLICT: '{n.name}' appears in both {kv.2} and {domain} domains. This may cause unintended short circuit."]
          else []) ++ crossDomainAux domains rest seenMap
      | none => crossDomainAux domains rest (seenMap ++ [(n.name, domain)])

/-- `_check_cross_domain_nets`. -/
def check_cross_domain_nets (s : Snapshot) (domains : Domains) : List String :=
  if domains.secondary = [] then []
  else crossDomainAux domains s.nets []

/-- `_check_gnd_naming`. -/
def check_gnd_naming (s : Snapshot) (domains : Domains) : List String :=
  if domains.secondary = [] then []
  else
    let numDomains := 1 + domains.secondary.length
    let gndNets := s.nets.filterMap (fun n =>
      let nu := pyUpper n.name
      if strContains nu "GND" ∨ nu = "VSS" then some n.name else none)
    let uniqueGnds := dedup gndNets
    if uniqueGnds.length < numDomains then
      [s!"GND NAMING WARNING: Circuit has {numDomains} isolation domains but only {uniqueGnds.length} unique GND net(s): {pyReprStrList (sortStrings uniqueGnds)}. Consider using distinct names like GND_PRI, GND_SEC1, GND_SEC2."]
    else []

/-- `_check_reserved_name_conflicts`: the source groups reserved-pattern nets
by domain but every branch ends in `pass`; it returns an empty list on all
inputs, which we record literally. -/
def check_reserved_name_conflicts (_s : Snapshot) (_domains : Domains) : List String :=
  []

/-- `_check_instance_conflicts`' per-name classification: a name with a final
`_N` numeric suffix files under its base with the suffix flag; any other name
files under itself. -/
def instanceBase (name : String) : String × Bool :=
  let cs := name.toList
  if cs.contains '_' then
    let revCs := cs.reverse
    let tailRev := revCs.takeWhile (fun c => c ≠ '_')
    let sufPart := String.mk tailRev.reverse
    if sufPart.length ≠ 0 ∧ sufPart.toList.all Char.isDigit then
      (String.mk (revCs.drop (tailRev.length + 1)).reverse, true)
    else (name, false)
  else (name, false)

/-- `_check_instance_conflicts`. -/
def check_instance_conflicts (s : Snapshot) : List String :=
  let entries := s.nets.map (fun n => (instanceBase n.name, n.name))
  let keys := dedup (entries.map (fun e => e.1.1))
  keys.filterMap (fun base =>
    let insts := entries.filter (fun e => e.1.1 = base)
    let hasSuf := insts.any (fun e => e.1.2)
    let noSuf := insts.any (fun e => !e.1.2)
    if hasSuf && noSuf then
      some s!"INSTANCE NAMING WARNING: Net '{base}' exists both with and without numeric suffixes: {pyReprStrList (sortStrings (insts.map (fun e => e.2)))}. This may indicate incomplete multi-instance naming."
    else none)

/-- `check_net_conflicts`. -/
def check_net_conflicts (s : Snapshot) (kg : KGStore) : List String :=
  let domains := identify_isolation_domains s kg
  check_cross_domain_nets s domains
    ++ check_gnd_naming s domains
    ++ check_reserved_name_conflicts s domains
    ++ check_instance_conflicts s

/-- `check_mosfet_net_conflicts`.  The `vsw_candidates` map the source builds
is never read for output and is omitted.  Gate-net iteration follows the
dict's first-insertion order. -/
def check_mosfet_net_conflicts (s : Snapshot) : List String :=
  let mosfets := s.components.filter (fun c =>
    let pu := pyUpper c.part_id
    strContains pu "MOSFET" || pyStartsWith pu "IM" || pyStartsWith pu "BSC")
  let gatePairs := mosfets.flatMap (fun m =>
    m.pins.filterMap (fun p =>
      if p.pin_role = "mosfet_gate" ∧ p.net ≠ "" ∧ p.net ≠ "NC"
      then some (p.net, m.ref) else none))
  let keys := dedup (gatePairs.map (fun g => g.1))
  keys.filterMap (fun net =>
    let refs := (gatePairs.filter (fun g => g.1 = net)).map (fun g => g.2)
    if refs.length > 2 then
      some s!"GATE NET WARNING: Net '{net}' connects to {refs.length} MOSFET gates: {pyReprStrList refs}. This may indicate unintended parallel connection or missing numeric suffix for multi-half-bridge design."
    else none)

end PCB

namespace PCB

/-! ## `phase2_checks.py` -/

def GATE_FLOAT_TASKS : List Nat := [8, 9, 10, 11, 12]
def STRICT_HALFBRIDGE_TASKS : List Nat := [8, 9, 10, 11, 12]
def KS_SOURCE_RLC_TASKS : List Nat := [9, 10, 11]

/-- Python `task_id in {…}` with `task_id` possibly `None`. -/
def taskIn (t : Option Nat) (l : List Nat) : Bool :=
  match t with
  | some n => n ∈ l
  | none => false

/-- `_find_pin`: first pin whose `pin_id` or `pin_name` equals the key. -/
def find_pin (c : Component) (key : String) : Option Pin :=
  c.pins.find? (fun p => p.pin_id = key ∨ p.pin_name = key)

/-- `_find_pin_by_role`. -/
def find_pin_by_role (c : Component) (role : String) : Option Pin :=
  c.pins.find? (fun p => p.pin_role = role)

/-- `_is_connected`. -/
def pin_is_connected (p : Pin) : Bool :=
  p.net ≠ "" && pyUpper p.net ∉ ["NC", "__NOCONNECT"]

/-- Errors of one generic constraint on one component (`_check_constraints`
loop body). -/
def constraintErrors (s : Snapshot) (allowGateFloat : Bool) (c : Component) :
    GenericConstraint → List String
  | .must_be_connected pins =>
      pins.filterMap (fun pinKey =>
        match find_pin c pinKey with
        | none => none
        | some p =>
            if ¬ pin_is_connected p then some s!"{c.ref}: pin {pinKey} is unconnected"
            else none)
  | .supply_pair vdd_pin gnd_pin =>
      let vddInfo := find_pin c vdd_pin
      let gndInfo := find_pin c gnd_pin
      let vddOk := match vddInfo with | some p => pin_is_connected p | none => false
      let gndOk := match gndInfo with | some p => pin_is_connected p | none => false
      (if !vddOk then [s!"{c.ref}: supply pin {vdd_pin} missing net"] else [])
      ++ (if !gndOk then [s!"{c.ref}: ground pin {gnd_pin} missing net"] else [])
      ++ (match vddInfo, gndInfo with
          | some pv, some pg =>
              if pin_is_connected pv ∧ pin_is_connected pg ∧ pv.net = pg.net then
                [s!"{c.ref}: supply pair shorted ({vdd_pin} and {gnd_pin} on {pv.net})"]
              else []
          | _, _ => [])
  | .differential_pair_must_be_distinct pins =>
      match pins with
      | pinA :: pinB :: _ =>
          (match find_pin c pinA, find_pin c pinB with
           | some pa, some pb =>
               if pin_is_connected pa ∧ pin_is_connected pb ∧ pa.net = pb.net then
                 [s!"{c.ref}: differential pins on same net ({pinA}={pa.net})"]
               else []
           | _, _ => [])
      | _ => []
  | .driving_pair gate_pin _source_pin =>
      match find_pin c gate_pin with
      | some pg =>
          if pin_is_connected pg then
            if ¬ allowGateFloat then
              let epCount := match netsIndexFind s pg.net with
                | some n => n.endpoints.length
                | none => 0
              if epCount ≤ 1 then
                [s!"{c.ref}: gate net appears floating ({gate_pin} on {pg.net})"]
              else []
            else []
          else [s!"{c.ref}: gate pin {gate_pin} missing net"]
      | none => [s!"{c.ref}: gate pin {gate_pin} missing net"]

/-- `_check_acs37010_vref`. -/
def check_acs37010_vref (s : Snapshot) : List String :=
  s.components.flatMap (fun c =>
    if c.part_id ≠ "ACS37010" then []
    else
      match find_pin c "VREF", find_pin c "GND" with
      | some pv, some pg =>
          if pv.net ≠ "" ∧ pg.net ≠ "" ∧ pv.net = pg.net then
            [s!"{c.ref}: VREF should not be tied to GND"]
          else []
      | _, _ => [])

/-- `_check_kelvin_source_short`. -/
def check_kelvin_source_short (s : Snapshot) : List String :=
  s.components.flatMap (fun c =>
    let kelvinPins := c.pins.filter (fun p => p.pin_role = "mosfet_kelvin_source")
    let unconnected := kelvinPins.filterMap (fun p =>
      if p.net = "" ∨ pyUpper p.net = "NC" then
        some s!"{c.ref}: kelvin source pin must be connected to a net"
      else none)
    let sourceNets := dedup ((c.pins.filter
      (fun p => p.pin_role = "mosfet_source" ∧ p.net ≠ "")).map (fun p => p.net))
    let kelvinNets := dedup ((c.pins.filter
      (fun p => p.pin_role = "mosfet_kelvin_source" ∧ p.net ≠ "")).map (fun p => p.net))
    let inter := sourceNets.filter (fun n => n ∈ kelvinNets)
    let interMin := (sortStrings inter).headD ""
    unconnected ++
      (if sourceNets = [] ∨ kelvinNets = [] then []
       else if inter ≠ [] then
        [s!"{c.ref}: kelvin source should not be shorted to source net ({interMin})"]
       else []))

/-- `_check_bootstrap_caps`. -/
def check_bootstrap_caps (s : Snapshot) : List String :=
  let capacitors := s.components.filterMap (fun c =>
    if is_passive_type c "C" then
      some (dedup ((c.pins.filter (fun p => p.net ≠ "")).map (fun p => p.net)))
    else none)
  s.components.flatMap (fun c =>
    match find_pin_by_role c "halfbridge_hb", find_pin_by_role c "halfbridge_hs" with
    | some hb, some hs =>
        if hb.net ≠ "" ∧ hs.net ≠ "" then
          if ¬ capacitors.any (fun nets => hb.net ∈ nets ∧ hs.net ∈ nets) then
            [s!"{c.ref}: bootstrap capacitor missing between HB and HS"]
          else []
        else []
    | _, _ => [])

/-- `_check_ucc5390e_output_resistor`. -/
def check_ucc5390e_output_resistor (s : Snapshot) : List String :=
  let resistorNets := s.components.filterMap (fun c =>
    if is_passive_type c "R" then
      some (dedup ((c.pins.filter (fun p => p.net ≠ "")).map (fun p => p.net)))
    else none)
  s.components.flatMap (fun c =>
    if c.part_id ≠ "UCC5390E" then []
    else
      match find_pin c "OUT" with
      | some po =>
          if po.net = "" then []
          else if ¬ resistorNets.any (fun nets => po.net ∈ nets) then
            [s!"{c.ref}: output resistor missing on OUT net ({po.net})"]
          else []
      | none => [])

/-- `_check_constraints`. -/
def check_constraints (s : Snapshot) (kg : KGStore) (task_id : Option Nat) : List String :=
  let allowGateFloat := taskIn task_id GATE_FLOAT_TASKS
  (s.components.flatMap (fun c =>
    (kg.get_constraints c.part_id).flatMap (constraintErrors s allowGateFloat c)))
  ++ check_acs37010_vref s
  ++ check_kelvin_source_short s
  ++ check_bootstrap_caps s
  ++ check_ucc5390e_output_resistor s

/-- `_check_acs37010_ip_short`. -/
def check_acs37010_ip_short (s : Snapshot) : List String :=
  s.components.flatMap (fun c =>
    if c.part_id ≠ "ACS37010" then []
    else
      match find_pin c "IP+", find_pin c "IP-" with
      | some pp, some pm =>
          if pin_is_connected pp ∧ pin_is_connected pm ∧ pp.net = pm.net then
            [s!"{c.ref}: IP+ and IP- must not be shorted ({pp.net})"]
          else []
      | _, _ => [])

/-- `_check_mgj2d_vin_short`. -/
def check_mgj2d_vin_short (s : Snapshot) : List String :=
  s.components.flatMap (fun c =>
    if c.part_id ≠ "MGJ2D121505SC" then []
    else
      match find_pin c "+VIN", find_pin c "-VIN" with
      | some pp, some pm =>
          if pin_is_connected pp ∧ pin_is_connected pm ∧ pp.net = pm.net then
            [s!"{c.ref}: +VIN and -VIN must not be shorted ({pp.net})"]
          else []
      | _, _ => [])

/-- `_check_tps54302_diode_pairs` (task 6). -/
def check_tps54302_diode_pairs (s : Snapshot) : List String :=
  let diodePairs := s.components.filterMap (fun c =>
    if ¬ is_passive_type c "D" then none
    else
      match (c.pins.filter pin_is_connected).map (fun p => p.net) with
      | [a, b] => if a ≠ "" ∧ b ≠ "" then some (sortPair a b) else none
      | _ => none)
  if diodePairs = [] then []
  else
    s.components.flatMap (fun c =>
      if c.part_id ≠ "TPS54302" then []
      else
        [("1", "2"), ("2", "3"), ("1", "6")].flatMap (fun pr =>
          match find_pin c pr.1, find_pin c pr.2 with
          | some pa, some pb =>
              if pin_is_connected pa ∧ pin_is_connected pb ∧ pa.net ≠ "" ∧ pb.net ≠ "" then
                if sortPair pa.net pb.net ∈ diodePairs then
                  [s!"{c.ref}: diode detected between pins {pr.1} and {pr.2} ({pa.net} <-> {pb.net})"]
                else []
              else []
          | _, _ => []))

/-- `_check_mosfet_pins_connected` (strict-half-bridge tasks). -/
def check_mosfet_pins_connected (s : Snapshot) : List String :=
  s.components.flatMap (fun c =>
    if c.category ≠ "MOSFET" then []
    else
      match c.pins.find? (fun p => p.net = "" ∨ pyUpper p.net ∈ ["NC", "__NOCONNECT"]) with
      | some p =>
          let pid := if p.pin_id ≠ "" then p.pin_id else if p.pin_name ≠ "" then p.pin_name else "?"
          [s!"{c.ref}: pin {pid} is unconnected (MOSFET pins must all connect)"]
      | none => [])

/-- `_check_kelvin_source_distinct` (strict-half-bridge tasks).  The
`ks_by_ref` dict keeps the last entry per ref; per-component ">1 net" errors
are emitted for every matching component. -/
def check_kelvin_source_distinct (s : Snapshot) : List String :=
  let ksComps := s.components.filterMap (fun c =>
    if c.category = "MOSFET" then
      let ksNets := dedup ((c.pins.filter
        (fun p => p.pin_role = "mosfet_kelvin_source" ∧ pin_is_connected p)).map (fun p => p.net))
      if ksNets ≠ [] then some (c.ref, ksNets) else none
    else none)
  let perComp := ksComps.filterMap (fun e =>
    if e.2.length > 1 then some s!"{e.1}: kelvin source pins must be tied to a single net"
    else none)
  let refs := dedup (ksComps.map (fun e => e.1))
  if refs.length < 2 then perComp
  else
    let uniqueNets := dedup (refs.flatMap (fun r =>
      match ksComps.reverse.find? (fun e => e.1 = r) with
      | some e => e.2
      | none => []))
    if uniqueNets.length < refs.length then
      perComp ++ ["Kelvin source nets must be distinct between MOSFETs"]
    else perComp

/-- Node list of `phase2_checks._build_bipartite_graph` (comps with a ref,
plus every net on their pins); used for `in graph` tests. -/
def p2GraphNodes (s : Snapshot) : List String :=
  s.components.flatMap (fun c =>
    if c.ref = "" then []
    else ("comp:" ++ c.ref) ::
      c.pins.filterMap (fun p => if p.net ≠ "" then some ("net:" ++ p.net) else none))

/-- Adjacency of `phase2_checks._build_bipartite_graph`. -/
def p2GraphAdj (s : Snapshot) (node : String) : List String :=
  s.components.flatMap (fun c =>
    if c.ref = "" then []
    else
      let cnode := "comp:" ++ c.ref
      let netNodes := c.pins.filterMap (fun p =>
        if p.net ≠ "" then some ("net:" ++ p.net) else none)
      if node = cnode then netNodes
      else if node ∈ netNodes then [cnode]
      else [])

/-- `_allowed_rlc_nodes` membership. -/
def p2AllowedRlc (s : Snapshot) (node : String) : Bool :=
  (pyStartsWith node "net:" && node ∈ p2GraphNodes s)
  || s.components.any (fun c =>
      c.ref ≠ "" && node = "comp:" ++ c.ref &&
        (is_passive_type c "R" || is_passive_type c "L" || is_passive_type c "C"))

/-- The queue loop shared by `_has_rlc_path` (and, with other parameters,
the BFS of `passive_collapse._path_exists`): visited-at-push BFS returning
whether `endNode` is popped. -/
def pathBfsAux (adj : String → List String) (allowed : String → Bool) (endNode : String) :
    Nat → List String → List String → Bool
  | 0, _, _ => false
  | _ + 1, [], _ => false
  | fuel + 1, node :: q, visited =>
      if node = endNode then true
      else
        let step := (adj node).foldl
          (fun (acc : List String × List String) nb =>
            if nb ∈ acc.2 || ¬ allowed nb then acc else (acc.1 ++ [nb], acc.2 ++ [nb]))
          (q, visited)
        pathBfsAux adj allowed endNode fuel step.1 step.2

/-- Fuel dominating the `_has_rlc_path` loop: pops ≤ 1 + pushes and every
push adds a fresh graph node to `visited`. -/
def p2PathFuel (s : Snapshot) : Nat := (p2GraphNodes s).length + 2

/-- `_has_rlc_path`. -/
def has_rlc_path (s : Snapshot) (start_net end_net : String) : Bool :=
  let st := "net:" ++ start_net
  let en := "net:" ++ end_net
  if st ∉ p2GraphNodes s ∨ en ∉ p2GraphNodes s then false
  else pathBfsAux (p2GraphAdj s) (p2AllowedRlc s) en (p2PathFuel s) [st] [st]

/-- Inner source-net loop of `_check_kelvin_source_rlc_isolation` (first
triggering source net yields the message, then `break`). -/
def ksRlcInner (s : Snapshot) (ref : String) (sourceNets : List String)
    (ks_net : String) : Option String :=
  sourceNets.findSome? (fun src =>
    if ks_net = src then
      some s!"{ref}: kelvin source must not connect to source net ({ks_net})"
    else if has_rlc_path s ks_net src then
      some s!"{ref}: kelvin source must not connect to source net via R/L/C network ({ks_net} <-> {src})"
    else none)

/-- Outer kelvin-net loop of `_check_kelvin_source_rlc_isolation`, threading
the global error list (the source breaks when the last error overall starts
with this component's ref). -/
def ksRlcOuterAux (s : Snapshot) (ref : String) (sourceNets : List String) :
    List String → List String → List String
  | [], errors => errors
  | ks :: rest, errors =>
      let errors' := match ksRlcInner s ref sourceNets ks with
        | some e => errors ++ [e]
        | none => errors
      match errors'.getLast? with
      | some last =>
          if pyStartsWith last (ref ++ ":") then errors'
          else ksRlcOuterAux s ref sourceNets rest errors'
      | none => ksRlcOuterAux s ref sourceNets rest errors'

/-- `_check_kelvin_source_rlc_isolation` (tasks 9–11). -/
def check_kelvin_source_rlc_isolation (s : Snapshot) : List String :=
  s.components.foldl (fun errors c =>
    if c.category ≠ "MOSFET" then errors
    else
      let ksNets := dedup ((c.pins.filter
        (fun p => p.pin_role = "mosfet_kelvin_source" ∧ pin_is_connected p)).map (fun p => p.net))
      let sourceNets := dedup ((c.pins.filter
        (fun p => p.pin_role = "mosfet_source" ∧ pin_is_connected p)).map (fun p => p.net))
      if ksNets = [] ∨ sourceNets = [] then errors
      else ksRlcOuterAux s c.ref sourceNets ksNets errors) []

/-- `_check_vbus_decoupling_caps` (strict-half-bridge tasks). -/
def check_vbus_decoupling_caps (s : Snapshot) : List String :=
  s.components.flatMap (fun c =>
    if ¬ is_passive_type c "C" then []
    else
      let netsUpper := dedup (((c.pins.filter pin_is_connected).map (fun p => p.net)).map pyUpper)
      let msg := s!"{c.ref}: decoupling cap must connect between VBUS+ and GND/PGND"
      if netsUpper.length ≠ 2 then [msg]
      else if "VBUS+" ∉ netsUpper then [msg]
      else
        let other := netsUpper.filter (fun n => n ≠ "VBUS+")
        if other.isEmpty ∨ other.headD "" ∉ ["GND", "PGND"] then [msg]
        else [])

/-- `_check_ucc27511_outputs` (task 13). -/
def check_ucc27511_outputs (s : Snapshot) : List String :=
  s.components.flatMap (fun c =>
    if c.part_id ≠ "UCC27511" then []
    else
      ["OUTH", "OUTL"].flatMap (fun label =>
        match find_pin c label with
        | some p =>
            if ¬ pin_is_connected p then [s!"{c.ref}: {label} must be connected"]
            else if pyUpper p.net ∈ ["GND", "PGND"] then
              [s!"{c.ref}: {label} must not be tied to GND/PGND ({p.net})"]
            else []
        | none => [s!"{c.ref}: {label} must be connected"]))

/-- `_check_ucc5390e_vin_minus` (task 15). -/
def check_ucc5390e_vin_minus (s : Snapshot) : List String :=
  s.components.flatMap (fun c =>
    if c.part_id ≠ "UCC5390E" then []
    else
      match (find_pin c "VEE2").orElse (fun _ => find_pin c "VIN-") with
      | none => []
      | some p =>
          if ¬ pin_is_connected p then [s!"{c.ref}: VEE2 (VIN-) must be connected"]
          else
            let epCount := match netsIndexFind s p.net with
              | some n => n.endpoints.length
              | none => 0
            if epCount ≤ 1 then [s!"{c.ref}: VEE2 (VIN-) net appears floating ({p.net})"]
            else [])

/-- `run_phase2_checks`. -/
def run_phase2_checks (s : Snapshot) (kg : KGStore) (task_id : Option Nat) : List String :=
  check_constraints s kg task_id
  ++ check_acs37010_ip_short s
  ++ check_mgj2d_vin_short s
  ++ (if task_id = some 6 then check_tps54302_diode_pairs s else [])
  ++ (if taskIn task_id STRICT_HALFBRIDGE_TASKS then
        check_mosfet_pins_connected s
        ++ check_kelvin_source_distinct s
        ++ check_vbus_decoupling_caps s
      else [])
  ++ (if taskIn task_id KS_SOURCE_RLC_TASKS then check_kelvin_source_rlc_isolation s else [])
  ++ (if task_id = some 15 then check_ucc5390e_vin_minus s else [])
  ++ (if task_id = some 13 then check_ucc27511_outputs s else [])

end PCB

namespace PCB

/-! ## `interface_checker.py` -/

def ISOLATED_GATE_DRIVERS : List String := ["UCC5390E", "UCC21710"]
def BOOTSTRAP_GATE_DRIVERS : List String := ["UCC27211"]
def LOW_SIDE_GATE_DRIVERS : List String := ["UCC27511"]
def ALL_GATE_DRIVERS : List String :=
  ISOLATED_GATE_DRIVERS ++ BOOTSTRAP_GATE_DRIVERS ++ LOW_SIDE_GATE_DRIVERS
def MOSFET_PATTERNS : List String := ["IMZA", "IMLT", "IMT", "IMW", "BSC"]
def ISOLATED_SUPPLIES : List String := ["MGJ2D121505SC"]

/-- `_find_component_by_ref` (shared with `system_topology_checker.py`). -/
def find_component_by_ref (s : Snapshot) (ref : String) : Option Component :=
  s.components.find? (fun c => c.ref = ref)

/-- `_get_pin_net` (`""` models Python `None`). -/
def get_pin_net (c : Component) (key : String) : String :=
  match c.pins.find? (fun p => p.pin_id = key ∨ p.pin_name = key) with
  | some p => p.net
  | none => ""

/-- `_is_not_connected`. -/
def is_not_connected (net : String) : Bool :=
  net = "" || net ∈ ["NC", "__NOCONNECT", "NOCONNECT"]

/-- `_is_mosfet`. -/
def is_mosfet (part_id : String) : Bool :=
  MOSFET_PATTERNS.any (fun pat => strContains (pyUpper part_id) pat)

def ifc_find_gate_drivers (s : Snapshot) : List Component :=
  s.components.filter (fun c => c.part_id ∈ ALL_GATE_DRIVERS)

def ifc_find_mosfets (s : Snapshot) : List Component :=
  s.components.filter (fun c =>
    MOSFET_PATTERNS.any (fun pat => strContains (pyUpper c.part_id) pat))

def ifc_find_isolated_supplies (s : Snapshot) : List Component :=
  s.components.filter (fun c => c.part_id ∈ ISOLATED_SUPPLIES)

/-- `_get_mosfet_gate_pin` (`""` = `None`). -/
def get_mosfet_gate_pin (part_id : String) (kg : KGStore) : String :=
  let fromKg := match kg.get_component part_id with
    | some e =>
        match e.pin_roles.find? (fun kv => kv.2 = "mosfet_gate") with
        | some kv => kv.1
        | none => ""
    | none => ""
  if fromKg ≠ "" then fromKg
  else if part_id = "IMZA65R015M2H" then "4"
  else if part_id = "IMT65R033M2H" then "1"
  else if part_id = "IMLT65R015M2H" then "8"
  else if part_id = "IMW65R015M2H" then "1"
  else if part_id = "BSC052N08NS5" then "4"
  else ""

/-- `_get_driver_output_pins`. -/
def get_driver_output_pins (part_id : String) : List String :=
  if part_id = "UCC5390E" then ["6"]
  else if part_id = "UCC21710" then ["4", "6"]
  else if part_id = "UCC27211" then ["3", "8"]
  else if part_id = "UCC27511" then ["2", "3"]
  else []

/-- The gate nets of `_check_gate_driver_to_mosfet`'s `mosfet_gate_nets`
map (only key membership is observable). -/
def mosfetGateNets (s : Snapshot) (kg : KGStore) : List String :=
  (ifc_find_mosfets s).filterMap (fun m =>
    let gatePin := get_mosfet_gate_pin m.part_id kg
    if gatePin ≠ "" then
      let gateNet := get_pin_net m gatePin
      if gateNet ≠ "" ∧ gateNet ≠ "NC" then some gateNet else none
    else none)

/-- The neighbour nets the gate-path BFS scans from one net: pin nets of
every R/D component with an endpoint on it, in endpoint order. -/
def gatePathOthers (s : Snapshot) (current : String) : List String :=
  let eps := match netsIndexFind s current with
    | some n => n.endpoints
    | none => []
  eps.flatMap (fun ep =>
    match find_component_by_ref s ep.ref with
    | some comp =>
        if comp.part_id ∈ ["R", "D"] then comp.pins.map (fun p => p.net) else []
    | none => [])

/-- One relaxation sweep of `_check_path_to_mosfet_gate`: returns `none` when
a gate net is reached, otherwise the updated queue and visited set. -/
def gateScan (gateNets : List String) (current : String) :
    List String → List String → List String → Option (List String × List String)
  | [], q, visited => some (q, visited)
  | other :: rest, q, visited =>
      if other ≠ "" ∧ other ≠ current ∧ other ∉ visited then
        if other ∈ gateNets then none
        else gateScan gateNets current rest (q ++ [other]) (visited ++ [other])
      else gateScan gateNets current rest q visited

/-- The BFS loop of `_check_path_to_mosfet_gate`, fuel-indexed. -/
def gatePathAux (s : Snapshot) (gateNets : List String) :
    Nat → List String → List String → Bool
  | 0, _, _ => false
  | _ + 1, [], _ => false
  | fuel + 1, current :: q, visited =>
      match gateScan gateNets current (gatePathOthers s current) q visited with
      | none => true
      | some (q', v') => gatePathAux s gateNets fuel q' v'

/-- Fuel dominating the gate-path BFS (every push grows `visited` with a pin
net, of which there are at most `total pin count` distinct ones). -/
def gatePathFuel (s : Snapshot) : Nat :=
  s.components.foldl (fun acc c => acc + c.pins.length) 0 + 2

/-- `_check_path_to_mosfet_gate`. -/
def check_path_to_mosfet_gate (s : Snapshot) (start_net : String)
    (gateNets : List String) : Bool :=
  if start_net ∈ gateNets then true
  else gatePathAux s gateNets (gatePathFuel s) [start_net] [start_net]

/-- `_check_gate_driver_to_mosfet`. -/
def check_gate_driver_to_mosfet (s : Snapshot) (kg : KGStore) : List String :=
  let gateNets := mosfetGateNets s kg
  (ifc_find_gate_drivers s).flatMap (fun driver =>
    (get_driver_output_pins driver.part_id).flatMap (fun out_pin =>
      let out_net := get_pin_net driver out_pin
      if is_not_connected out_net then
        [s!"{driver.ref}: Gate driver output pin {out_pin} not connected"]
      else if ¬ check_path_to_mosfet_gate s out_net gateNets then
        [s!"{driver.ref}: Gate driver output (pin {out_pin}, net '{out_net}') does not connect to any MOSFET gate"]
      else []))

/-- `_check_gate_resistors`. -/
def check_gate_resistors (s : Snapshot) : List String :=
  (ifc_find_gate_drivers s).flatMap (fun driver =>
    (get_driver_output_pins driver.part_id).flatMap (fun out_pin =>
      let out_net := get_pin_net driver out_pin
      if is_not_connected out_net then []
      else
        let eps := match netsIndexFind s out_net with
          | some n => n.endpoints
          | none => []
        let hasResistor := eps.any (fun ep =>
          match find_component_by_ref s ep.ref with
          | some comp => comp.part_id = "R"
          | none => false)
        if hasResistor then []
        else
          eps.filterMap (fun ep =>
            match find_component_by_ref s ep.ref with
            | some comp =>
                if is_mosfet comp.part_id then
                  some s!"{driver.ref}: Gate driver output (pin {out_pin}) connects directly to MOSFET {ep.ref} without gate resistor"
                else none
            | none => none)))

/-- `_get_mosfet_ks_pin`. -/
def get_mosfet_ks_pin (part_id : String) (kg : KGStore) : String :=
  let fromKg := match kg.get_component part_id with
    | some e =>
        match e.pin_roles.find? (fun kv => kv.2 = "mosfet_kelvin_source") with
        | some kv => kv.1
        | none => ""
    | none => ""
  if fromKg ≠ "" then fromKg
  else if part_id = "IMZA65R015M2H" then "3"
  else if part_id = "IMT65R033M2H" then "2"
  else if part_id = "IMLT65R015M2H" then "7"
  else ""

/-- `_get_mosfet_source_pins`. -/
def get_mosfet_source_pins (part_id : String) (kg : KGStore) : List String :=
  match kg.get_component part_id with
  | some e => (e.pin_roles.filter (fun kv => kv.2 = "mosfet_source")).map (fun kv => kv.1)
  | none => []

/-- `_get_driver_gnd2_pin`. -/
def get_driver_gnd2_pin (part_id : String) : String :=
  if part_id = "UCC5390E" then "7"
  else if part_id = "UCC21710" then "3"
  else ""

/-- `_check_kelvin_source_connections`.  Both `ks_nets` and
`power_source_nets` are dicts net → owning-MOSFET ref where later MOSFETs
overwrite earlier ones. -/
def check_kelvin_source_connections (s : Snapshot) (kg : KGStore) : List String :=
  let mosfets := ifc_find_mosfets s
  let ksPairs := mosfets.filterMap (fun m =>
    let ksPin := get_mosfet_ks_pin m.part_id kg
    if ksPin ≠ "" then
      let ksNet := get_pin_net m ksPin
      if ksNet ≠ "" ∧ ksNet ≠ "NC" then some (ksNet, m.ref) else none
    else none)
  let srcPairs := mosfets.flatMap (fun m =>
    (get_mosfet_source_pins m.part_id kg).filterMap (fun srcPin =>
      let srcNet := get_pin_net m srcPin
      if srcNet ≠ "" ∧ srcNet ≠ "NC" then some (srcNet, m.ref) else none))
  (ifc_find_gate_drivers s).flatMap (fun driver =>
    if driver.part_id ∉ ISOLATED_GATE_DRIVERS then []
    else
      let gnd2Pin := get_driver_gnd2_pin driver.part_id
      if gnd2Pin = "" then []
      else
        let gnd2Net := get_pin_net driver gnd2Pin
        if is_not_connected gnd2Net then
          [s!"{driver.ref}: Isolated gate driver GND2 (pin {gnd2Pin}) not connected"]
        else if ksPairs.any (fun kv => kv.1 = gnd2Net) then []
        else
          match srcPairs.reverse.find? (fun kv => kv.1 = gnd2Net) with
          | some kv =>
              (match find_component_by_ref s kv.2 with
               | some mosfet =>
                   let ksPin := get_mosfet_ks_pin mosfet.part_id kg
                   if ksPin ≠ "" then
                     [s!"{driver.ref}: Gate driver GND2 connects to power Source of {kv.2}, but should connect to Kelvin Source (pin {ksPin}) to avoid common-source inductance"]
                   else []
               | none => [])
          | none => [])

/-- `_check_isolated_supply_connections`. -/
def check_isolated_supply_connections (s : Snapshot) : List String :=
  (ifc_find_isolated_supplies s).flatMap (fun supply =>
    if supply.part_id ≠ "MGJ2D121505SC" then []
    else
      let vplus := get_pin_net supply "7"
      let vzero := get_pin_net supply "6"
      let vminus := get_pin_net supply "5"
      (if is_not_connected vplus then [s!"{supply.ref}: +VOUT (pin 7) not connected"] else [])
      ++ (if is_not_connected vzero then [s!"{supply.ref}: 0V (pin 6) not connected"] else [])
      ++ (if is_not_connected vminus then [s!"{supply.ref}: -VOUT (pin 5) not connected"] else []))

/-- `_check_bootstrap_connections`. -/
def check_bootstrap_connections (s : Snapshot) : List String :=
  (ifc_find_gate_drivers s).flatMap (fun driver =>
    if driver.part_id ≠ "UCC27211" then []
    else
      let hb_net := get_pin_net driver "2"
      let hs_net := get_pin_net driver "4"
      if is_not_connected hb_net then
        [s!"{driver.ref}: Bootstrap pin HB (pin 2) not connected"]
      else if is_not_connected hs_net then
        [s!"{driver.ref}: Switch node HS (pin 4) not connected"]
      else
        let capsOn := fun (net : String) =>
          let eps := match netsIndexFind s net with
            | some n => n.endpoints
            | none => []
          eps.filterMap (fun ep =>
            match find_component_by_ref s ep.ref with
            | some comp => if comp.part_id = "C" then some ep.ref else none
            | none => none)
        let hbCaps := capsOn hb_net
        let hsCaps := capsOn hs_net
        if !(hbCaps.any (fun r => r ∈ hsCaps)) then
          [s!"{driver.ref}: No bootstrap capacitor found between HB (pin 2, net {hb_net}) and HS (pin 4, net {hs_net})"]
        else [])

/-- `check_interfaces`. -/
def check_interfaces (s : Snapshot) (kg : KGStore) : List String :=
  check_gate_driver_to_mosfet s kg
  ++ check_gate_resistors s
  ++ check_kelvin_source_connections s kg
  ++ check_isolated_supply_connections s
  ++ check_bootstrap_connections s

end PCB

namespace PCB

/-! ## `system_topology_checker.py` -/

/-- One entry of `TASK_TEMPLATES`. -/
structure TaskTemplate where
  name : String
  min_mosfets : Nat := 0
  min_gate_drivers : Nat := 0
  min_isolated_supplies : Nat := 0
  requires_transformer : Bool := false
  requires_resonant_cap : Bool := false
  requires_resonant_inductor : Bool := false
  requires_blocking_cap : Bool := false
  requires_inductor : Bool := false
  min_output_caps : Nat := 0
  topology_type : String
  deriving DecidableEq, Repr

def TASK_TEMPLATES (task_id : Nat) : Option TaskTemplate :=
  if task_id = 17 then some
    { name := "Synchronous Buck Converter", min_mosfets := 2, min_gate_drivers := 2,
      min_isolated_supplies := 1, requires_inductor := true, min_output_caps := 4,
      topology_type := "sync_buck" }
  else if task_id = 18 then some
    { name := "Synchronous Boost Converter", min_mosfets := 2, min_gate_drivers := 2,
      min_isolated_supplies := 1, requires_inductor := true, min_output_caps := 4,
      topology_type := "sync_boost" }
  else if task_id = 19 then some
    { name := "4-Switch Buck-Boost Converter", min_mosfets := 4, min_gate_drivers := 4,
      min_isolated_supplies := 2, topology_type := "4sw_buckboost" }
  else if task_id = 20 then some
    { name := "Dual Active Bridge Converter", min_mosfets := 8, min_gate_drivers := 8,
      min_isolated_supplies := 2, requires_transformer := true,
      requires_blocking_cap := true, requires_resonant_inductor := true,
      topology_type := "dab" }
  else if task_id = 21 then some
    { name := "LLC Resonant Converter", min_mosfets := 8, min_gate_drivers := 8,
      min_isolated_supplies := 2, requires_transformer := true,
      requires_resonant_cap := true, requires_resonant_inductor := true,
      topology_type := "llc" }
  else if task_id = 22 then some
    { name := "3-Phase Motor Drive", min_mosfets := 6, min_gate_drivers := 6,
      min_isolated_supplies := 3, topology_type := "3ph_inverter" }
  else if task_id = 23 then some
    { name := "Single-Phase Grid Inverter", min_mosfets := 4, min_gate_drivers := 4,
      min_isolated_supplies := 2, topology_type := "1ph_fullbridge" }
  else none

def GATE_DRIVER_IDS : List String := ["UCC5390E", "UCC21710", "UCC27211", "UCC27511"]
def ISOLATED_SUPPLY_IDS : List String := ["MGJ2D121505SC"]
def TRANSFORMER_IDS : List String := ["transformer_PQ5050"]
def FILM_CAP_IDS : List String := ["C_film"]
def POWER_INDUCTOR_IDS : List String := ["Inductor_power"]
def GENERIC_INDUCTOR_IDS : List String := ["L"]
def PATH_PART_IDS : List String := ["R", "C", "C_film", "Inductor_power", "L"]

/-- `_is_input_supply_net`. -/
def is_input_supply_net (net : String) : Bool :=
  net ≠ "" && ["VIN", "VBUS", "VDC", "VBAT", "V+"].any (fun pat => strContains (pyUpper net) pat)

/-- `_is_output_net`. -/
def is_output_net (net : String) : Bool :=
  net ≠ "" && ["VOUT", "OUT", "VO", "OUTPUT"].any (fun pat => strContains (pyUpper net) pat)

/-- `_is_ground_net`. -/
def is_ground_net (net : String) : Bool :=
  net ≠ "" && ["GND", "PGND", "VSS", "COM", "GROUND"].any (fun pat => strContains (pyUpper net) pat)

/-- `str(pin.pin_id) → net` map of a component (later pins override earlier
ones, as in the Python dict build), defaulting to `""`. -/
def pinNetById (c : Component) (key : String) : String :=
  match c.pins.reverse.find? (fun p => p.pin_id = key) with
  | some p => p.net
  | none => ""

/-- What `_extract_mosfet_connections` builds.  A field is `none` when the
Python dict lacks the key (the fallback triggers on a missing `drain_net`
key, so `none` and `some ""` must stay distinct). -/
structure MosfetInfo where
  ref : String
  part_id : String
  drain_net : Option String := none
  source_net : Option String := none
  gate_net : Option String := none
  ks_net : Option String := none
  deriving DecidableEq, Repr

/-- Python truthiness of a `m.get(...)` field. -/
def optTruthy (o : Option String) : Bool := o.getD "" ≠ ""

/-- `_extract_mosfet_connections`. -/
def extract_mosfet_connections (kg : KGStore) (c : Component) : MosfetInfo :=
  let pin_roles := match kg.get_component c.part_id with
    | some e => e.pin_roles
    | none => []
  let info0 : MosfetInfo := { ref := c.ref, part_id := c.part_id }
  let info1 := pin_roles.foldl (fun info kv =>
    let net := pinNetById c kv.1
    if kv.2 = "mosfet_drain" then { info with drain_net := some net }
    else if kv.2 = "mosfet_source" then { info with source_net := some net }
    else if kv.2 = "mosfet_gate" then { info with gate_net := some net }
    else if kv.2 = "mosfet_kelvin_source" then { info with ks_net := some net }
    else info) info0
  if info1.drain_net.isNone then
    if c.part_id = "IMZA65R015M2H" then
      { info1 with drain_net := some (pinNetById c "1"), source_net := some (pinNetById c "2"),
                   ks_net := some (pinNetById c "3"), gate_net := some (pinNetById c "4") }
    else if strContains (pyUpper c.part_id) "BSC" then
      { info1 with source_net := some (pinNetById c "1"), gate_net := some (pinNetById c "4"),
                   drain_net := some (pinNetById c "5") }
    else info1
  else info1

/-- `_extract_two_terminal_nets` (`none` models the `(None, None)` result). -/
def extract_two_terminal_nets (c : Component) : Option (String × String) :=
  let nets := dedup ((c.pins.filter (fun p => p.net ≠ "" ∧ p.net ≠ "NC")).map (fun p => p.net))
  match nets with
  | a :: b :: _ => some (a, b)
  | _ => none

/-- `_extract_inductor_connections` (`""` models `None` terminals, which the
consumers only test for truthiness or compare against non-empty names). -/
structure IndInfo where
  ref : String
  part_id : String
  terminal_a_net : String := ""
  terminal_b_net : String := ""
  deriving DecidableEq, Repr

def extract_inductor_connections (c : Component) : IndInfo :=
  if c.part_id ∈ GENERIC_INDUCTOR_IDS then
    match extract_two_terminal_nets c with
    | some (a, b) => { ref := c.ref, part_id := c.part_id, terminal_a_net := a, terminal_b_net := b }
    | none => { ref := c.ref, part_id := c.part_id }
  else
    let collect := fun (pins : List String) =>
      dedup (pins.filterMap (fun p =>
        let n := pinNetById c p
        if n ≠ "" ∧ n ≠ "NC" then some n else none))
    let aNets := collect ["1", "2", "3", "4", "5", "6"]
    let bNets := collect ["7", "8", "9", "10", "11", "12"]
    { ref := c.ref, part_id := c.part_id,
      terminal_a_net := match aNets with | [x] => x | _ => "",
      terminal_b_net := match bNets with | [x] => x | _ => "" }

/-- `_extract_transformer_connections` (`""` models a `None` winding net). -/
structure XfmrInfo where
  ref : String
  pri1_net : String := ""
  pri2_net : String := ""
  sec1_net : String := ""
  sec2_net : String := ""
  deriving DecidableEq, Repr

def extract_transformer_connections (c : Component) : XfmrInfo :=
  let winding := fun (pins : List String) =>
    let nets := dedup (pins.filterMap (fun p =>
      let n := pinNetById c p
      if n ≠ "" ∧ n ≠ "NC" then some n else none))
    match nets with | [x] => x | _ => ""
  { ref := c.ref,
    pri1_net := winding ["1", "2", "3"], pri2_net := winding ["4", "5", "6"],
    sec1_net := winding ["7", "8", "9"], sec2_net := winding ["10", "11", "12"] }

/-- `_build_power_graph`'s result; `nets` is the net → [(ref, role)] map as
an insertion-ordered list of (net, ref, role) triples. -/
structure PowerGraph where
  mosfets : List MosfetInfo := []
  inductors : List IndInfo := []
  transformers : List XfmrInfo := []
  nets : List (String × String × String) := []
  deriving DecidableEq, Repr

/-- `_build_power_graph`. -/
def build_power_graph (s : Snapshot) (kg : KGStore) : PowerGraph :=
  s.components.foldl (fun g c =>
    if MOSFET_PATTERNS.any (fun pat => strContains (pyUpper c.part_id) pat) then
      let info := extract_mosfet_connections kg c
      let entries := [("drain", info.drain_net), ("source", info.source_net)].filterMap
        (fun rn => match rn.2 with
          | some net => if net ≠ "" ∧ net ≠ "NC" then some (net, c.ref, "mosfet_" ++ rn.1) else none
          | none => none)
      { g with mosfets := g.mosfets ++ [info], nets := g.nets ++ entries }
    else if c.part_id ∈ POWER_INDUCTOR_IDS ∨ c.part_id ∈ GENERIC_INDUCTOR_IDS then
      let info := extract_inductor_connections c
      let entries := [("terminal_a", info.terminal_a_net), ("terminal_b", info.terminal_b_net)].filterMap
        (fun rn => if rn.2 ≠ "" ∧ rn.2 ≠ "NC" then some (rn.2, c.ref, "inductor_" ++ rn.1) else none)
      { g with inductors := g.inductors ++ [info], nets := g.nets ++ entries }
    else if c.part_id ∈ TRANSFORMER_IDS then
      { g with transformers := g.transformers ++ [extract_transformer_connections c] }
    else g) {}

/-! ### The passive-induced net graph and the tank-path BFS -/

/-- One edge of `_build_passive_net_graph` (the `ref` the source stores is
never read by `_path_exists` and is dropped). -/
structure PEdge where
  a : String
  b : String
  part_id : String
  deriving DecidableEq, Repr

/-- `_build_passive_net_graph` as an edge list, one edge per allowed passive
component with two distinct, non-empty terminal nets. -/
def passiveEdges (s : Snapshot) (allowed_parts : List String) : List PEdge :=
  s.components.filterMap (fun c =>
    if c.part_id ∉ allowed_parts then none
    else
      let terms :=
        if c.part_id ∈ POWER_INDUCTOR_IDS then
          let ind := extract_inductor_connections c
          (ind.terminal_a_net, ind.terminal_b_net)
        else
          match extract_two_terminal_nets c with
          | some ab => ab
          | none => ("", "")
      if terms.1 ≠ "" ∧ terms.2 ≠ "" ∧ terms.1 ≠ terms.2 then
        some { a := terms.1, b := terms.2, part_id := c.part_id }
      else none)

/-- The adjacency list the edge list induces for one net; entry order matches
the Python `graph[...]` append order. -/
def edgeNeighbors (edges : List PEdge) (net : String) : List (String × String) :=
  edges.filterMap (fun e =>
    if e.a = net then some (e.b, e.part_id)
    else if e.b = net then some (e.a, e.part_id)
    else none)

/-- A BFS state of `_path_exists`: `(net, has_film, has_inductor)`. -/
structure BState where
  net : String
  film : Bool
  ind : Bool
  deriving DecidableEq, Repr

def isFilmPart (part : String) : Bool := part = "C_film"

def isIndPart (part : String) : Bool :=
  part ∈ POWER_INDUCTOR_IDS || part ∈ GENERIC_INDUCTOR_IDS

/-- Successor state along one edge (`nb_has_film` / `nb_has_ind`). -/
def succState (st : BState) (e : String × String) : BState :=
  { net := e.1, film := st.film || isFilmPart e.2, ind := st.ind || isIndPart e.2 }

/-- The early-return test of `_path_exists`' inner loop: the neighbour is the
end net and the accumulated flags meet the requirements. -/
def tankTrigger (endNet : String) (reqF reqI : Bool) (st : BState) (e : String × String) : Bool :=
  e.1 = endNet && (!reqF || (succState st e).film) && (!reqI || (succState st e).ind)

/-- The `while q:` loop of `_path_exists`, fuel-indexed.  The source returns
`True` from inside the neighbour loop (before appending the remaining
neighbours); returning on `any` and otherwise appending all successors is
result-equivalent, since a `True` return discards the queue. -/
def tankBfsAux (edges : List PEdge) (endNet : String) (reqF reqI : Bool) :
    Nat → List BState → List BState → Bool
  | _, [], _ => false
  | 0, _ :: _, _ => false
  | fuel + 1, st :: q, seen =>
      if st ∈ seen then tankBfsAux edges endNet reqF reqI fuel q seen
      else
        let nbrs := edgeNeighbors edges st.net
        if nbrs.any (tankTrigger endNet reqF reqI st) then true
        else tankBfsAux edges endNet reqF reqI fuel (q ++ nbrs.map (succState st)) (st :: seen)

/-- All nets the BFS can ever hold in a state: the start net and the edge
endpoints. -/
def tankAllNets (edges : List PEdge) (start : String) : List String :=
  dedup (start :: edges.flatMap (fun e => [e.a, e.b]))

/-- Fuel for `_path_exists`, proved sufficient below (≥ the BFS measure). -/
def tankFuel (edges : List PEdge) (start : String) : Nat :=
  4 * (tankAllNets edges start).length * (edges.length + 1) + 2

/-- `_path_exists`. -/
def path_exists (s : Snapshot) (start_net end_net : String) (allowed_parts : List String)
    (require_film require_inductor : Bool) : Bool :=
  if start_net = "" ∨ end_net = "" then false
  else if start_net = end_net then !(require_film || require_inductor)
  else
    let edges := passiveEdges s allowed_parts
    tankBfsAux edges end_net require_film require_inductor
      (tankFuel edges start_net) [{ net := start_net, film := false, ind := false }] []

/-- `_nets_connected` (system topology version). -/
def sysNetsConnected (s : Snapshot) (net_a net_b : String) (allowed_parts : List String) : Bool :=
  if net_a = "" ∨ net_b = "" then false
  else if net_a = net_b then true
  else path_exists s net_a net_b allowed_parts false false

/-- `_exists_required_tank_path`. -/
def exists_required_tank_path (s : Snapshot) (starts targets : List String)
    (require_film require_inductor : Bool) (allowed_parts : List String) : Bool :=
  starts.any (fun st => targets.any (fun t =>
    path_exists s st t allowed_parts require_film require_inductor))

end PCB

namespace PCB

/-- Generic first-occurrence dedup (for non-string keys). -/
def dedupG {α : Type} [DecidableEq α] : List α → List α
  | [] => []
  | x :: rest => x :: (dedupG rest).filter (fun y => y ≠ x)

/-- Python tuple repr `('a', 'b')` as interpolated into f-strings. -/
def pyReprStrPair (a b : String) : String :=
  "('" ++ a ++ "', '" ++ b ++ "')"

/-- `_resolve_named_net`. -/
def resolve_named_net (s : Snapshot) (desired : String) : Option String :=
  (s.nets.find? (fun n => pyUpper n.name = pyUpper desired)).map (fun n => n.name)

/-- A half-bridge record of `_infer_half_bridge_on_vsw` / `_enumerate_half_bridges`. -/
structure HB where
  vsw : String
  hs : MosfetInfo
  ls : MosfetInfo
  bus : String
  gnd : String
  deriving DecidableEq, Repr

/-- A (full-)bridge record (`vsw_nodes`, `bus`, `gnd`); the `half_bridges`
field the source also stores is never read downstream and is dropped. -/
structure Bridge where
  vsw_nodes : List String
  bus : String
  gnd : String
  deriving DecidableEq, Repr

/-- `_infer_half_bridge_on_vsw`. -/
def infer_half_bridge_on_vsw (mosfets : List MosfetInfo) (vsw_net : String) :
    Option HB × List String :=
  if vsw_net = "" then (none, ["missing VSW net"])
  else
    let hs_candidates := mosfets.filter (fun m =>
      m.source_net.getD "" = vsw_net && optTruthy m.drain_net)
    let ls_candidates := mosfets.filter (fun m =>
      m.drain_net.getD "" = vsw_net && optTruthy m.source_net)
    if hs_candidates.isEmpty then
      (none, [s!"no high-side candidate with source=VSW ({vsw_net})"])
    else if ls_candidates.isEmpty then
      (none, [s!"no low-side candidate with drain=VSW ({vsw_net})"])
    else
      let pairs := hs_candidates.flatMap (fun hs => ls_candidates.map (fun ls => (hs, ls)))
      let best := pairs.foldl (fun (acc : Option (HB × Nat)) pr =>
        if pr.1.ref = pr.2.ref then acc
        else
          let bus := pr.1.drain_net.getD ""
          let gnd := pr.2.source_net.getD ""
          if bus = "" ∨ gnd = "" then acc
          else
            let score := (if is_ground_net gnd then 3 else 0)
              + (if !is_ground_net bus then 1 else 0)
              + (if is_input_supply_net bus then 1 else 0)
            let better := match acc with
              | none => true
              | some best0 => score > best0.2
            if better then
              some ({ vsw := vsw_net, hs := pr.1, ls := pr.2, bus := bus, gnd := gnd }, score)
            else acc) none
      match best with
      | none => (none, [s!"cannot form half-bridge around {vsw_net}"])
      | some best0 =>
          if !is_ground_net best0.1.gnd then
            (some best0.1, [s!"LS source ({best0.1.gnd}) does not look like a ground net"])
          else (some best0.1, [])

/-- `_infer_full_bridge_from_vsw`. -/
def infer_full_bridge_from_vsw (mosfets : List MosfetInfo) (vsw_nets : List String) :
    Option Bridge × List String :=
  match vsw_nets with
  | [v1, v2] =>
      let r1 := infer_half_bridge_on_vsw mosfets v1
      let r2 := infer_half_bridge_on_vsw mosfets v2
      let errors := r1.2 ++ r2.2
      match r1.1, r2.1 with
      | some h1, some h2 =>
          let errors := errors ++
            (if h1.bus ≠ h2.bus ∨ h1.gnd ≠ h2.gnd then
              [s!"half-bridges do not share common bus/gnd (HB1 bus/gnd={h1.bus}/{h1.gnd}, HB2 bus/gnd={h2.bus}/{h2.gnd})"]
            else [])
          (some { vsw_nodes := [h1.vsw, h2.vsw], bus := h1.bus, gnd := h1.gnd }, errors)
      | _, _ => (none, errors)
  | _ => (none, ["expected exactly 2 switch nodes for full-bridge"])

/-- `_infer_multi_half_bridges`; both callers discard the bridge value, so
only the error list is returned. -/
def infer_multi_half_bridges_errors (mosfets : List MosfetInfo) (vsw_nets : List String)
    (require_input_bus : Bool) : List String :=
  let step := vsw_nets.foldl (fun (acc : List HB × List String) vsw =>
    let r := infer_half_bridge_on_vsw mosfets vsw
    let errs2 := if r.2 ≠ [] then acc.2 ++ [s!"{vsw}: " ++ String.intercalate "; " r.2] else acc.2
    match r.1 with
    | some h => (acc.1 ++ [h], errs2)
    | none => (acc.1, errs2)) ([], [])
  let hbs := step.1
  let errors := step.2
  if hbs.length ≠ vsw_nets.length then errors
  else
    match hbs with
    | [] => errors  -- unreachable: both callers pass non-empty vsw_nets
    | h0 :: rest =>
        let errors := errors ++ rest.filterMap (fun hb =>
          if hb.bus ≠ h0.bus ∨ hb.gnd ≠ h0.gnd then
            some s!"half-bridges do not share common bus/gnd (expected {h0.bus}/{h0.gnd}, got {hb.bus}/{hb.gnd})"
          else none)
        errors ++
          (if require_input_bus ∧ ¬ is_input_supply_net h0.bus then
            [s!"bus net ({h0.bus}) does not look like an input supply (VIN/VBUS/...)"]
          else [])

/-- `_enumerate_half_bridges`.  The source iterates
`set(by_source) & set(by_drain)`, whose order Python leaves unspecified; we
fix first-insertion order of the source-net keys. -/
def enumerate_half_bridges (mosfets : List MosfetInfo) : List HB :=
  let sourceKeys := dedup (mosfets.filterMap (fun m =>
    if optTruthy m.source_net then some (m.source_net.getD "") else none))
  let drainKeys := dedup (mosfets.filterMap (fun m =>
    if optTruthy m.drain_net then some (m.drain_net.getD "") else none))
  (sourceKeys.filter (fun k => k ∈ drainKeys)).flatMap (fun vsw =>
    let hss := mosfets.filter (fun m => m.source_net.getD "" = vsw && optTruthy m.source_net)
    let lss := mosfets.filter (fun m => m.drain_net.getD "" = vsw && optTruthy m.drain_net)
    hss.flatMap (fun hs => lss.filterMap (fun ls =>
      if hs.ref = ls.ref then none
      else
        let bus := hs.drain_net.getD ""
        let gnd := ls.source_net.getD ""
        if bus = "" ∨ gnd = "" then none
        else if ¬ is_ground_net gnd then none
        else if is_ground_net bus then none
        else some { vsw := vsw, hs := hs, ls := ls, bus := bus, gnd := gnd })))

/-- `_infer_bridge_candidates`. -/
def infer_bridge_candidates (mosfets : List MosfetInfo) : List Bridge :=
  let hbs := enumerate_half_bridges mosfets
  let keys := dedupG (hbs.map (fun hb => (hb.bus, hb.gnd)))
  keys.filterMap (fun k =>
    let vsws := sortStrings (dedup ((hbs.filter
      (fun hb => hb.bus = k.1 ∧ hb.gnd = k.2)).map (fun hb => hb.vsw)))
    if vsws.length < 2 then none
    else some { vsw_nodes := vsws, bus := k.1, gnd := k.2 })

/-- `_bridge_covers_terms`. -/
def bridge_covers_terms (s : Snapshot) (vsw_nodes : List String) (t1 t2 : String)
    (allowed_parts : List String) : Bool :=
  if t1 = "" ∨ t2 = "" then false
  else if vsw_nodes.isEmpty then false
  else
    (vsw_nodes.any (fun vsw => sysNetsConnected s vsw t1 allowed_parts))
    && (vsw_nodes.any (fun vsw => sysNetsConnected s vsw t2 allowed_parts))

/-- `_bridge_transformer_side`. -/
def bridge_transformer_side (s : Snapshot) (vsw_nodes : List String)
    (pri1 pri2 sec1 sec2 : String) (allowed_parts : List String) : String :=
  let priOk := bridge_covers_terms s vsw_nodes pri1 pri2 allowed_parts
  let secOk := bridge_covers_terms s vsw_nodes sec1 sec2 allowed_parts
  if priOk && secOk then "both"
  else if priOk then "pri"
  else if secOk then "sec"
  else "none"

/-- `_infer_other_bridge_connected_to_terms`. -/
def infer_other_bridge_connected_to_terms (s : Snapshot) (mosfets : List MosfetInfo)
    (exBus exGnd : String) (t1 t2 : String) (allowed_parts : List String) :
    Option Bridge × List String :=
  let candidates := (infer_bridge_candidates mosfets).filter (fun b =>
    ¬ (b.bus = exBus ∧ b.gnd = exGnd))
  match candidates.find? (fun b => bridge_covers_terms s b.vsw_nodes t1 t2 allowed_parts) with
  | some b => (some { b with vsw_nodes := b.vsw_nodes.take 2 }, [])
  | none =>
      (none, [s!"cannot find a second full-bridge connected to transformer terminals {pyReprStrPair t1 t2}"])

/-- `_select_input_bridge`. -/
def select_input_bridge (s : Snapshot) (bridges : List Bridge) :
    Option Bridge × List String :=
  let fallback :=
    match bridges.filter (fun b => is_input_supply_net b.bus) with
    | [] => ((none : Option Bridge),
        ["cannot identify VIN/VBUS-referenced input bridge (bus net not VIN/VBUS-like)"])
    | b :: _ => (some b, [])
  match resolve_named_net s "VIN" with
  | some vin =>
      (match bridges.filter (fun b => b.bus = vin || strContains (pyUpper b.bus) "VIN") with
       | b :: _ => (some b, [])
       | [] => fallback)
  | none => fallback

/-- The switch-node candidate scan shared verbatim by the buck, boost and
buck-boost verifiers: nets with ≥ 2 MOSFET pins (both a source and a drain
among them) and ≥ 1 inductor terminal, in first-insertion order. -/
def vswCandidates (nets : List (String × String × String)) : List String :=
  let keys := dedup (nets.map (fun e => e.1))
  keys.filter (fun name =>
    let conns := nets.filter (fun e => e.1 = name)
    let mosfetPins := conns.filter (fun e => strContains e.2.2 "mosfet")
    let inductorPins := conns.filter (fun e => strContains e.2.2 "inductor")
    mosfetPins.length ≥ 2 && inductorPins.length ≥ 1
      && mosfetPins.any (fun e => strContains e.2.2 "source")
      && mosfetPins.any (fun e => strContains e.2.2 "drain"))

/-- `_verify_sync_buck`. -/
def verify_sync_buck (g : PowerGraph) (_s : Snapshot) : List String :=
  if g.mosfets.length < 2 then ["Sync buck requires at least 2 MOSFETs"]
  else if g.inductors.length < 1 then ["Sync buck requires a power inductor"]
  else
    match vswCandidates g.nets with
    | [] =>
        ["Cannot find VSW (switch node): Expected a net connecting HS MOSFET source, LS MOSFET drain, and inductor terminal"]
    | vsw :: _ =>
        let hs := g.mosfets.reverse.find? (fun m => m.source_net.getD "" = vsw)
        let ls := g.mosfets.reverse.find? (fun m =>
          ¬ (m.source_net.getD "" = vsw) ∧ m.drain_net.getD "" = vsw)
        let missing :=
          (if hs.isNone then
            [s!"Cannot identify high-side MOSFET: No MOSFET has source connected to VSW ({vsw})"]
          else [])
          ++ (if ls.isNone then
            [s!"Cannot identify low-side MOSFET: No MOSFET has drain connected to VSW ({vsw})"]
          else [])
        match hs, ls with
        | some hsM, some lsM =>
            let hsDrain := hsM.drain_net.getD ""
            let lsSource := lsM.source_net.getD ""
            (if ¬ is_input_supply_net hsDrain then
              [s!"HS MOSFET ({hsM.ref}) drain ({hsDrain}) should connect to input supply (VIN/VBUS), but doesn't appear to"]
            else [])
            ++ (if ¬ is_ground_net lsSource then
              [s!"LS MOSFET ({lsM.ref}) source ({lsSource}) should connect to ground (GND/PGND), but doesn't appear to"]
            else [])
            ++ g.inductors.flatMap (fun ind =>
              if ind.terminal_a_net = vsw then
                if ¬ is_output_net ind.terminal_b_net then
                  [s!"Inductor ({ind.ref}) terminal B ({ind.terminal_b_net}) should connect to output (VOUT), but doesn't appear to"]
                else []
              else if ind.terminal_b_net = vsw then
                if ¬ is_output_net ind.terminal_a_net then
                  [s!"Inductor ({ind.ref}) terminal A ({ind.terminal_a_net}) should connect to output (VOUT), but doesn't appear to"]
                else []
              else [s!"Inductor ({ind.ref}) is not connected to VSW ({vsw})"])
        | _, _ => missing

/-- One switch-node attempt of `_verify_sync_boost`'s candidate loop. -/
def boostTry (g : PowerGraph) (vin vout : Option String) (vsw : String) : List String :=
  let ls := g.mosfets.find? (fun m =>
    m.drain_net.getD "" = vsw && is_ground_net (m.source_net.getD ""))
  let hs := g.mosfets.find? (fun m =>
    m.source_net.getD "" = vsw && (m.drain_net = vout || is_output_net (m.drain_net.getD "")))
  (if ls.isNone then
    [s!"Boost: cannot find low-side MOSFET with drain=VSW ({vsw}) and source=GND"]
  else [])
  ++ (if hs.isNone then
    [s!"Boost: cannot find high-side MOSFET with source=VSW ({vsw}) and drain=VOUT"]
  else [])
  ++ (match vin with
      | some v =>
          if g.inductors.any (fun ind =>
              ind.terminal_a_net ≠ "" && ind.terminal_b_net ≠ "" &&
                ((ind.terminal_a_net = v && ind.terminal_b_net = vsw)
                  || (ind.terminal_b_net = v && ind.terminal_a_net = vsw))) then []
          else [s!"Boost: expected inductor between VIN ({v}) and VSW ({vsw})"]
      | none => ["Boost: cannot find VIN net in snapshot (expected Net('VIN'))"])

/-- The candidate loop of `_verify_sync_boost` (first fully-matching switch
node succeeds; otherwise the first candidate's errors are reported). -/
def boostSearch (g : PowerGraph) (vin vout : Option String) (allCands : List String) :
    List String → Option (List String) → List String
  | [], best =>
      (match best with
       | some es => es
       | none => [s!"Boost: VSW candidates found ({pyReprStrList allCands}) but none match boost topology"])
  | vsw :: rest, best =>
      let le := boostTry g vin vout vsw
      if le = [] then []
      else boostSearch g vin vout allCands rest (match best with | some b => some b | none => some le)

/-- `_verify_sync_boost`. -/
def verify_sync_boost (g : PowerGraph) (s : Snapshot) : List String :=
  if g.mosfets.length < 2 then ["Sync boost requires at least 2 MOSFETs"]
  else if g.inductors.length < 1 then ["Sync boost requires a power inductor"]
  else
    match vswCandidates g.nets with
    | [] => ["Cannot find VSW (switch node): Expected a net connecting 2 MOSFETs and inductor"]
    | cands =>
        boostSearch g (resolve_named_net s "VIN") (resolve_named_net s "VOUT") cands cands none

/-- `_verify_4sw_buckboost`. -/
def verify_4sw_buckboost (g : PowerGraph) (s : Snapshot) : List String :=
  if g.mosfets.length < 4 then ["4-switch buck-boost requires at least 4 MOSFETs"]
  else if g.inductors.length < 1 then
    ["4-switch buck-boost requires a power inductor between the two switch nodes"]
  else
    let vin := resolve_named_net s "VIN"
    match resolve_named_net s "VOUT" with
    | none => ["4-switch buck-boost expects an output net named VOUT"]
    | some voutN =>
        let cands := vswCandidates g.nets
        if cands.length < 2 then
          ["4-switch buck-boost: cannot find two switch nodes (VSW): expected two nets each tying HS source + LS drain + inductor terminal"]
        else
          let findHb := fun (vsw expected : String) =>
            ((g.mosfets.find? (fun m =>
                m.source_net.getD "" = vsw && m.drain_net = some expected)),
             (g.mosfets.find? (fun m =>
                m.drain_net.getD "" = vsw && is_ground_net (m.source_net.getD ""))))
          let pairs := cands.flatMap (fun a =>
            cands.filterMap (fun b => if a = b then none else some (a, b)))
          let best := pairs.find? (fun ab =>
            let rIn := match vin with
              | some v => findHb ab.1 v
              | none => (none, none)
            let rOut := findHb ab.2 voutN
            rIn.1.isSome && rIn.2.isSome && rOut.1.isSome && rOut.2.isSome &&
              g.inductors.any (fun ind =>
                (ind.terminal_a_net = ab.1 && ind.terminal_b_net = ab.2)
                || (ind.terminal_a_net = ab.2 && ind.terminal_b_net = ab.1)))
          if best.isNone then
            ["4-switch buck-boost: expected two half-bridges (VIN-side and VOUT-side) with an inductor between their switch nodes"]
          else []

/-- `_verify_dab`. -/
def verify_dab (g : PowerGraph) (s : Snapshot) : List String :=
  if g.mosfets.length < 8 then ["DAB requires at least 8 MOSFETs (4 per bridge)"]
  else
    match g.transformers with
    | [] => ["DAB requires a transformer"]
    | xfmr :: _ =>
        let pri1 := xfmr.pri1_net
        let pri2 := xfmr.pri2_net
        let sec1 := xfmr.sec1_net
        let sec2 := xfmr.sec2_net
        if pri1 = "" ∨ pri2 = "" ∨ sec1 = "" ∨ sec2 = "" then
          ["DAB: transformer primary/secondary nets are incomplete (check transformer pin wiring)"]
        else
          match resolve_named_net s "VSW_1", resolve_named_net s "VSW_2" with
          | some v1, some v2 =>
              (match infer_full_bridge_from_vsw g.mosfets [v1, v2] with
               | (some outputBridge, []) =>
                   let outSide := bridge_transformer_side s outputBridge.vsw_nodes
                     pri1 pri2 sec1 sec2 PATH_PART_IDS
                   if outSide = "none" then
                     [s!"DAB: output bridge switch nodes ({v1}, {v2}) are not connected to transformer (pri={pyReprStrPair pri1 pri2}, sec={pyReprStrPair sec1 sec2})"]
                   else
                     let otherTerms := if outSide = "pri" then (sec1, sec2) else (pri1, pri2)
                     (match infer_other_bridge_connected_to_terms s g.mosfets
                         outputBridge.bus outputBridge.gnd otherTerms.1 otherTerms.2 PATH_PART_IDS with
                      | (some otherBridge, []) =>
                          (match select_input_bridge s [outputBridge, otherBridge] with
                           | (some inputBridge, []) =>
                               let inputSide := bridge_transformer_side s inputBridge.vsw_nodes
                                 pri1 pri2 sec1 sec2 PATH_PART_IDS
                               if inputSide = "none" then
                                 ["DAB: input bridge is not connected to transformer (unexpected wiring)"]
                               else
                                 let targetTerms :=
                                   if inputSide = "pri" then [pri1, pri2] else [sec1, sec2]
                                 if ¬ exists_required_tank_path s inputBridge.vsw_nodes targetTerms
                                     true true PATH_PART_IDS then
                                   ["DAB: missing series tank elements (need both C_film and inductor on VIN-side path to transformer)"]
                                 else []
                           | (_, inputErrs) => inputErrs.map (fun e => s!"DAB: {e}"))
                      | (_, otherErrs) => otherErrs.map (fun e => s!"DAB: {e}"))
               | (_, outErrs) => outErrs.map (fun e => s!"DAB: output bridge: {e}"))
          | _, _ => ["DAB: expected named ports VSW_1 and VSW_2"]

/-- `_verify_llc`. -/
def verify_llc (g : PowerGraph) (s : Snapshot) : List String :=
  if g.mosfets.length < 8 then
    ["LLC requires at least 8 MOSFETs (full-bridge primary + full-bridge secondary)"]
  else
    match g.transformers with
    | [] => ["LLC requires a transformer"]
    | xfmr :: _ =>
        let pri1 := xfmr.pri1_net
        let pri2 := xfmr.pri2_net
        let sec1 := xfmr.sec1_net
        let sec2 := xfmr.sec2_net
        if pri1 = "" ∨ pri2 = "" ∨ sec1 = "" ∨ sec2 = "" then
          ["LLC: transformer primary/secondary nets are incomplete (check transformer pin wiring)"]
        else
          match resolve_named_net s "VSW_1", resolve_named_net s "VSW_2" with
          | some v1, some v2 =>
              (match infer_full_bridge_from_vsw g.mosfets [v1, v2] with
               | (some outputBridge, []) =>
                   let outSide := bridge_transformer_side s outputBridge.vsw_nodes
                     pri1 pri2 sec1 sec2 PATH_PART_IDS
                   if outSide = "none" then
                     [s!"LLC: output bridge switch nodes ({v1}, {v2}) are not connected to transformer (pri={pyReprStrPair pri1 pri2}, sec={pyReprStrPair sec1 sec2})"]
                   else
                     let otherTerms := if outSide = "pri" then (sec1, sec2) else (pri1, pri2)
                     (match infer_other_bridge_connected_to_terms s g.mosfets
                         outputBridge.bus outputBridge.gnd otherTerms.1 otherTerms.2 PATH_PART_IDS with
                      | (some otherBridge, []) =>
                          (match select_input_bridge s [outputBridge, otherBridge] with
                           | (some inputBridge, []) =>
                               let inputSide := bridge_transformer_side s inputBridge.vsw_nodes
                                 pri1 pri2 sec1 sec2 PATH_PART_IDS
                               if inputSide = "none" then
                                 ["LLC: input bridge is not connected to transformer (unexpected wiring)"]
                               else
                                 let targetTerms :=
                                   if inputSide = "pri" then [pri1, pri2] else [sec1, sec2]
                                 inputBridge.vsw_nodes.flatMap (fun vsw =>
                                   if ¬ exists_required_tank_path s [vsw] targetTerms
                                       true true PATH_PART_IDS then
                                     [s!"LLC: resonant tank missing between {vsw} and transformer (need C_film + inductor)"]
                                   else [])
                           | (_, inputErrs) => inputErrs.map (fun e => s!"LLC: {e}"))
                      | (_, otherErrs) => otherErrs.map (fun e => s!"LLC: {e}"))
               | (_, outErrs) => outErrs.map (fun e => s!"LLC: output bridge: {e}"))
          | _, _ => ["LLC: expected named ports VSW_1 and VSW_2"]

/-- `_verify_3ph_inverter`. -/
def verify_3ph_inverter (g : PowerGraph) (s : Snapshot) : List String :=
  if g.mosfets.length < 6 then ["3-phase inverter requires at least 6 MOSFETs"]
  else
    match resolve_named_net s "VSW_1", resolve_named_net s "VSW_2", resolve_named_net s "VSW_3" with
    | some v1, some v2, some v3 =>
        (infer_multi_half_bridges_errors g.mosfets [v1, v2, v3] true).map
          (fun e => s!"3-phase inverter: {e}")
    | _, _, _ => ["3-phase inverter: expected output nets named VSW_1, VSW_2, VSW_3"]

/-- `_verify_1ph_fullbridge`. -/
def verify_1ph_fullbridge (g : PowerGraph) (s : Snapshot) : List String :=
  if g.mosfets.length < 4 then ["Single-phase full-bridge requires at least 4 MOSFETs"]
  else
    match resolve_named_net s "VSW_1", resolve_named_net s "VSW_2" with
    | some v1, some v2 =>
        (infer_multi_half_bridges_errors g.mosfets [v1, v2] true).map
          (fun e => s!"Single-phase inverter: {e}")
    | _, _ => ["Single-phase inverter: expected output nets named VSW_1 and VSW_2"]

end PCB

namespace PCB

/-- `_count_components`' result. -/
structure CompCounts where
  mosfets : Nat := 0
  gate_drivers : Nat := 0
  isolated_supplies : Nat := 0
  transformers : Nat := 0
  film_caps : Nat := 0
  power_inductors : Nat := 0
  inductors : Nat := 0
  caps : Nat := 0
  resistors : Nat := 0
  deriving DecidableEq, Repr

/-- `_count_components`. -/
def count_components (s : Snapshot) : CompCounts :=
  s.components.foldl (fun counts c =>
    if MOSFET_PATTERNS.any (fun pat => strContains (pyUpper c.part_id) pat) then
      { counts with mosfets := counts.mosfets + 1 }
    else if c.part_id ∈ GATE_DRIVER_IDS then
      { counts with gate_drivers := counts.gate_drivers + 1 }
    else if c.part_id ∈ ISOLATED_SUPPLY_IDS then
      { counts with isolated_supplies := counts.isolated_supplies + 1 }
    else if c.part_id ∈ TRANSFORMER_IDS then
      { counts with transformers := counts.transformers + 1 }
    else if c.part_id ∈ FILM_CAP_IDS then
      { counts with film_caps := counts.film_caps + 1 }
    else if c.part_id ∈ POWER_INDUCTOR_IDS then
      { counts with power_inductors := counts.power_inductors + 1 }
    else if c.part_id ∈ GENERIC_INDUCTOR_IDS then
      { counts with inductors := counts.inductors + 1 }
    else if c.part_id = "C" then
      { counts with caps := counts.caps + 1 }
    else if c.part_id = "R" then
      { counts with resistors := counts.resistors + 1 }
    else counts) {}

/-- `_check_component_counts`. -/
def check_component_counts (counts : CompCounts) (tpl : TaskTemplate) (task_id : Nat) :
    List String :=
  (if counts.mosfets < tpl.min_mosfets then
    [s!"Task {task_id} ({tpl.name}) requires at least {tpl.min_mosfets} MOSFETs, but only {counts.mosfets} found"]
  else [])
  ++ (if counts.gate_drivers < tpl.min_gate_drivers then
    [s!"Task {task_id} ({tpl.name}) requires at least {tpl.min_gate_drivers} gate drivers, but only {counts.gate_drivers} found"]
  else [])
  ++ (if counts.isolated_supplies < tpl.min_isolated_supplies then
    [s!"Task {task_id} ({tpl.name}) requires at least {tpl.min_isolated_supplies} isolated power supplies, but only {counts.isolated_supplies} found"]
  else [])

/-- `_count_output_caps`. -/
def count_output_caps (s : Snapshot) : Nat :=
  s.nets.foldl (fun acc n =>
    let nu := pyUpper n.name
    if strContains nu "VOUT" ∨ nu = "OUT" ∨ strContains nu "OUTPUT" then
      acc + (n.endpoints.filter (fun ep =>
        match find_component_by_ref s ep.ref with
        | some comp => comp.part_id = "C"
        | none => false)).length
    else acc) 0

/-- `_check_vbus_decoupling`. -/
def check_vbus_decoupling (s : Snapshot) (task_id : Nat) : List String :=
  let vbusNets := s.nets.filter (fun n =>
    let nu := pyUpper n.name
    (strContains nu "VBUS" ∨ strContains nu "VIN")
      ∧ n.endpoints.any (fun ep => ep.pin_role = "mosfet_drain"))
  vbusNets.flatMap (fun n =>
    let capCount := (n.endpoints.filter (fun ep =>
      match find_component_by_ref s ep.ref with
      | some comp => comp.part_id = "C"
      | none => false)).length
    if task_id ∈ [17, 18, 19, 20, 21, 22, 23] then
      if capCount < 8 then
        [s!"VBUS net '{n.name}' has only {capCount} decoupling capacitors. High dv/dt applications MUST have at least 8 capacitors."]
      else []
    else [])

/-- `_verify_power_topology`. -/
def verify_power_topology (s : Snapshot) (topology_type : String) (kg : KGStore) : List String :=
  let g := build_power_graph s kg
  if topology_type = "sync_buck" then verify_sync_buck g s
  else if topology_type = "sync_boost" then verify_sync_boost g s
  else if topology_type = "4sw_buckboost" then verify_4sw_buckboost g s
  else if topology_type = "dab" then verify_dab g s
  else if topology_type = "llc" then verify_llc g s
  else if topology_type = "3ph_inverter" then verify_3ph_inverter g s
  else if topology_type = "1ph_fullbridge" then verify_1ph_fullbridge g s
  else []

/-- `check_system_topology`. -/
def check_system_topology (s : Snapshot) (task_id : Nat) (kg : KGStore) : List String :=
  match TASK_TEMPLATES task_id with
  | none => []
  | some tpl =>
      let counts := count_components s
      check_component_counts counts tpl task_id
      ++ (if tpl.requires_transformer ∧ counts.transformers = 0 then
            [s!"Task {task_id} ({tpl.name}) requires a transformer but none found"]
          else [])
      ++ (if tpl.requires_resonant_cap ∧ counts.film_caps = 0 then
            [s!"Task {task_id} ({tpl.name}) requires film capacitors for resonant tank, but none found"]
          else [])
      ++ (if tpl.requires_resonant_inductor ∧ counts.power_inductors = 0 ∧ counts.inductors = 0 then
            [s!"Task {task_id} ({tpl.name}) requires power inductor (Inductor_power or L) for resonant tank, but none found"]
          else [])
      ++ (if tpl.requires_blocking_cap ∧ counts.film_caps = 0 then
            [s!"Task {task_id} ({tpl.name}) requires blocking capacitors in series with transformer, but none found"]
          else [])
      ++ (if tpl.requires_inductor ∧ counts.power_inductors = 0 then
            [s!"Task {task_id} ({tpl.name}) requires a power inductor but none found"]
          else [])
      ++ (if tpl.min_output_caps > 0 ∧ count_output_caps s < tpl.min_output_caps then
            [s!"Task {task_id} ({tpl.name}) requires at least {tpl.min_output_caps} output capacitors, but only {count_output_caps s} found on VOUT nets"]
          else [])
      ++ check_vbus_decoupling s task_id
      ++ verify_power_topology s tpl.topology_type kg

/-- `is_complex_task`. -/
def is_complex_task (task_id : Nat) : Bool :=
  (TASK_TEMPLATES task_id).isSome

/-! ## `match_skeleton.py` — component-count tolerance

Only the count-tolerance sub-check is embedded (no claim touches the
NetworkX subgraph-isomorphism part).  The source computes
`math.ceil(std_count * (1 - tol))` and `math.floor(std_count * (1 + tol))`
with `tol = 0.5`, which is exact in binary floating point; the integer
formulas below are the exact ceiling/floor.  For the task-16 R/C override
(`tol = 0.6`) we use the exact rational value; the corresponding Python
float arithmetic can differ from the exact rational only on reference
counts far larger than any benchmark snapshot, and no claim exercises it. -/

def P16_PASSIVE_TOLERANCE_NUM : Nat := 3  -- 0.6 = 3/5
def P16_PASSIVE_TOLERANCE_DEN : Nat := 5

/-- `_component_part_counts` as a lookup (components with an empty
`part_id` are skipped). -/
def component_part_count (s : Snapshot) (part_id : String) : Nat :=
  (s.components.filter (fun c => c.part_id = part_id ∧ c.part_id ≠ "")).length

/-- The part ids the tolerance loop iterates: `sorted(set(std) | set(gen))`. -/
def tolParts (std gen : Snapshot) : List String :=
  sortStrings (dedup
    ((std.components ++ gen.components).filterMap (fun c =>
      if c.part_id ≠ "" then some c.part_id else none)))

/-- The loop body of `_check_component_count_tolerance` for one `part_id`:
`ceil(std*(1-tol))` and `floor(std*(1+tol))` written as exact integer
arithmetic (`tol = 1/2`, or `3/5` for task-16 R/C). -/
def tolErrorsForPart (task_id : Option Nat) (part_id : String) (stdCount genCount : Nat) :
    List String :=
  if task_id = some 15 ∧ part_id = "D" then []
  else
    let p16 := task_id = some 16 ∧ (part_id = "R" ∨ part_id = "C")
    if stdCount = 0 then
      if genCount ≥ 4 then
        [s!"Component count out of tolerance: {part_id} std=0 gen={genCount} (allowed 0-3)"]
      else []
    else
      let minCount := if stdCount ≤ 4 then 1
        else if p16 then (P16_PASSIVE_TOLERANCE_DEN - P16_PASSIVE_TOLERANCE_NUM) * stdCount / P16_PASSIVE_TOLERANCE_DEN
          + (if (P16_PASSIVE_TOLERANCE_DEN - P16_PASSIVE_TOLERANCE_NUM) * stdCount % P16_PASSIVE_TOLERANCE_DEN = 0 then 0 else 1)
        else stdCount / 2 + (if stdCount % 2 = 0 then 0 else 1)
      let maxCount := if stdCount ≤ 4 then 4
        else if p16 then (P16_PASSIVE_TOLERANCE_DEN + P16_PASSIVE_TOLERANCE_NUM) * stdCount / P16_PASSIVE_TOLERANCE_DEN
        else 3 * stdCount / 2
      if genCount < minCount ∨ genCount > maxCount then
        [s!"Component count out of tolerance: {part_id} std={stdCount} gen={genCount} (allowed {minCount}-{maxCount})"]
      else []

/-- `_check_component_count_tolerance`. -/
def check_component_count_tolerance (std gen : Snapshot) (task_id : Option Nat) :
    List String :=
  let errors := (tolParts std gen).flatMap (fun part_id =>
    tolErrorsForPart task_id part_id (component_part_count std part_id)
      (component_part_count gen part_id))
  if errors = [] then []
  else "NetworkX component count tolerance check failed." :: errors

end PCB

namespace PCB

/-! ## `rule_extractor.py` -/

/-- Python `s.isdigit()` for the ASCII strings the pipeline handles. -/
def pyIsDigit (s : String) : Bool :=
  s.length ≠ 0 && s.toList.all Char.isDigit

def UCC21710_ID : String := "UCC21710"

def UCC21710_PRIMARY_PIN_NAMES : List String :=
  ["GND", "IN+", "IN-", "RDY", "~\x7bFLT\x7d", "~\x7bRST\x7d/EN", "VCC", "APWM"]

def UCC21710_SECONDARY_PIN_NAMES : List String :=
  ["AIN", "OC", "COM", "OUTH", "VDD", "OUTL", "CLMPI", "VEE"]

/-- An endpoint descriptor; `""` models an absent/`None` field, matching the
`or ""` normalisations of `_endpoint_key` / `_endpoint_signature`. -/
structure EPDesc where
  part_id : String := ""
  category : String := ""
  pin_role : String := ""
  pin_id : String := ""
  pin_name : String := ""
  domain : String := ""
  deriving DecidableEq, Repr

/-- A connection rule as built by `_add_rule`. -/
structure Rule where
  rule_type : String
  endpoint_a : EPDesc
  endpoint_b : EPDesc
  allow_series : Bool := false
  min_count : Nat := 1
  fail_on_short : Bool := true
  deriving DecidableEq, Repr

/-- `_ucc21710_domain` (`""` = `None`). -/
def ucc21710_domain (pin_id pin_name : String) : String :=
  let byNum :=
    if pin_id ≠ "" ∧ pyIsDigit pin_id then
      let n := (pyToNat? pin_id).getD 0
      if 1 ≤ n ∧ n ≤ 8 then "secondary"
      else if 9 ≤ n ∧ n ≤ 16 then "primary"
      else ""
    else ""
  if byNum ≠ "" then byNum
  else if pin_name ∈ UCC21710_PRIMARY_PIN_NAMES then "primary"
  else if pin_name ∈ UCC21710_SECONDARY_PIN_NAMES then "secondary"
  else ""

/-- `_collect_net_endpoints`, as a per-net query (the source builds the whole
dict at once; `defaultdict` lookup of a missing net is the empty list). -/
def collect_net_endpoints (s : Snapshot) (net : String) : List EPDesc :=
  s.components.flatMap (fun c =>
    if c.category = "passive" then []
    else c.pins.filterMap (fun p =>
      if p.net = net ∧ p.net ≠ "" then
        let ep : EPDesc := ⟨c.part_id, c.category, p.pin_role, p.pin_id, p.pin_name, ""⟩
        some (if c.part_id = UCC21710_ID then
                { ep with domain := ucc21710_domain ep.pin_id ep.pin_name }
              else ep)
      else none))

/-- `_component_nets`. -/
def component_nets (c : Component) : List String :=
  (dedup (c.pins.map (fun p => p.net))).filter (fun n => n ≠ "")

/-- Lexicographic chaining of comparisons. -/
def ordThen (o : Ordering) (f : Unit → Ordering) : Ordering :=
  match o with
  | Ordering.eq => f ()
  | o => o

/-- The sort key of `_endpoint_key`, as a lexicographic comparison
(`_pick_endpoint` prefers endpoints that carry a pin role, then orders on
the remaining fields; Python compares strings by code point, as `compare`
on `String` does). -/
def epKeyCompare (x y : EPDesc) : Ordering :=
  ordThen (compare (if x.pin_role ≠ "" then (0 : Nat) else 1)
                   (if y.pin_role ≠ "" then (0 : Nat) else 1)) fun _ =>
  ordThen (compare x.part_id y.part_id) fun _ =>
  ordThen (compare x.category y.category) fun _ =>
  ordThen (compare x.pin_role y.pin_role) fun _ =>
  ordThen (compare x.pin_id y.pin_id) fun _ =>
  ordThen (compare x.pin_name y.pin_name) fun _ =>
  compare x.domain y.domain

def epKeyLt (x y : EPDesc) : Bool :=
  epKeyCompare x y = Ordering.lt

/-- `_pick_endpoint`: the first minimal element under the key (Python's
stable `sorted(...)[0]`). -/
def pick_endpoint (eps : List EPDesc) : Option EPDesc :=
  match eps with
  | [] => none
  | e :: rest => some (rest.foldl (fun best x => if epKeyLt x best then x else best) e)

/-- `_endpoint_signature`. -/
def endpoint_signature (e : EPDesc) : String × String × String × String × String :=
  (e.part_id, e.category, e.pin_role, e.pin_id, e.pin_name)

/-- Lexicographic comparison of two endpoint signatures. -/
def sigCompare (a b : EPDesc) : Ordering :=
  ordThen (compare a.part_id b.part_id) fun _ =>
  ordThen (compare a.category b.category) fun _ =>
  ordThen (compare a.pin_role b.pin_role) fun _ =>
  ordThen (compare a.pin_id b.pin_id) fun _ =>
  compare a.pin_name b.pin_name

/-- `_rule_key`: rule type plus the sorted pair of endpoint signatures. -/
def rule_key (rule_type : String) (ea eb : EPDesc) :
    String × ((String × String × String × String × String) × (String × String × String × String × String)) :=
  let sa := endpoint_signature ea
  let sb := endpoint_signature eb
  (rule_type, if sigCompare ea eb = Ordering.gt then (sb, sa) else (sa, sb))

/-- Python set equality `{role_a, role_b} == {r1, r2}` for distinct `r1 ≠ r2`. -/
def rolesEq (ea eb : EPDesc) (r1 r2 : String) : Bool :=
  (ea.pin_role = r1 ∧ eb.pin_role = r2) ∨ (ea.pin_role = r2 ∧ eb.pin_role = r1)

/-- `_is_ucc21710_rdy_gnd`. -/
def is_ucc21710_rdy_gnd (ea eb : EPDesc) : Bool :=
  (ea.pin_name = "RDY" ∧ eb.pin_role = "supply_gnd")
  ∨ (eb.pin_name = "RDY" ∧ ea.pin_role = "supply_gnd")

/-- `_is_ucc21710_rst_en_gnd`. -/
def is_ucc21710_rst_en_gnd (ea eb : EPDesc) : Bool :=
  let names := [ea.pin_name, eb.pin_name]
  if "~\x7bRST\x7d/EN" ∉ names then false
  else "IN-" ∈ names ∨ "GND" ∈ names

/-- `_should_skip_rule`. -/
def should_skip_rule (rule_type : String) (ea eb : EPDesc) : Bool :=
  if ¬ (ea.part_id = UCC21710_ID ∧ eb.part_id = UCC21710_ID) then false
  else if ea.domain ≠ "" ∧ eb.domain ≠ "" ∧ ea.domain ≠ eb.domain then true
  else if rule_type = "C_DIRECT" ∧ is_ucc21710_rdy_gnd ea eb then true
  else if rule_type = "C_DIRECT" ∧ is_ucc21710_rst_en_gnd ea eb then true
  else if rule_type = "C_DIRECT" ∧ rolesEq ea eb "logic_in" "logic_out" then true
  else if rule_type = "R_PATH" ∧ rolesEq ea eb "supply_gnd" "supply_vdd" then true
  else false

/-- `_add_rule`, threading `(rules, seen)`. -/
def add_rule
    (st : List Rule ×
      List (String × ((String × String × String × String × String) × (String × String × String × String × String))))
    (rule_type : String) (ea eb : EPDesc) (allow_series : Bool) :
    List Rule ×
      List (String × ((String × String × String × String × String) × (String × String × String × String × String))) :=
  if should_skip_rule rule_type ea eb then st
  else
    let key := rule_key rule_type ea eb
    if key ∈ st.2 then st
    else
      (st.1 ++ [{ rule_type := rule_type, endpoint_a := ea, endpoint_b := eb,
                  allow_series := allow_series, min_count := 1, fail_on_short := true }],
       st.2 ++ [key])

/-! ### `_passive_net_components` (identical in `rule_extractor.py` and
`rule_checker.py`; defined once and used for both). -/

/-- Graph-key insertion order of `_passive_net_components`' bipartite graph. -/
def pncNodes (s : Snapshot) (ptype : String) : List String :=
  dedup (s.components.flatMap (fun c =>
    if classify_passive c ≠ some ptype then []
    else c.pins.flatMap (fun p =>
      if p.net ≠ "" then ["comp:" ++ c.ref, "net:" ++ p.net] else [])))

/-- Adjacency of that graph. -/
def pncAdj (s : Snapshot) (ptype : String) (node : String) : List String :=
  s.components.flatMap (fun c =>
    if classify_passive c ≠ some ptype then []
    else
      let cnode := "comp:" ++ c.ref
      let netNodes := c.pins.filterMap (fun p =>
        if p.net ≠ "" then some ("net:" ++ p.net) else none)
      if node = cnode then netNodes
      else if node ∈ netNodes then [cnode]
      else [])

/-- Fuel dominating one connected-component traversal. -/
def pncFuel (s : Snapshot) (ptype : String) : Nat :=
  let m := s.components.foldl (fun acc c => acc + 1 + c.pins.length) 0
  ((pncNodes s ptype).length + 1) * (m + 1) + 2

/-- The component-collection loop: one traversal per still-unvisited node in
key order.  A traversal from an unvisited node covers exactly its (undirected)
connected component, which is disjoint from previously collected ones, so the
shared-visited-set bookkeeping of the source reduces to a membership test. -/
def pncComponentsAux (s : Snapshot) (ptype : String) :
    List String → List String → List (List String)
  | [], _ => []
  | node :: rest, visited =>
      if node ∈ visited then pncComponentsAux s ptype rest visited
      else
        let comp := bfsConnectedAux (pncAdj s ptype) (pncFuel s ptype) [node] []
        let nets := comp.filterMap (fun nd =>
          if pyStartsWith nd "net:" then some (pyDrop nd 4) else none)
        (if nets ≠ [] then [nets] else []) ++ pncComponentsAux s ptype rest (visited ++ comp)

/-- `_passive_net_components`. -/
def passive_net_components (s : Snapshot) (ptype : String) : List (List String) :=
  pncComponentsAux s ptype (pncNodes s ptype) []

/-- Ordered pairs of `itertools.combinations(l, 2)`. -/
def listCombinations2 {α : Type} : List α → List (α × α)
  | [] => []
  | x :: rest => rest.map (fun y => (x, y)) ++ listCombinations2 rest

/-- `build_rules`. -/
def build_rules (s : Snapshot) : List Rule :=
  let st1 := s.components.foldl (fun st c =>
    if classify_passive c ≠ some "C" then st
    else
      match component_nets c with
      | [n1, n2] =>
          -- `net_a, net_b = sorted(nets)` on the two distinct set elements
          let net_a := (sortPair n1 n2).1
          let net_b := (sortPair n1 n2).2
          (match pick_endpoint (collect_net_endpoints s net_a),
                 pick_endpoint (collect_net_endpoints s net_b) with
           | some ea, some eb => add_rule st "C_DIRECT" ea eb false
           | _, _ => st)
      | _ => st) ([], [])
  let st2 := [("R", "R_PATH"), ("L", "L_PATH")].foldl (fun st pr =>
    (passive_net_components s pr.1).foldl (fun st nets =>
      let endpoints := (sortStrings nets).filterMap (fun net =>
        match pick_endpoint (collect_net_endpoints s net) with
        | some ep => some (net, ep)
        | none => none)
      (listCombinations2 endpoints).foldl (fun st ab =>
        add_rule st pr.2 ab.1.2 ab.2.2 true) st) st) st1
  st2.1

end PCB

namespace PCB

/-! ## `rule_checker.py` -/

/-- `_capacitor_pairs` (a Python set of frozensets; only membership of a
sorted pair is observable). -/
def capNets (c : Component) : List String :=
  dedup ((c.pins.filter (fun p => p.net ≠ "")).map (fun p => p.net))

def capacitor_pairs (s : Snapshot) : List (String × String) :=
  s.components.filterMap (fun c =>
    if classify_passive c ≠ some "C" then none
    else
      match capNets c with
      | [n1, n2] =>
          -- `sorted` of the two distinct set elements is their sorted pair
          let p := sortPair n1 n2
          if p.1 = p.2 then none  -- dead branch kept from the source
          else some p
      | _ => none)

/-- `_resolve_endpoint_nets` (the endpoint cache of the source is
observationally pure and omitted; the result is a set, modelled in
first-insertion order). -/
def resolve_endpoint_nets (s : Snapshot) (ep : EPDesc) : List String :=
  let pass1 := dedup (s.components.flatMap (fun c =>
    if ep.part_id ≠ "" ∧ c.part_id ≠ ep.part_id then []
    else if ep.part_id = "" ∧ ep.category ≠ "" ∧ c.category ≠ ep.category then []
    else c.pins.filterMap (fun p =>
      if ep.pin_role ≠ "" ∧ p.pin_role ≠ ep.pin_role then none
      else if ep.pin_id ≠ "" ∧ p.pin_id ≠ ep.pin_id then none
      else if ep.pin_name ≠ "" ∧ p.pin_name ≠ ep.pin_name then none
      else if p.net ≠ "" then some p.net else none)))
  if pass1 = [] ∧ ep.part_id ≠ "" ∧ ep.category ≠ "" then
    dedup (s.components.flatMap (fun c =>
      if c.category ≠ ep.category then []
      else c.pins.filterMap (fun p =>
        if ep.pin_role ≠ "" ∧ p.pin_role ≠ ep.pin_role then none
        else if p.net ≠ "" then some p.net else none)))
  else pass1

/-- `_rule_has_buck_en`. -/
def rule_has_buck_en (r : Rule) : Bool :=
  r.endpoint_a.pin_role = "buck_en" || r.endpoint_b.pin_role = "buck_en"

/-- `_rule_has_role_pair`. -/
def rule_has_role_pair (r : Rule) (role_a role_b : String) : Bool :=
  (r.endpoint_a.pin_role = role_a ∨ r.endpoint_b.pin_role = role_a)
  && (r.endpoint_a.pin_role = role_b ∨ r.endpoint_b.pin_role = role_b)

/-- `_is_mosfet_source_drain_cap_rule`. -/
def is_mosfet_source_drain_cap_rule (r : Rule) : Bool :=
  r.rule_type = "C_DIRECT" && rolesEq r.endpoint_a r.endpoint_b "mosfet_source" "mosfet_drain"

/-- `_is_ucc21710_gate_short`. -/
def is_ucc21710_gate_short (rule_type : String) (ea eb : EPDesc) : Bool :=
  if rule_type ≠ "R_PATH" then false
  else if ea.part_id ≠ "UCC21710" ∨ eb.part_id ≠ "UCC21710" then false
  else
    let roles := [ea.pin_role, eb.pin_role]
    if "sense_minus" ∉ roles then false
    else "out_plus" ∈ roles ∨ "out_minus" ∈ roles

/-- `_is_ucc27511_out_pair`. -/
def is_ucc27511_out_pair (rule_type : String) (ea eb : EPDesc) : Bool :=
  if rule_type ≠ "R_PATH" then false
  else if ea.part_id ≠ "UCC27511" ∨ eb.part_id ≠ "UCC27511" then false
  else rolesEq ea eb "out_plus" "out_minus"

/-- `_endpoint_desc`. -/
def endpoint_desc (ep : EPDesc) : String :=
  let part := if ep.part_id ≠ "" then ep.part_id
    else if ep.category ≠ "" then ep.category
    else "component"
  let details := (if ep.pin_id ≠ "" then [ep.pin_id] else [])
    ++ (if ep.pin_name ≠ "" then [ep.pin_name] else [])
  let detailStr := String.intercalate ", " details
  if ep.pin_role ≠ "" then
    if details ≠ [] then s!"{part}:{ep.pin_role}({detailStr})"
    else s!"{part}:{ep.pin_role}"
  else if details ≠ [] then s!"{part}:{detailStr}"
  else s!"{part}:pin"

/-- Inner loop of `_check_cap_rule` over `nets_b` for one `net_a`
(`(found, shorted-flag)`). -/
def capInner (a : String) (caps : List (String × String)) :
    List String → Bool → Bool × Bool
  | [], sh => (false, sh)
  | b :: bs, sh =>
      if a = b then capInner a caps bs true
      else if sortPair a b ∈ caps then (true, sh)
      else capInner a caps bs sh

/-- Outer loop of `_check_cap_rule` over `nets_a`. -/
def capOuter (bl : List String) (caps : List (String × String)) :
    List String → Bool → Bool × Bool
  | [], sh => (false, sh)
  | a :: rest, sh =>
      match capInner a caps bl sh with
      | (true, sh') => (true, sh')
      | (false, sh') => capOuter bl caps rest sh'

/-- `_has_nonshort_pair`. -/
def has_nonshort_pair (na nb : List String) : Bool :=
  na.any (fun a => nb.any (fun b => a ≠ b))

/-- `_first_common`. -/
def first_common (na nb : List String) : Option String :=
  na.find? (fun a => a ∈ nb)

/-- `_check_cap_rule`: `(ok, shorted, pair)`. -/
def check_cap_rule (na nb : List String) (caps : List (String × String)) :
    Bool × Bool × Option String :=
  match capOuter nb caps na false with
  | (true, _) => (true, false, none)
  | (false, sh) =>
      if sh ∧ ¬ has_nonshort_pair na nb then (false, true, first_common na nb)
      else (false, false, none)

/-- `_nets_connected` (rule-checker version, over the component list). -/
def nets_connected_in (a b : String) (components : List (List String)) : Bool :=
  components.any (fun nets => a ∈ nets ∧ b ∈ nets)

/-- Inner loop of `_check_path_rule`. -/
def pathInner (a : String) (comps : List (List String)) :
    List String → Bool → Bool × Bool
  | [], sh => (false, sh)
  | b :: bs, sh =>
      if a = b then pathInner a comps bs true
      else if nets_connected_in a b comps then (true, sh)
      else pathInner a comps bs sh

/-- Outer loop of `_check_path_rule`. -/
def pathOuter (bl : List String) (comps : List (List String)) :
    List String → Bool → Bool × Bool
  | [], sh => (false, sh)
  | a :: rest, sh =>
      match pathInner a comps bl sh with
      | (true, sh') => (true, sh')
      | (false, sh') => pathOuter bl comps rest sh'

/-- `_check_path_rule`: `(ok, shorted, pair)`. -/
def check_path_rule (na nb : List String) (comps : List (List String)) :
    Bool × Bool × Option String :=
  match pathOuter nb comps na false with
  | (true, _) => (true, false, none)
  | (false, sh) =>
      if sh ∧ ¬ has_nonshort_pair na nb then (false, true, first_common na nb)
      else (false, false, none)

/-- The per-rule body of `check_rules`' main loop, including the loop-level
skips (a skipped rule contributes no error). -/
def rule_errors (s : Snapshot) (task_id : Option Nat) (capPairs : List (String × String))
    (rComps lComps : List (List String)) (r : Rule) : List String :=
  if task_id = some 6 ∧ rule_has_buck_en r then []
  else if task_id = some 6 ∧ rule_has_role_pair r "buck_vin" "buck_gnd" then []
  else if task_id = some 6 ∧ rule_has_role_pair r "buck_vin" "buck_fb" then []
  else if is_mosfet_source_drain_cap_rule r then []
  else
    let ea := r.endpoint_a
    let eb := r.endpoint_b
    let na := resolve_endpoint_nets s ea
    let nb := resolve_endpoint_nets s eb
    if na = [] ∨ nb = [] then
      [s!"{r.rule_type} endpoint missing: {endpoint_desc ea} or {endpoint_desc eb}"]
    else
      let result :=
        if r.rule_type = "C_DIRECT" then some (check_cap_rule na nb capPairs)
        else if r.rule_type = "R_PATH" then some (check_path_rule na nb rComps)
        else if r.rule_type = "L_PATH" then some (check_path_rule na nb lComps)
        else none
      match result with
      | none => []
      | some (ok, shorted, pair) =>
          if ok then []
          else if shorted then
            if task_id = some 13 ∧ is_ucc27511_out_pair r.rule_type ea eb then []
            else if is_ucc21710_gate_short r.rule_type ea eb then
              ["UCC21710: OUTH (pin 4) and OUTL (pin 6) must each go through separate series resistors to the GATE net; CLMPI (pin 7) may connect to GATE. Do not tie OUTH/OUTL directly to CLMPI/GATE."]
            else
              let pairStr := pair.getD "None"
              [s!"{r.rule_type} shorted between {endpoint_desc ea} and {endpoint_desc eb} (net {pairStr})"]
          else
            let naStr := pyReprStrList (sortStrings na)
            let nbStr := pyReprStrList (sortStrings nb)
            [s!"{r.rule_type} missing between {endpoint_desc ea} and {endpoint_desc eb} (nets {naStr} vs {nbStr})"]

/-- `_is_connected_nets`. -/
def is_connected_nets (nets : List String) : Bool :=
  nets.any (fun n => pyUpper n ∉ ["NC", "__NOCONNECT"])

/-- `_check_task15_out_resistor`. -/
def check_task15_out_resistor (s : Snapshot) (rComps : List (List String)) : List String :=
  let outNets := resolve_endpoint_nets s
    { part_id := "UCC5390E", category := "ic", pin_role := "out" }
  if outNets = [] then ["UCC5390E: OUT pin missing net"]
  else
    let supplyNets := ["primary_vdd", "primary_gnd", "secondary_vdd", "secondary_gnd"].flatMap
      (fun role => resolve_endpoint_nets s
        { part_id := "UCC5390E", category := "ic", pin_role := role })
    if rComps.any (fun nets =>
        nets.any (fun n => n ∈ outNets)
        && nets.any (fun n => n ∉ outNets ∧ n ∉ supplyNets)) then []
    else ["UCC5390E: OUT must connect to a gate net through a resistor network"]

/-- `_check_task6_enable`. -/
def check_task6_enable (s : Snapshot) (rComps : List (List String)) : List String :=
  let enNets := resolve_endpoint_nets s
    { part_id := "TPS54302", category := "ic", pin_role := "buck_en" }
  if ¬ is_connected_nets enNets then []
  else
    let vinNets := resolve_endpoint_nets s
      { part_id := "TPS54302", category := "ic", pin_role := "buck_vin" }
    let gndNets := resolve_endpoint_nets s
      { part_id := "TPS54302", category := "ic", pin_role := "buck_gnd" }
    let rVin := check_path_rule enNets vinNets rComps
    let rGnd := check_path_rule enNets gndNets rComps
    if rVin.1 ∧ rGnd.1 then []
    else if rVin.2.1 ∨ rGnd.2.1 then
      ["EN should not be directly shorted; use a resistor divider between VIN and GND"]
    else
      ["EN requires a resistor divider to VIN and GND, or leave EN unconnected/NC"]

/-- All non-overlapping left-to-right replacements of Python `s.replace`. -/
def replaceChars (pat rep : List Char) : Nat → List Char → List Char
  | 0, l => l
  | _ + 1, [] => []
  | fuel + 1, c :: rest =>
      if pat.isPrefixOf (c :: rest) then rep ++ replaceChars pat rep fuel ((c :: rest).drop pat.length)
      else c :: replaceChars pat rep fuel rest

def pyReplace (s pat rep : String) : String :=
  if pat = "" then s
  else String.mk (replaceChars pat.toList rep.toList (s.toList.length + 1) s.toList)

/-- Python `s.split(c)` on a single-character separator. -/
def splitOnCharAux (c : Char) : List Char → List Char → List (List Char)
  | [], acc => [acc.reverse]
  | x :: rest, acc =>
      if x = c then acc.reverse :: splitOnCharAux c rest []
      else splitOnCharAux c rest (x :: acc)

def pySplitOnChar (s : String) (c : Char) : List String :=
  (splitOnCharAux c s.toList []).map String.mk

/-- `_parse_value`, over exact rationals (`float` in the source; the
difference is invisible to every claim, none of which exercises task 3). -/
def parse_value (raw : String) : Option ℚ :=
  let text := pyStrip raw
  if text = "" then none
  else
    let tu := pyUpper text
    let strippedR := String.mk (tu.toList.filter (fun c => c ≠ 'R'))
    if strContains tu "R" ∧ pyIsDigit strippedR then
      let parts := pySplitOnChar tu 'R'
      let whole0 := parts.headD ""
      let frac0 := String.intercalate "R" (parts.drop 1)
      let whole := if whole0 = "" then "0" else whole0
      let frac := if frac0 = "" then "0" else frac0
      if pyIsDigit whole ∧ pyIsDigit frac then
        some ((((pyToNat? whole).getD 0 : Nat) : ℚ) + (((pyToNat? frac).getD 0 : Nat) : ℚ) / ((10 : ℚ) ^ frac.length))
      else none
    else
      -- regex ^([0-9]*\.?[0-9]+)\s*([A-Za-zµu]*)$
      let cs := text.toList
      let intPart := cs.takeWhile Char.isDigit
      let rest1 := cs.drop intPart.length
      let parsed :=
        match rest1 with
        | '.' :: rest2 =>
            let fracPart := rest2.takeWhile Char.isDigit
            if fracPart.length = 0 then none
            else some (intPart, fracPart, rest2.drop fracPart.length)
        | _ =>
            if intPart.length = 0 then none
            else some (intPart, ([] : List Char), rest1)
      match parsed with
      | none => none
      | some (ip, fp, rest3) =>
          let rest4 := rest3.dropWhile (fun c => c.isWhitespace)
          let sufChars := rest4.takeWhile (fun c =>
            (('A' ≤ c ∧ c ≤ 'Z') ∨ ('a' ≤ c ∧ c ≤ 'z') ∨ c = 'µ'))
          if rest4.drop sufChars.length ≠ [] then none
          else
            let base : ℚ := (((pyToNat? (String.mk (ip ++ fp))).getD 0 : Nat) : ℚ) / ((10 : ℚ) ^ fp.length)
            let suffix := String.mk sufChars
            if suffix = "" then some base
            else
              let suffix := pyReplace (pyReplace suffix "ohm" "") "OHM" ""
              let sLow := pyLower suffix
              if sLow = "p" then some (base / 1000000000000)
              else if sLow = "n" then some (base / 1000000000)
              else if sLow = "u" ∨ sLow = "µ" then some (base / 1000000)
              else if sLow = "k" then some (base * 1000)
              else if sLow = "meg" ∨ suffix = "M" ∨ suffix = "MEG" then some (base * 1000000)
              else if suffix = "m" then some (base / 1000)
              else if sLow = "g" then some (base * 1000000000)
              else if pyEndsWith sLow "k" then some (base * 1000)
              else if pyEndsWith sLow "m" then
                some (if pyEndsWith suffix "m" then base / 1000 else base * 1000000)
              else if pyEndsWith sLow "meg" then some (base * 1000000)
              else none

structure P3Resistor where
  ref : String
  value : Option ℚ
  value_raw : String
  nets : List String
  deriving DecidableEq, Repr

/-- `_check_ratio_for_net`. -/
def check_ratio_for_net (resistors : List P3Resistor) (target_net : String)
    (label : String) (minRatio maxRatio : ℚ) : List String :=
  let related := resistors.filter (fun r => target_net ∈ r.nets)
  if related.length ≠ 2 then
    [s!"{label}: expected 2 resistors on net {target_net}, got {related.length}"]
  else
    match related.find? (fun r =>
        match r.value with
        | none => true
        | some v => v ≤ 0) with
    | some r => [s!"{label}: invalid resistor value for {r.ref} ({r.value_raw})"]
    | none =>
        let vals := related.map (fun r => r.value.getD 0)
        let lo := vals.foldl min (vals.headD 0)
        let hi := vals.foldl max (vals.headD 0)
        let ratio := hi / lo
        if ratio < minRatio ∨ ratio > maxRatio then ["resistance is wrong"] else []

/-- `_find_pin_net` (`""` = `None`). -/
def find_pin_net (c : Component) (cands : List String) : String :=
  match c.pins.find? (fun p => pyUpper p.pin_name ∈ cands) with
  | some p => p.net
  | none => ""

/-- `_check_p3_gain` (task 3).  `target`, `tolerance` and resistor values are
exact rationals here; see `parse_value`. -/
def check_p3_gain (s : Snapshot) : List String :=
  let minRatio : ℚ := (147 : ℚ) / 100 * ((4 : ℚ) / 5)
  let maxRatio : ℚ := (147 : ℚ) / 100 * ((6 : ℚ) / 5)
  match s.components.find? (fun c => c.part_id = "OPA328") with
  | none => ["p3 gain check: OPA328 not found"]
  | some opa =>
      let negNet := find_pin_net opa ["-IN", "IN-", "INN", "VINN"]
      let posNet := find_pin_net opa ["+IN", "IN+", "INP", "VINP"]
      if negNet = "" ∨ posNet = "" then ["p3 gain check: missing +IN/-IN nets on OPA328"]
      else
        let resistors := s.components.filterMap (fun c =>
          if classify_passive c ≠ some "R" then none
          else
            let nets := dedup ((c.pins.filter (fun p => p.net ≠ "")).map (fun p => p.net))
            if nets.length ≠ 2 then none
            else some (P3Resistor.mk c.ref (parse_value c.value) c.value nets))
        check_ratio_for_net resistors negNet "p3 gain check (-IN)" minRatio maxRatio
        ++ check_ratio_for_net resistors posNet "p3 gain check (+IN)" minRatio maxRatio

/-- `check_rules`. -/
def check_rules (s : Snapshot) (rules : List Rule) (task_id : Option Nat) : List String :=
  let capPairs := capacitor_pairs s
  let rComps := passive_net_components s "R"
  let lComps := passive_net_components s "L"
  if task_id = some 15 then check_task15_out_resistor s rComps
  else
    (rules.flatMap (rule_errors s task_id capPairs rComps lComps))
    ++ (if task_id = some 6 then check_task6_enable s rComps else [])
    ++ (if task_id = some 3 then check_p3_gain s else [])

/-! ## `complex_task_validator.py` -/

/-- The error/warning partition loop of `validate_complex_task` (entries
containing `'WARNING'` go to warnings, the rest to errors, appended in
order). -/
def splitWarningsStep (errs warns : List String) (msgs : List String) :
    List String × List String :=
  msgs.foldl (fun acc m =>
    if strContains m "WARNING" then (acc.1, acc.2 ++ [m])
    else (acc.1 ++ [m], acc.2)) (errs, warns)

/-- `validate_complex_task`. -/
def validate_complex_task (s : Snapshot) (task_id : Nat) (kg : KGStore) :
    Bool × List String × List String :=
  let phase2 := run_phase2_checks s kg (some task_id)
  if phase2 ≠ [] then (false, phase2, [])
  else
    let isoErrs := check_isolation_boundary_violations s kg
    let netErrs := check_net_conflicts s kg
    let st1 := splitWarningsStep (phase2 ++ isoErrs) [] netErrs
    let itf := check_interfaces s kg
    let sys := check_system_topology s task_id kg
    let st2 := splitWarningsStep (st1.1 ++ itf ++ sys) st1.2 (check_mosfet_net_conflicts s)
    (st2.1.isEmpty, st2.1, st2.2)

end PCB

namespace PCB

/-! ## General helper lemmas -/

theorem mem_dedup {x : String} : ∀ {l : List String}, x ∈ dedup l ↔ x ∈ l := by
  intro l
  induction l with
  | nil => simp [dedup]
  | cons a rest ih =>
      by_cases hxa : x = a
      · subst hxa
        simp [dedup]
      · simp [dedup, hxa, List.mem_filter, ih]

theorem nodup_dedup : ∀ (l : List String), (dedup l).Nodup := by
  intro l
  induction l with
  | nil => simp [dedup]
  | cons a rest ih =>
      simp only [dedup, List.nodup_cons]
      refine ⟨?_, ih.filter _⟩
      intro hmem
      have := (List.mem_filter.mp hmem).2
      simp at this

theorem insertSorted_perm (x : String) :
    ∀ (l : List String), List.Perm (insertSorted x l) (x :: l) := by
  intro l
  induction l with
  | nil => rfl
  | cons y rest ih =>
      rw [insertSorted]
      split
      · exact ((ih.cons y).trans (List.Perm.swap x y rest))
      · rfl

theorem sortStrings_perm : ∀ (l : List String), List.Perm (sortStrings l) l := by
  intro l
  induction l with
  | nil => rfl
  | cons x rest ih => exact (insertSorted_perm x (sortStrings rest)).trans (ih.cons x)

theorem mem_sortStrings {x : String} {l : List String} : x ∈ sortStrings l ↔ x ∈ l :=
  (sortStrings_perm l).mem_iff

theorem charEq_of_toNat_eq {a b : Char} (h : a.toNat = b.toNat) : a = b := by
  have hv : a.val = b.val := by
    apply UInt32.ext
    simpa [Char.toNat] using h
  exact Char.ext hv

theorem charListLe_total : ∀ (xs ys : List Char),
    charListLe xs ys = true ∨ charListLe ys xs = true := by
  intro xs
  induction xs with
  | nil => intro ys; exact Or.inl rfl
  | cons a rest ih =>
      intro ys
      cases ys with
      | nil => exact Or.inr rfl
      | cons b ys' =>
          rcases Nat.lt_trichotomy a.toNat b.toNat with h | h | h
          · exact Or.inl (by simp [charListLe, h])
          · rcases ih ys' with h2 | h2
            · exact Or.inl (by simp [charListLe, h, h2])
            · exact Or.inr (by simp [charListLe, h, h2])
          · exact Or.inr (by simp [charListLe, h])

theorem charListLe_antisymm : ∀ {xs ys : List Char},
    charListLe xs ys = true → charListLe ys xs = true → xs = ys := by
  intro xs
  induction xs with
  | nil =>
      intro ys h1 h2
      cases ys with
      | nil => rfl
      | cons b ys' => simp [charListLe] at h2
  | cons a rest ih =>
      intro ys h1 h2
      cases ys with
      | nil => simp [charListLe] at h1
      | cons b ys' =>
          rcases Nat.lt_trichotomy a.toNat b.toNat with h | h | h
          · simp [charListLe, h, Nat.lt_asymm h] at h2
          · have hab : a = b := charEq_of_toNat_eq h
            subst hab
            simp [charListLe] at h1 h2
            exact congrArg (a :: ·) (ih h1 h2)
          · simp [charListLe, h, Nat.lt_asymm h] at h1

theorem strLe_total (a b : String) : strLe a b = true ∨ strLe b a = true :=
  charListLe_total a.toList b.toList

theorem strLe_antisymm {a b : String} (h1 : strLe a b = true) (h2 : strLe b a = true) :
    a = b := by
  have := charListLe_antisymm h1 h2
  cases a; cases b; simp_all [String.toList]

theorem sortPair_comm (a b : String) : sortPair a b = sortPair b a := by
  by_cases ha : strLe a b = true
  · by_cases hb : strLe b a = true
    · have hab := strLe_antisymm ha hb
      subst hab
      rfl
    · simp [sortPair, ha, hb]
  · have hb : strLe b a = true := by
      rcases strLe_total a b with h | h
      · exact absurd h ha
      · exact h
    simp [sortPair, ha, hb]

theorem sortPair_mem_left (a b : String) : (sortPair a b).1 = a ∨ (sortPair a b).1 = b := by
  unfold sortPair
  split <;> simp

theorem sortPair_mem_right (a b : String) : (sortPair a b).2 = a ∨ (sortPair a b).2 = b := by
  unfold sortPair
  split <;> simp

theorem sortPair_parts (a b : String) :
    (sortPair a b = (a, b)) ∨ (sortPair a b = (b, a)) := by
  unfold sortPair
  split <;> simp

theorem sortPair_ne {a b : String} (h : a ≠ b) : (sortPair a b).1 ≠ (sortPair a b).2 := by
  rcases sortPair_parts a b with hp | hp <;> rw [hp]
  · simpa using h
  · simpa using h.symm

theorem sortPair_idem (a b : String) :
    sortPair (sortPair a b).1 (sortPair a b).2 = sortPair a b := by
  rcases sortPair_parts a b with hp | hp <;> rw [hp] <;> simp only
  · exact hp
  · rw [sortPair_comm]
    exact hp

/-! ## Claim C1 -/

theorem crossDomainAux_nil (domains : Domains) :
    ∀ (nets : List Net) (seenMap : List (String × String)),
      (∀ kv ∈ seenMap, kv.2 = get_net_domain kv.1 domains) →
      crossDomainAux domains nets seenMap = [] := by
  intro nets
  induction nets with
  | nil => intro seenMap _; rfl
  | cons n rest ih =>
      intro seenMap h
      rw [crossDomainAux]
      cases hf : seenMap.find? (fun kv => kv.1 = n.name) with
      | none =>
          exact ih _ (by
            intro kv hkv
            rcases List.mem_append.mp hkv with hold | hnew
            · exact h kv hold
            · simp at hnew
              simp [hnew])
      | some kv =>
          have hmem := List.mem_of_find?_eq_some hf
          have hp : kv.1 = n.name := by simpa using List.find?_some hf
          have hkv2 := h kv hmem
          rw [hp] at hkv2
          simp [hkv2, ih _ h]

/-- C1.  The spec requires `check_net_conflicts` to emit a hard
`NET CONFLICT` error whenever one net name is attributed to two isolation
domains (scenario S6), but the emitting branch of `_check_cross_domain_nets`
is unsatisfiable: `get_net_domain` is a pure function of the net name and
the fixed domain assignment, so the remembered domain of a name always
equals its recomputed domain.  On every snapshot and every domain
assignment the check returns no errors, so the spec's expected error can
never be produced (code bug). -/
theorem claim_C1 (s : Snapshot) (domains : Domains) :
    check_cross_domain_nets s domains = [] := by
  unfold check_cross_domain_nets
  split
  · rfl
  · exact crossDomainAux_nil domains s.nets [] (by simp)

/-! ## Claim C9 -/

/-- C9: with task identifier 15 the rule checker ignores the extracted
rules entirely; its output is exactly the UCC5390E OUT-resistor check (over
the resistor-induced net components), independent of the rules argument. -/
theorem claim_C9 (s : Snapshot) (rules : List Rule) :
    check_rules s rules (some 15) =
      check_task15_out_resistor s (passive_net_components s "R") := by
  rfl

/-! ## Claim C10 -/

/-- C10: a snapshot with no isolation-boundary component (per the KG) gets
the whole net-name set as its primary domain and no secondary domains;
the anchor-net seeding and the net-graph BFS are never consulted. -/
theorem claim_C10 (s : Snapshot) (kg : KGStore)
    (h : s.components.all (fun c =>
      (kg.get_component c.part_id).elim true (fun e => !e.isolation_boundary)) = true) :
    identify_isolation_domains s kg =
      { primary := dedup (s.nets.map Net.name), secondary := [] } := by
  have hiso : find_isolation_components s kg = [] := by
    rw [show find_isolation_components s kg =
      s.components.filterMap (fun c =>
        match kg.get_component c.part_id with
        | some e =>
            if e.isolation_boundary then
              some { ref := c.ref, part_id := c.part_id,
                     primary_pins := e.primary_pins, secondary_pins := e.secondary_pins,
                     pins := c.pins }
            else none
        | none => none) from rfl]
    rw [List.filterMap_eq_nil_iff]
    intro c hc
    have hall := (List.all_eq_true.mp h) c hc
    cases hkg : kg.get_component c.part_id with
    | none => simp
    | some e =>
        rw [hkg] at hall
        simp at hall
        simp [hall]
  unfold identify_isolation_domains
  simp [hiso]

def c10Snap : Snapshot :=
  { components := [⟨"R1", "R", "", "", [⟨"1", "1", "A", ""⟩, ⟨"2", "2", "B", ""⟩]⟩],
    nets := [⟨"A", []⟩, ⟨"B", []⟩] }

def c10Kg : KGStore :=
  { kg_component_map := [{ id := "X", isolation_boundary := true }] }

theorem claim_C10_witness :
    (c10Snap.components.all (fun c =>
      (c10Kg.get_component c.part_id).elim true (fun e => !e.isolation_boundary)) = true)
    ∧ identify_isolation_domains c10Snap c10Kg =
        { primary := dedup (c10Snap.nets.map Net.name), secondary := [] } :=
  ⟨by decide, claim_C10 c10Snap c10Kg (by decide)⟩

end PCB

namespace PCB

/-! ## Claim C2 -/

theorem splitWarningsStep_eq (msgs : List String) :
    ∀ (errs warns : List String),
      splitWarningsStep errs warns msgs =
        (errs ++ msgs.filter (fun m => !(strContains m "WARNING")),
         warns ++ msgs.filter (fun m => strContains m "WARNING")) := by
  induction msgs with
  | nil => intro errs warns; simp [splitWarningsStep]
  | cons m rest ih =>
      intro errs warns
      rw [splitWarningsStep] at *
      by_cases h : strContains m "WARNING" = true
      · simpa [h] using ih (errs) (warns ++ [m])
      · simpa [h] using ih (errs ++ [m]) warns

/-- C2: the complex-task validator fast-fails with exactly the Phase 2
errors (and no warnings) when Phase 2 reports anything; otherwise its error
list is the concatenation, in pipeline order, of the isolation-boundary
errors, the non-WARNING net-conflict errors, the interface errors, the
system-topology errors and the non-WARNING MOSFET net-conflict errors, with
the WARNING-containing entries of the two conflict stages diverted, in
order, to the warnings list.  Nothing is sorted or deduplicated. -/
theorem claim_C2 (s : Snapshot) (task_id : Nat) (kg : KGStore) :
    validate_complex_task s task_id kg =
      (let phase2 := run_phase2_checks s kg (some task_id)
       if phase2.isEmpty then
         let net := check_net_conflicts s kg
         let mos := check_mosfet_net_conflicts s
         let errors :=
           check_isolation_boundary_violations s kg
           ++ net.filter (fun m => !(strContains m "WARNING"))
           ++ check_interfaces s kg
           ++ check_system_topology s task_id kg
           ++ mos.filter (fun m => !(strContains m "WARNING"))
         let warnings :=
           net.filter (fun m => strContains m "WARNING")
           ++ mos.filter (fun m => strContains m "WARNING")
         (errors.isEmpty, errors, warnings)
       else (false, phase2, [])) := by
  unfold validate_complex_task
  by_cases hp : run_phase2_checks s kg (some task_id) = []
  · simp [hp, splitWarningsStep_eq, List.append_assoc]
  · simp [hp]

end PCB

namespace PCB

/-! ## Claim C8 -/

def c8Std : Snapshot :=
  { components := [⟨"R1", "R", "", "", [⟨"1", "1", "A", ""⟩, ⟨"2", "2", "B", ""⟩]⟩] }

def c8Gen : Snapshot :=
  { components := [⟨"R1", "R", "", "", [⟨"1", "1", "A", ""⟩, ⟨"2", "2", "B", ""⟩]⟩,
                   ⟨"C1", "C", "", "", []⟩, ⟨"C2", "C", "", "", []⟩,
                   ⟨"C3", "C", "", "", []⟩, ⟨"C4", "C", "", "", []⟩] }

/-- C8 counterexample: for part id `C` the reference snapshot has count 0 and
the candidate has count 4.  The claim's allowed range for a reference count
≤ 4 is 1–4, so a candidate count of 4 should raise no error — but the source
special-cases a reference count of 0 (allowed 0–3) and does emit an
out-of-tolerance error. -/
theorem claim_C8_counterexample :
    (check_component_count_tolerance c8Std c8Gen none).any
        (fun e => strContains e "C std=0 gen=4") = true
    ∧ component_part_count c8Std "C" = 0
    ∧ component_part_count c8Gen "C" = 4
    ∧ ((1 : Nat) ≤ 4 ∧ (4 : Nat) ≤ 4) := by
  refine ⟨by decide, by decide, by decide, by decide⟩

/-- C8 (amended): outside the P15 diode and P16 R/C exemptions, the
component-count tolerance check accepts the candidate count exactly when it
lies in the allowed range, which is: 0–3 when the reference count is 0
(error exactly when the candidate count reaches 4), 1–4 when the reference
count is between 1 and 4, and [⌈std/2⌉, ⌊3·std/2⌋] (±50 %) when the
reference count exceeds 4; the emitted error names the part id and that
range. -/
theorem claim_C8 (task_id : Option Nat) (part_id : String) (stdCount genCount : Nat)
    (hD : ¬(task_id = some 15 ∧ part_id = "D"))
    (hRC : ¬(task_id = some 16 ∧ (part_id = "R" ∨ part_id = "C"))) :
    tolErrorsForPart task_id part_id stdCount genCount = [] ↔
      (if stdCount = 0 then genCount ≤ 3
       else if stdCount ≤ 4 then 1 ≤ genCount ∧ genCount ≤ 4
       else (stdCount + 1) / 2 ≤ genCount ∧ genCount ≤ 3 * stdCount / 2) := by
  rw [tolErrorsForPart, if_neg hD]
  by_cases h0 : stdCount = 0
  · subst h0
    simp only [if_pos rfl]
    by_cases hg : genCount ≥ 4
    · simp [hg]; omega
    · simp [hg]; omega
  · rw [if_neg h0]
    by_cases h4 : stdCount ≤ 4
    · simp only [if_neg h0, if_pos h4]
      by_cases hout : genCount < 1 ∨ genCount > 4
      · simp [hout]; omega
      · simp [hout]; omega
    · have hp16 : ¬(task_id = some 16 ∧ (part_id = "R" ∨ part_id = "C")) := hRC
      simp only [if_neg h0, if_neg h4, if_neg hp16]
      have hmin : stdCount / 2 + (if stdCount % 2 = 0 then 0 else 1) = (stdCount + 1) / 2 := by
        rcases Nat.even_or_odd stdCount with he | ho
        · have : stdCount % 2 = 0 := Nat.even_iff.mp he
          simp [this]
          omega
        · have : stdCount % 2 = 1 := Nat.odd_iff.mp ho
          simp [this]
          omega
      rw [hmin]
      by_cases hout : genCount < (stdCount + 1) / 2 ∨ genCount > 3 * stdCount / 2
      · simp [hout]; omega
      · simp [hout]; omega

theorem claim_C8_witness :
    ¬((none : Option Nat) = some 15 ∧ "X" = "D")
    ∧ ¬((none : Option Nat) = some 16 ∧ ("X" = "R" ∨ "X" = "C"))
    ∧ (tolErrorsForPart none "X" 5 3 = [] ↔
        (if (5 : Nat) = 0 then (3 : Nat) ≤ 3
         else if (5 : Nat) ≤ 4 then 1 ≤ (3 : Nat) ∧ (3 : Nat) ≤ 4
         else (5 + 1) / 2 ≤ (3 : Nat) ∧ (3 : Nat) ≤ 3 * 5 / 2)) :=
  ⟨by decide, by decide, claim_C8 none "X" 5 3 (by decide) (by decide)⟩

end PCB

namespace PCB

/-! ## Claim C5 -/

theorem augComponent_idem (kg : KGStore) (c : Component) :
    augComponent kg (augComponent kg c) = augComponent kg c := by
  cases c with
  | mk ref part_id value category pins =>
      simp only [augComponent, List.map_map]
      refine congrArg _ ?_
      refine List.map_congr_left ?_
      intro p _
      cases p
      rfl

theorem lookup_pin_role_only_components (comps : List Component) (nets nets' : List Net)
    (ref pin_id pin_name : String) :
    lookup_pin_role ⟨comps, nets⟩ ref pin_id pin_name
      = lookup_pin_role ⟨comps, nets'⟩ ref pin_id pin_name := rfl

theorem lookup_component_category_only_components (comps : List Component)
    (nets nets' : List Net) (ref : String) :
    lookup_component_category ⟨comps, nets⟩ ref
      = lookup_component_category ⟨comps, nets'⟩ ref := rfl

theorem augEndpoint_idem (s1 s2 : Snapshot) (h : s2.components = s1.components)
    (ep : Endpoint) :
    augEndpoint s2 (augEndpoint s1 ep) = augEndpoint s1 ep := by
  cases s1 with
  | mk comps1 nets1 =>
      cases s2 with
      | mk comps2 nets2 =>
          simp only [Snapshot.components] at h
          subst h
          cases ep
          rfl

/-- C5: snapshot augmentation is idempotent — augmenting twice yields
exactly the snapshot obtained by augmenting once (same categories, pin
roles and net-endpoint annotations).  The component pass recomputes the
same category and pin roles because it reads only `part_id`, `ref`,
`pin_id` and `pin_name`, which it never changes; the endpoint pass reads
only the updated component list, which the second run leaves unchanged. -/
theorem claim_C5 (s : Snapshot) (kg : KGStore) :
    augment_snapshot (augment_snapshot s kg) kg = augment_snapshot s kg := by
  have hcomps : (s.components.map (augComponent kg)).map (augComponent kg)
      = s.components.map (augComponent kg) := by
    rw [List.map_map]
    exact List.map_congr_left (fun c _ => augComponent_idem kg c)
  unfold augment_snapshot
  simp only [hcomps]
  refine congrArg _ ?_
  rw [List.map_map]
  refine List.map_congr_left ?_
  intro n _
  cases n with
  | mk name eps =>
      simp only [Function.comp_apply]
      refine congrArg _ ?_
      rw [List.map_map]
      refine List.map_congr_left ?_
      intro ep _
      exact augEndpoint_idem _ _ (by simp [hcomps]) ep

end PCB

namespace PCB

/-! ## Claim C7 -/

theorem bfsConnectedAux_subset (adj : String → List String) (P : String → Prop)
    (hadj : ∀ net x, x ∈ adj net → P x) :
    ∀ (fuel : Nat) (q visited : List String),
      (∀ x ∈ q, P x) → (∀ x ∈ visited, P x) →
      ∀ x ∈ bfsConnectedAux adj fuel q visited, P x := by
  intro fuel
  induction fuel with
  | zero =>
      intro q visited _ hv
      simp only [bfsConnectedAux]
      exact hv
  | succ n ih =>
      intro q visited hq hv
      cases q with
      | nil =>
          simp only [bfsConnectedAux]
          exact hv
      | cons net rest =>
          simp only [bfsConnectedAux]
          by_cases hmem : net ∈ visited
          · rw [if_pos hmem]
            exact ih rest visited (fun x hx => hq x (List.mem_cons_of_mem _ hx)) hv
          · rw [if_neg hmem]
            have h1 : ∀ x ∈ rest ++ (adj net).filter (fun nb => nb ∉ visited ++ [net]), P x := by
              intro x hx
              rcases List.mem_append.mp hx with h | h
              · exact hq x (List.mem_cons_of_mem _ h)
              · exact hadj net x (List.mem_of_mem_filter h)
            have h2 : ∀ x ∈ visited ++ [net], P x := by
              intro x hx
              rcases List.mem_append.mp hx with h | h
              · exact hv x h
              · rw [List.mem_singleton] at h
                subst h
                exact hq _ (List.mem_cons_self _ _)
            exact ih _ _ h1 h2

theorem bfs_connected_nets_subset (s : Snapshot) (start : List String)
    (adj : String → List String) (P : String → Prop)
    (hadj : ∀ net x, x ∈ adj net → P x) (hstart : ∀ x ∈ start, P x) :
    ∀ x ∈ bfs_connected_nets s start adj, P x := by
  intro x hx
  exact bfsConnectedAux_subset adj P hadj _ start [] hstart
    (fun y hy => absurd hy (List.not_mem_nil y)) x hx

theorem compPinsFor_snd (s : Snapshot) (ref : String) {pn : String × String}
    (h : pn ∈ compPinsFor s ref) : pn.2 ∈ s.nets.map Net.name := by
  simp only [compPinsFor, List.mem_flatMap, List.mem_filterMap] at h
  obtain ⟨n, hn, ep, _, hif⟩ := h
  split at hif
  · cases hif
    exact List.mem_map.mpr ⟨n, hn, rfl⟩
  · cases hif

theorem mem_of_groupAdj {l : List String} {net x : String}
    (h : x ∈ groupAdj l net) : x ∈ l := by
  unfold groupAdj at h
  split at h
  · exact h
  · exact absurd h (List.not_mem_nil x)

theorem filterSnd_subset (s : Snapshot) (ref : String) (cond : String × String → Bool)
    {x : String}
    (h : x ∈ (compPinsFor s ref).filterMap
        (fun pn => if cond pn then some pn.2 else none)) :
    x ∈ s.nets.map Net.name := by
  rw [List.mem_filterMap] at h
  obtain ⟨pn, hpn, hif⟩ := h
  split at hif
  · cases hif
    exact compPinsFor_snd s ref hpn
  · cases hif

theorem netGraphAdj_subset (s : Snapshot) (isoComps : List IsoComp) (net : String) :
    ∀ x ∈ netGraphAdj s isoComps net, x ∈ s.nets.map Net.name := by
  intro x hx
  simp only [netGraphAdj, List.mem_flatMap] at hx
  obtain ⟨ref, _, hx⟩ := hx
  split at hx
  · rcases List.mem_append.mp hx with h | h
    · exact filterSnd_subset s ref _ (mem_of_groupAdj h)
    · exact filterSnd_subset s ref _ (mem_of_groupAdj h)
  · have h := mem_of_groupAdj hx
    rw [List.mem_map] at h
    obtain ⟨pn, hpn, hpn2⟩ := h
    exact hpn2 ▸ compPinsFor_snd s ref hpn

theorem primaryStartNets_subset (s : Snapshot) :
    ∀ x ∈ primaryStartNets s, x ∈ s.nets.map Net.name := by
  intro x hx
  simp only [primaryStartNets] at hx
  split at hx
  · rw [List.mem_filterMap] at hx
    obtain ⟨n, hn, hif⟩ := hx
    split at hif
    · cases hif
      exact List.mem_map.mpr ⟨n, hn, rfl⟩
    · cases hif
  · split at hx
    · rename_i n hfind
      rw [List.mem_singleton] at hx
      subst hx
      exact List.mem_map.mpr ⟨n, List.mem_of_find?_eq_some hfind, rfl⟩
    · split at hx
      · exact absurd hx (List.not_mem_nil x)
      · rename_i n rest hnets
        rw [List.mem_singleton] at hx
        subst hx
        refine List.mem_map.mpr ⟨n, ?_, rfl⟩
        rw [hnets]
        exact List.mem_cons_self _ _

theorem isoComp_pins (s : Snapshot) (kg : KGStore) {ic : IsoComp}
    (h : ic ∈ find_isolation_components s kg) :
    ∃ c ∈ s.components, ic.pins = c.pins := by
  simp only [find_isolation_components, List.mem_filterMap] at h
  obtain ⟨c, hc, hif⟩ := h
  refine ⟨c, hc, ?_⟩
  split at hif
  · split at hif
    · cases hif
      rfl
    · cases hif
  · cases hif

theorem pairwise_snoc_of_disj {domains : List (List String)} {d allVisited : List String}
    (hsub : ∀ dom ∈ domains, ∀ x ∈ dom, x ∈ allVisited)
    (hpw : List.Pairwise (fun a b => ∀ x ∈ a, x ∉ b) domains)
    (hd : ∀ x ∈ d, x ∉ allVisited) :
    (∀ dom ∈ domains ++ [d], ∀ x ∈ dom, x ∈ allVisited ++ d)
    ∧ List.Pairwise (fun a b => ∀ x ∈ a, x ∉ b) (domains ++ [d]) := by
  constructor
  · intro dom hdom x hx
    rcases List.mem_append.mp hdom with h | h
    · exact List.mem_append.mpr (Or.inl (hsub dom h x hx))
    · rw [List.mem_singleton] at h
      subst h
      exact List.mem_append.mpr (Or.inr hx)
  · rw [List.pairwise_append]
    refine ⟨hpw, List.pairwise_singleton _ _, ?_⟩
    intro a ha b hb x hx
    rw [List.mem_singleton] at hb
    subst hb
    intro hxb
    exact hd x hxb (hsub a ha x hx)

theorem find_secondary_domains_aux_spec (s : Snapshot) (adj : String → List String) :
    ∀ (isoComps : List IsoComp) (domains : List (List String)) (allVisited : List String),
      (∀ dom ∈ domains, ∀ x ∈ dom, x ∈ allVisited) →
      List.Pairwise (fun a b => ∀ x ∈ a, x ∉ b) domains →
      List.Pairwise (fun a b => ∀ x ∈ a, x ∉ b)
          (find_secondary_domains_aux s adj isoComps domains allVisited)
      ∧ ∀ dom ∈ find_secondary_domains_aux s adj isoComps domains allVisited,
          dom ∈ domains ∨ ∀ x ∈ dom, x ∉ allVisited := by
  intro isoComps
  induction isoComps with
  | nil =>
      intro domains allVisited _ hpw
      simp only [find_secondary_domains_aux]
      exact ⟨hpw, fun dom hdom => Or.inl hdom⟩
  | cons ic rest ih =>
      intro domains allVisited hsub hpw
      simp only [find_secondary_domains_aux]
      split
      · exact ih domains allVisited hsub hpw
      · split
        · exact ih domains allVisited hsub hpw
        · have hdnew : ∀ x ∈ (bfs_connected_nets s
              (ic.pins.filterMap (fun p =>
                if pin_in_set p.pin_id ic.secondary_pins ∧ p.net ≠ "" ∧ p.net ∉ allVisited
                then some p.net else none)) adj).filter (fun x => x ∉ allVisited),
              x ∉ allVisited := by
            intro x hx
            exact of_decide_eq_true (List.mem_filter.mp hx).2
          obtain ⟨hsub', hpw'⟩ := pairwise_snoc_of_disj hsub hpw hdnew
          obtain ⟨hP, hM⟩ := ih _ _ hsub' hpw'
          refine ⟨hP, ?_⟩
          intro dom hdom
          rcases hM dom hdom with hin | hnot
          · rcases List.mem_append.mp hin with h | h
            · exact Or.inl h
            · rw [List.mem_singleton] at h
              subst h
              exact Or.inr hdnew
          · exact Or.inr (fun x hx hmem => hnot x hx (List.mem_append.mpr (Or.inl hmem)))

theorem find_secondary_domains_aux_names (s : Snapshot) (adj : String → List String)
    (hadj : ∀ net x, x ∈ adj net → x ∈ s.nets.map Net.name) :
    ∀ (isoComps : List IsoComp) (domains : List (List String)) (allVisited : List String),
      (∀ ic ∈ isoComps, ∀ p ∈ ic.pins, p.net = "" ∨ p.net ∈ s.nets.map Net.name) →
      (∀ dom ∈ domains, ∀ x ∈ dom, x ∈ s.nets.map Net.name) →
      ∀ dom ∈ find_secondary_domains_aux s adj isoComps domains allVisited,
        ∀ x ∈ dom, x ∈ s.nets.map Net.name := by
  intro isoComps
  induction isoComps with
  | nil =>
      intro domains allVisited _ hdoms
      simp only [find_secondary_domains_aux]
      exact hdoms
  | cons ic rest ih =>
      intro domains allVisited hics hdoms
      simp only [find_secondary_domains_aux]
      split
      · exact ih domains allVisited (fun i hi => hics i (List.mem_cons_of_mem _ hi)) hdoms
      · split
        · exact ih domains allVisited (fun i hi => hics i (List.mem_cons_of_mem _ hi)) hdoms
        · apply ih _ _ (fun i hi => hics i (List.mem_cons_of_mem _ hi))
          intro dom hdom
          rcases List.mem_append.mp hdom with h | h
          · exact hdoms dom h
          · rw [List.mem_singleton] at h
            subst h
            intro x hx
            have hx' := List.mem_of_mem_filter hx
            refine bfs_connected_nets_subset s _ adj _ hadj ?_ x hx'
            intro y hy
            rw [List.mem_filterMap] at hy
            obtain ⟨p, hp, hif⟩ := hy
            split at hif
            · rename_i hcond
              cases hif
              rcases hics ic (List.mem_cons_self _ _) p hp with hnil | hmem
              · exact absurd hnil hcond.2.1
              · exact hmem
            · cases hif

/-- C7: the isolation partition invariant — the primary net set and the
secondary domain sets are pairwise disjoint, and every name in their union
names a net of the snapshot.  The hypothesis is snapshot consistency: every
component pin's net field is empty or names a net of the snapshot (the
secondary BFS is seeded from pin net fields). -/
theorem claim_C7 (s : Snapshot) (kg : KGStore)
    (h : ∀ c ∈ s.components, ∀ p ∈ c.pins, p.net = "" ∨ p.net ∈ s.nets.map Net.name) :
    List.Pairwise (fun a b => ∀ x ∈ a, x ∉ b)
        ((identify_isolation_domains s kg).primary ::
          (identify_isolation_domains s kg).secondary)
    ∧ ∀ dom ∈ (identify_isolation_domains s kg).primary ::
          (identify_isolation_domains s kg).secondary,
        ∀ x ∈ dom, x ∈ s.nets.map Net.name := by
  by_cases hiso : (find_isolation_components s kg).isEmpty = true
  · have hd : identify_isolation_domains s kg =
        { primary := dedup (s.nets.map (fun n => n.name)), secondary := [] } := by
      simp [identify_isolation_domains, hiso]
    rw [hd]
    constructor
    · exact List.pairwise_singleton _ _
    · intro dom hdom x hx
      rcases List.mem_cons.mp hdom with h1 | h1
      · subst h1
        exact mem_dedup.mp hx
      · exact absurd h1 (List.not_mem_nil dom)
  · have hd : identify_isolation_domains s kg =
        { primary := find_primary_domain s (netGraphAdj s (find_isolation_components s kg)),
          secondary := find_secondary_domains s
            (netGraphAdj s (find_isolation_components s kg))
            (find_isolation_components s kg)
            (find_primary_domain s (netGraphAdj s (find_isolation_components s kg))) } := by
      simp [identify_isolation_domains, hiso]
    rw [hd]
    have hadj : ∀ net x, x ∈ netGraphAdj s (find_isolation_components s kg) net →
        x ∈ s.nets.map Net.name :=
      fun net x hx => netGraphAdj_subset s _ net x hx
    have hprim : ∀ x ∈ find_primary_domain s (netGraphAdj s (find_isolation_components s kg)),
        x ∈ s.nets.map Net.name := by
      intro x hx
      exact bfs_connected_nets_subset s _ _ _ hadj (primaryStartNets_subset s) x hx
    have hics : ∀ ic ∈ find_isolation_components s kg, ∀ p ∈ ic.pins,
        p.net = "" ∨ p.net ∈ s.nets.map Net.name := by
      intro ic hic p hp
      obtain ⟨c, hc, hpins⟩ := isoComp_pins s kg hic
      exact h c hc p (hpins ▸ hp)
    obtain ⟨hpw, hmem⟩ := find_secondary_domains_aux_spec s
      (netGraphAdj s (find_isolation_components s kg))
      (find_isolation_components s kg) []
      (find_primary_domain s (netGraphAdj s (find_isolation_components s kg)))
      (fun dom hdom => absurd hdom (List.not_mem_nil dom))
      List.Pairwise.nil
    constructor
    · rw [List.pairwise_cons]
      refine ⟨?_, hpw⟩
      intro dom hdom x hxprim
      rcases hmem dom hdom with h0 | hdisj
      · exact absurd h0 (List.not_mem_nil dom)
      · exact fun hxdom => hdisj x hxdom hxprim
    · intro dom hdom x hx
      rcases List.mem_cons.mp hdom with h1 | h1
      · subst h1
        exact hprim x hx
      · exact find_secondary_domains_aux_names s _ hadj
          (find_isolation_components s kg) [] _ hics
          (fun d hd => absurd hd (List.not_mem_nil d)) dom h1 x hx

def c7Snap : Snapshot :=
  { components := [⟨"ISO1", "ISO", "", "",
      [⟨"1", "1", "VIN", ""⟩, ⟨"2", "2", "SEC", ""⟩]⟩],
    nets := [⟨"VIN", [⟨"ISO1", "1", "1", "", ""⟩]⟩,
             ⟨"SEC", [⟨"ISO1", "2", "2", "", ""⟩]⟩] }

def c7Kg : KGStore :=
  { kg_component_map := [⟨"ISO", "", [], [], true, ["1"], ["2"]⟩] }

theorem claim_C7_witness :
    (∀ c ∈ c7Snap.components, ∀ p ∈ c.pins,
        p.net = "" ∨ p.net ∈ c7Snap.nets.map Net.name)
    ∧ (List.Pairwise (fun a b => ∀ x ∈ a, x ∉ b)
          ((identify_isolation_domains c7Snap c7Kg).primary ::
            (identify_isolation_domains c7Snap c7Kg).secondary)
        ∧ ∀ dom ∈ (identify_isolation_domains c7Snap c7Kg).primary ::
              (identify_isolation_domains c7Snap c7Kg).secondary,
            ∀ x ∈ dom, x ∈ c7Snap.nets.map Net.name) :=
  ⟨by decide, claim_C7 c7Snap c7Kg (by decide)⟩

end PCB

namespace PCB

/-! ## Claim C6 -/

theorem capInner_fst (a : String) (caps : List (String × String)) :
    ∀ (bs : List String) (sh : Bool),
      (capInner a caps bs sh).1 = true ↔ ∃ b ∈ bs, a ≠ b ∧ sortPair a b ∈ caps := by
  intro bs
  induction bs with
  | nil => intro sh; simp [capInner]
  | cons b bs ih =>
      intro sh
      simp only [capInner]
      by_cases hab : a = b
      · rw [if_pos hab, ih true]
        constructor
        · rintro ⟨x, hx, h⟩
          exact ⟨x, List.mem_cons_of_mem _ hx, h⟩
        · rintro ⟨x, hx, hne, hmem⟩
          rcases List.mem_cons.mp hx with h | h
          · subst h
            exact absurd hab hne
          · exact ⟨x, h, hne, hmem⟩
      · rw [if_neg hab]
        by_cases hcap : sortPair a b ∈ caps
        · rw [if_pos hcap]
          constructor
          · intro _
            exact ⟨b, List.mem_cons_self _ _, hab, hcap⟩
          · intro _
            rfl
        · rw [if_neg hcap, ih sh]
          constructor
          · rintro ⟨x, hx, h⟩
            exact ⟨x, List.mem_cons_of_mem _ hx, h⟩
          · rintro ⟨x, hx, hne, hmem⟩
            rcases List.mem_cons.mp hx with h | h
            · subst h
              exact absurd hmem hcap
            · exact ⟨x, h, hne, hmem⟩

theorem capInner_snd (a : String) (caps : List (String × String)) :
    ∀ (bs : List String) (sh : Bool),
      (capInner a caps bs sh).1 = false →
      ((capInner a caps bs sh).2 = true ↔ (sh = true ∨ a ∈ bs)) := by
  intro bs
  induction bs with
  | nil =>
      intro sh _
      simp [capInner]
  | cons b bs ih =>
      intro sh
      simp only [capInner]
      by_cases hab : a = b
      · rw [if_pos hab]
        intro hf
        rw [ih true hf]
        constructor
        · intro _
          exact Or.inr (hab ▸ List.mem_cons_self _ _)
        · intro _
          exact Or.inl rfl
      · rw [if_neg hab]
        by_cases hcap : sortPair a b ∈ caps
        · rw [if_pos hcap]
          intro hf
          exact absurd hf (by simp)
        · rw [if_neg hcap]
          intro hf
          rw [ih sh hf]
          constructor
          · rintro (h | h)
            · exact Or.inl h
            · exact Or.inr (List.mem_cons_of_mem _ h)
          · rintro (h | h)
            · exact Or.inl h
            · rcases List.mem_cons.mp h with h1 | h1
              · exact absurd h1 hab
              · exact Or.inr h1

theorem capOuter_fst (bl : List String) (caps : List (String × String)) :
    ∀ (al : List String) (sh : Bool),
      (capOuter bl caps al sh).1 = true ↔
        ∃ a ∈ al, ∃ b ∈ bl, a ≠ b ∧ sortPair a b ∈ caps := by
  intro al
  induction al with
  | nil => intro sh; simp [capOuter]
  | cons a rest ih =>
      intro sh
      simp only [capOuter]
      split
      · rename_i sh' heq
        constructor
        · intro _
          obtain ⟨b, hb, hh⟩ := (capInner_fst a caps bl sh).mp (by rw [heq])
          exact ⟨a, List.mem_cons_self _ _, b, hb, hh⟩
        · intro _
          rfl
      · rename_i sh' heq
        rw [ih sh']
        constructor
        · rintro ⟨x, hx, h⟩
          exact ⟨x, List.mem_cons_of_mem _ hx, h⟩
        · rintro ⟨x, hx, h⟩
          rcases List.mem_cons.mp hx with h1 | h1
          · subst h1
            have hc := (capInner_fst x caps bl sh).mpr h
            rw [heq] at hc
            exact absurd hc (by simp)
          · exact ⟨x, h1, h⟩

theorem capOuter_snd (bl : List String) (caps : List (String × String)) :
    ∀ (al : List String) (sh : Bool),
      (capOuter bl caps al sh).1 = false →
      ((capOuter bl caps al sh).2 = true ↔ (sh = true ∨ ∃ a ∈ al, a ∈ bl)) := by
  intro al
  induction al with
  | nil =>
      intro sh _
      simp [capOuter]
  | cons a rest ih =>
      intro sh
      simp only [capOuter]
      split
      · rename_i sh' heq
        intro hf
        exact absurd hf (by simp)
      · rename_i sh' heq
        intro hf
        rw [ih sh' hf]
        have hin := capInner_snd a caps bl sh (by rw [heq])
        rw [heq] at hin
        constructor
        · rintro (h | h)
          · rcases hin.mp h with h1 | h1
            · exact Or.inl h1
            · exact Or.inr ⟨a, List.mem_cons_self _ _, h1⟩
          · obtain ⟨x, hx, hxb⟩ := h
            exact Or.inr ⟨x, List.mem_cons_of_mem _ hx, hxb⟩
        · rintro (h | ⟨x, hx, hxb⟩)
          · exact Or.inl (hin.mpr (Or.inl h))
          · rcases List.mem_cons.mp hx with h1 | h1
            · subst h1
              exact Or.inl (hin.mpr (Or.inr hxb))
            · exact Or.inr ⟨x, h1, hxb⟩

theorem check_cap_rule_fst (na nb : List String) (caps : List (String × String)) :
    (check_cap_rule na nb caps).1 = true ↔
      ∃ a ∈ na, ∃ b ∈ nb, a ≠ b ∧ sortPair a b ∈ caps := by
  simp only [check_cap_rule]
  split
  · rename_i sh heq
    constructor
    · intro _
      exact (capOuter_fst nb caps na false).mp (by rw [heq])
    · intro _
      rfl
  · rename_i sh heq
    constructor
    · intro h
      split at h
      · exact absurd h (by simp)
      · exact absurd h (by simp)
    · intro hex
      have hc := (capOuter_fst nb caps na false).mpr hex
      rw [heq] at hc
      exact absurd hc (by simp)

theorem check_cap_rule_snd (na nb : List String) (caps : List (String × String)) :
    (check_cap_rule na nb caps).1 = false →
    ((check_cap_rule na nb caps).2.1 = true ↔
      ((∃ x ∈ na, x ∈ nb) ∧ ∀ a ∈ na, ∀ b ∈ nb, a = b)) := by
  simp only [check_cap_rule]
  split
  · rename_i sh heq
    intro h
    exact absurd h (by simp)
  · rename_i sh heq
    intro _
    have hsh : sh = true ↔ ∃ x ∈ na, x ∈ nb := by
      have h2 := capOuter_snd nb caps na false (by rw [heq])
      rw [heq] at h2
      simpa using h2
    have hnsp : has_nonshort_pair na nb = true ↔ ∃ a ∈ na, ∃ b ∈ nb, a ≠ b := by
      simp [has_nonshort_pair]
    split
    · rename_i hcond
      constructor
      · intro _
        refine ⟨hsh.mp hcond.1, ?_⟩
        intro a ha b hb
        by_contra hne
        exact hcond.2 (hnsp.mpr ⟨a, ha, b, hb, hne⟩)
      · intro _
        rfl
    · rename_i hcond
      constructor
      · intro h
        exact absurd h (by simp)
      · rintro ⟨hex, hall⟩
        exfalso
        apply hcond
        refine ⟨hsh.mpr hex, ?_⟩
        intro hns
        obtain ⟨a, ha, b, hb, hne⟩ := hnsp.mp hns
        exact hne (hall a ha b hb)

theorem check_cap_rule_pair (na nb : List String) (caps : List (String × String)) :
    (check_cap_rule na nb caps).2.1 = true →
    (check_cap_rule na nb caps).2.2 = first_common na nb := by
  simp only [check_cap_rule]
  split
  · intro h
    exact absurd h (by simp)
  · split
    · intro _
      rfl
    · intro h
      exact absurd h (by simp)

theorem sortPair_eq_cases {a b c d : String} (h : sortPair a b = sortPair c d) :
    (a = c ∧ b = d) ∨ (a = d ∧ b = c) := by
  rcases sortPair_parts a b with h1 | h1 <;> rcases sortPair_parts c d with h2 | h2 <;>
      rw [h1, h2, Prod.mk.injEq] at h
  · exact Or.inl h
  · exact Or.inr h
  · exact Or.inr ⟨h.2, h.1⟩
  · exact Or.inl ⟨h.2, h.1⟩

theorem mem_capacitor_pairs (s : Snapshot) {a b : String} (hab : a ≠ b) :
    sortPair a b ∈ capacitor_pairs s ↔
      ∃ c ∈ s.components, classify_passive c = some "C" ∧
        (capNets c = [a, b] ∨ capNets c = [b, a]) := by
  constructor
  · intro h
    simp only [capacitor_pairs, List.mem_filterMap] at h
    obtain ⟨c, hc, hif⟩ := h
    refine ⟨c, hc, ?_⟩
    split at hif
    · exact Option.noConfusion hif
    · rename_i hcls
      refine ⟨not_not.mp hcls, ?_⟩
      have hnd : (capNets c).Nodup := by
        simp only [capNets]
        exact nodup_dedup _
      rcases hcn : capNets c with _ | ⟨n1, _ | ⟨n2, _ | ⟨n3, t⟩⟩⟩
      · rw [hcn] at hif
        exact Option.noConfusion hif
      · rw [hcn] at hif
        exact Option.noConfusion hif
      · rw [hcn] at hnd hif
        have hne : n1 ≠ n2 := by simpa using hnd
        have hif' : (if (sortPair n1 n2).1 = (sortPair n1 n2).2 then (none : Option (String × String))
            else some (sortPair n1 n2)) = some (sortPair a b) := hif
        rw [if_neg (sortPair_ne hne)] at hif'
        have hp : sortPair n1 n2 = sortPair a b := Option.some.inj hif'
        rcases sortPair_eq_cases hp with ⟨hh1, hh2⟩ | ⟨hh1, hh2⟩
        · subst hh1
          subst hh2
          exact Or.inl rfl
        · subst hh1
          subst hh2
          exact Or.inr rfl
      · rw [hcn] at hif
        exact Option.noConfusion hif
  · rintro ⟨c, hc, hcls, hnets⟩
    simp only [capacitor_pairs, List.mem_filterMap]
    refine ⟨c, hc, ?_⟩
    rw [if_neg (by simp [hcls])]
    rcases hnets with hn | hn
    · rw [hn]
      show (if (sortPair a b).1 = (sortPair a b).2 then (none : Option (String × String))
          else some (sortPair a b)) = some (sortPair a b)
      rw [if_neg (sortPair_ne hab)]
    · rw [hn]
      show (if (sortPair b a).1 = (sortPair b a).2 then (none : Option (String × String))
          else some (sortPair b a)) = some (sortPair a b)
      rw [sortPair_comm b a, if_neg (sortPair_ne hab)]

end PCB

namespace PCB

/-- The shorted-case message of the C_DIRECT branch of `check_rules`
(the emitted pair is `_first_common` of the two resolved net sets). -/
def capShortMsg (r : Rule) (na nb : List String) : String :=
  let rt := r.rule_type
  let da := endpoint_desc r.endpoint_a
  let db := endpoint_desc r.endpoint_b
  let ps := (first_common na nb).getD "None"
  s!"{rt} shorted between {da} and {db} (net {ps})"

/-- The missing-case message of the C_DIRECT branch of `check_rules`. -/
def capMissMsg (r : Rule) (na nb : List String) : String :=
  let rt := r.rule_type
  let da := endpoint_desc r.endpoint_a
  let db := endpoint_desc r.endpoint_b
  let naStr := pyReprStrList (sortStrings na)
  let nbStr := pyReprStrList (sortStrings nb)
  s!"{rt} missing between {da} and {db} (nets {naStr} vs {nbStr})"

/-- C6: for a non-waived C_DIRECT rule whose endpoints resolve to non-empty
net sets A and B, the checker emits no error iff some pair of distinct nets
a ∈ A, b ∈ B is bridged by a single two-terminal capacitor; when no such
pair exists it emits the shorted error exactly when some pair coincides and
every pair coincides, and the missing error in every other failing case. -/
theorem claim_C6 (s : Snapshot) (task_id : Option Nat)
    (rComps lComps : List (List String)) (r : Rule)
    (hC : r.rule_type = "C_DIRECT")
    (h1 : ¬(task_id = some 6 ∧ rule_has_buck_en r = true))
    (h2 : ¬(task_id = some 6 ∧ rule_has_role_pair r "buck_vin" "buck_gnd" = true))
    (h3 : ¬(task_id = some 6 ∧ rule_has_role_pair r "buck_vin" "buck_fb" = true))
    (h4 : ¬(is_mosfet_source_drain_cap_rule r = true))
    (hna : resolve_endpoint_nets s r.endpoint_a ≠ [])
    (hnb : resolve_endpoint_nets s r.endpoint_b ≠ []) :
    (rule_errors s task_id (capacitor_pairs s) rComps lComps r = [] ↔
      ∃ a ∈ resolve_endpoint_nets s r.endpoint_a,
        ∃ b ∈ resolve_endpoint_nets s r.endpoint_b, a ≠ b ∧
          ∃ c ∈ s.components, classify_passive c = some "C" ∧
            (capNets c = [a, b] ∨ capNets c = [b, a]))
    ∧ ((¬ ∃ a ∈ resolve_endpoint_nets s r.endpoint_a,
          ∃ b ∈ resolve_endpoint_nets s r.endpoint_b,
            a ≠ b ∧ sortPair a b ∈ capacitor_pairs s) →
        (∃ x ∈ resolve_endpoint_nets s r.endpoint_a,
            x ∈ resolve_endpoint_nets s r.endpoint_b) →
        (∀ a ∈ resolve_endpoint_nets s r.endpoint_a,
          ∀ b ∈ resolve_endpoint_nets s r.endpoint_b, a = b) →
        rule_errors s task_id (capacitor_pairs s) rComps lComps r =
          [capShortMsg r (resolve_endpoint_nets s r.endpoint_a)
            (resolve_endpoint_nets s r.endpoint_b)])
    ∧ ((¬ ∃ a ∈ resolve_endpoint_nets s r.endpoint_a,
          ∃ b ∈ resolve_endpoint_nets s r.endpoint_b,
            a ≠ b ∧ sortPair a b ∈ capacitor_pairs s) →
        ¬((∃ x ∈ resolve_endpoint_nets s r.endpoint_a,
            x ∈ resolve_endpoint_nets s r.endpoint_b) ∧
          ∀ a ∈ resolve_endpoint_nets s r.endpoint_a,
            ∀ b ∈ resolve_endpoint_nets s r.endpoint_b, a = b) →
        rule_errors s task_id (capacitor_pairs s) rComps lComps r =
          [capMissMsg r (resolve_endpoint_nets s r.endpoint_a)
            (resolve_endpoint_nets s r.endpoint_b)]) := by
  have hfst := check_cap_rule_fst (resolve_endpoint_nets s r.endpoint_a)
    (resolve_endpoint_nets s r.endpoint_b) (capacitor_pairs s)
  have hsnd := check_cap_rule_snd (resolve_endpoint_nets s r.endpoint_a)
    (resolve_endpoint_nets s r.endpoint_b) (capacitor_pairs s)
  have hpairlem := check_cap_rule_pair (resolve_endpoint_nets s r.endpoint_a)
    (resolve_endpoint_nets s r.endpoint_b) (capacitor_pairs s)
  rcases hkk : check_cap_rule (resolve_endpoint_nets s r.endpoint_a)
    (resolve_endpoint_nets s r.endpoint_b) (capacitor_pairs s) with ⟨ok, sh, pair⟩
  rw [hkk] at hfst hsnd hpairlem
  cases ok with
  | true =>
      have herr : rule_errors s task_id (capacitor_pairs s) rComps lComps r = [] := by
        simp only [rule_errors]
        rw [if_neg h1, if_neg h2, if_neg h3, if_neg h4,
          if_neg (fun h => h.elim hna hnb), if_pos hC, hkk]
        rfl
      refine ⟨?_, ?_, ?_⟩
      · rw [herr]
        constructor
        · intro _
          obtain ⟨a, ha, b, hb, hne, hmem⟩ := hfst.mp rfl
          exact ⟨a, ha, b, hb, hne, (mem_capacitor_pairs s hne).mp hmem⟩
        · intro _
          rfl
      · intro hnf _ _
        exact absurd (hfst.mp rfl) hnf
      · intro hnf _
        exact absurd (hfst.mp rfl) hnf
  | false =>
      have hnf0 : ¬ ∃ a ∈ resolve_endpoint_nets s r.endpoint_a,
          ∃ b ∈ resolve_endpoint_nets s r.endpoint_b,
            a ≠ b ∧ sortPair a b ∈ capacitor_pairs s := by
        intro h
        exact absurd (hfst.mpr h) (by simp)
      cases sh with
      | true =>
          have hcond := (hsnd rfl).mp rfl
          have hpq : pair = first_common (resolve_endpoint_nets s r.endpoint_a)
              (resolve_endpoint_nets s r.endpoint_b) := hpairlem rfl
          have hu1 : is_ucc27511_out_pair r.rule_type r.endpoint_a r.endpoint_b = false := by
            rw [hC]
            rfl
          have hu2 : is_ucc21710_gate_short r.rule_type r.endpoint_a r.endpoint_b = false := by
            rw [hC]
            rfl
          have herr : rule_errors s task_id (capacitor_pairs s) rComps lComps r =
              [capShortMsg r (resolve_endpoint_nets s r.endpoint_a)
                (resolve_endpoint_nets s r.endpoint_b)] := by
            simp only [rule_errors]
            rw [if_neg h1, if_neg h2, if_neg h3, if_neg h4,
              if_neg (fun h => h.elim hna hnb), if_pos hC, hkk, hpq]
            simp [hu1, hu2, capShortMsg]
          refine ⟨?_, ?_, ?_⟩
          · rw [herr]
            constructor
            · intro h
              exact absurd h (by simp)
            · rintro ⟨a, ha, b, hb, hne, c, hc, hcls, hnets⟩
              exact absurd ⟨a, ha, b, hb, hne,
                (mem_capacitor_pairs s hne).mpr ⟨c, hc, hcls, hnets⟩⟩ hnf0
          · intro _ _ _
            exact herr
          · intro _ hno
            exact absurd hcond hno
      | false =>
          have hnsh : ¬((∃ x ∈ resolve_endpoint_nets s r.endpoint_a,
              x ∈ resolve_endpoint_nets s r.endpoint_b) ∧
              ∀ a ∈ resolve_endpoint_nets s r.endpoint_a,
                ∀ b ∈ resolve_endpoint_nets s r.endpoint_b, a = b) := by
            intro hcc
            exact absurd ((hsnd rfl).mpr hcc) (by simp)
          have herr : rule_errors s task_id (capacitor_pairs s) rComps lComps r =
              [capMissMsg r (resolve_endpoint_nets s r.endpoint_a)
                (resolve_endpoint_nets s r.endpoint_b)] := by
            simp only [rule_errors]
            rw [if_neg h1, if_neg h2, if_neg h3, if_neg h4,
              if_neg (fun h => h.elim hna hnb), if_pos hC, hkk]
            simp [capMissMsg]
          refine ⟨?_, ?_, ?_⟩
          · rw [herr]
            constructor
            · intro h
              exact absurd h (by simp)
            · rintro ⟨a, ha, b, hb, hne, c, hc, hcls, hnets⟩
              exact absurd ⟨a, ha, b, hb, hne,
                (mem_capacitor_pairs s hne).mpr ⟨c, hc, hcls, hnets⟩⟩ hnf0
          · intro _ hex hall
            exact absurd ⟨hex, hall⟩ hnsh
          · intro _ _
            exact herr

end PCB

namespace PCB

def c6Snap : Snapshot :=
  { components := [
      ⟨"U1", "U1", "", "", [⟨"1", "1", "N1", "out"⟩]⟩,
      ⟨"U2", "U2", "", "", [⟨"1", "1", "N2", "in"⟩]⟩,
      ⟨"C1", "C", "", "", [⟨"1", "1", "N1", ""⟩, ⟨"2", "2", "N2", ""⟩]⟩],
    nets := [] }

def c6Rule : Rule :=
  ⟨"C_DIRECT", ⟨"U1", "", "", "", "", ""⟩, ⟨"U2", "", "", "", "", ""⟩, false, 1, true⟩

theorem claim_C6_witness :
    c6Rule.rule_type = "C_DIRECT"
    ∧ ¬((none : Option Nat) = some 6 ∧ rule_has_buck_en c6Rule = true)
    ∧ ¬((none : Option Nat) = some 6 ∧ rule_has_role_pair c6Rule "buck_vin" "buck_gnd" = true)
    ∧ ¬((none : Option Nat) = some 6 ∧ rule_has_role_pair c6Rule "buck_vin" "buck_fb" = true)
    ∧ ¬(is_mosfet_source_drain_cap_rule c6Rule = true)
    ∧ resolve_endpoint_nets c6Snap c6Rule.endpoint_a ≠ []
    ∧ resolve_endpoint_nets c6Snap c6Rule.endpoint_b ≠ []
    ∧ ((rule_errors c6Snap none (capacitor_pairs c6Snap) [] [] c6Rule = [] ↔
          ∃ a ∈ resolve_endpoint_nets c6Snap c6Rule.endpoint_a,
            ∃ b ∈ resolve_endpoint_nets c6Snap c6Rule.endpoint_b, a ≠ b ∧
              ∃ c ∈ c6Snap.components, classify_passive c = some "C" ∧
                (capNets c = [a, b] ∨ capNets c = [b, a]))
        ∧ ((¬ ∃ a ∈ resolve_endpoint_nets c6Snap c6Rule.endpoint_a,
              ∃ b ∈ resolve_endpoint_nets c6Snap c6Rule.endpoint_b,
                a ≠ b ∧ sortPair a b ∈ capacitor_pairs c6Snap) →
            (∃ x ∈ resolve_endpoint_nets c6Snap c6Rule.endpoint_a,
                x ∈ resolve_endpoint_nets c6Snap c6Rule.endpoint_b) →
            (∀ a ∈ resolve_endpoint_nets c6Snap c6Rule.endpoint_a,
              ∀ b ∈ resolve_endpoint_nets c6Snap c6Rule.endpoint_b, a = b) →
            rule_errors c6Snap none (capacitor_pairs c6Snap) [] [] c6Rule =
              [capShortMsg c6Rule (resolve_endpoint_nets c6Snap c6Rule.endpoint_a)
                (resolve_endpoint_nets c6Snap c6Rule.endpoint_b)])
        ∧ ((¬ ∃ a ∈ resolve_endpoint_nets c6Snap c6Rule.endpoint_a,
              ∃ b ∈ resolve_endpoint_nets c6Snap c6Rule.endpoint_b,
                a ≠ b ∧ sortPair a b ∈ capacitor_pairs c6Snap) →
            ¬((∃ x ∈ resolve_endpoint_nets c6Snap c6Rule.endpoint_a,
                x ∈ resolve_endpoint_nets c6Snap c6Rule.endpoint_b) ∧
              ∀ a ∈ resolve_endpoint_nets c6Snap c6Rule.endpoint_a,
                ∀ b ∈ resolve_endpoint_nets c6Snap c6Rule.endpoint_b, a = b) →
            rule_errors c6Snap none (capacitor_pairs c6Snap) [] [] c6Rule =
              [capMissMsg c6Rule (resolve_endpoint_nets c6Snap c6Rule.endpoint_a)
                (resolve_endpoint_nets c6Snap c6Rule.endpoint_b)])) :=
  ⟨rfl, by decide, by decide, by decide, by decide, by decide, by decide,
    claim_C6 c6Snap none [] [] c6Rule rfl (by decide) (by decide) (by decide)
      (by decide) (by decide) (by decide)⟩

end PCB

namespace PCB

/-! ## Claim C3 -/

/-- A rule the task-free rule checker accepts on snapshot `s`. -/
def RuleGood (s : Snapshot) (r : Rule) : Prop :=
  rule_errors s none (capacitor_pairs s) (passive_net_components s "R")
    (passive_net_components s "L") r = []

theorem foldl_preserve {α β : Type} (G : β → Prop) (Q : α → Prop) (f : β → α → β)
    (hf : ∀ st a, Q a → G st → G (f st a)) :
    ∀ (l : List α) (st : β), (∀ a ∈ l, Q a) → G st → G (l.foldl f st) := by
  intro l
  induction l with
  | nil =>
      intro st _ h
      exact h
  | cons a rest ih =>
      intro st hq h
      exact ih _ (fun x hx => hq x (List.mem_cons_of_mem _ hx))
        (hf st a (hq a (List.mem_cons_self _ _)) h)

theorem add_rule_good (s : Snapshot)
    (st : List Rule ×
      List (String × ((String × String × String × String × String) × (String × String × String × String × String))))
    (t : String) (ea eb : EPDesc) (al : Bool)
    (hst : ∀ r ∈ st.1, RuleGood s r)
    (hnew : RuleGood s ⟨t, ea, eb, al, 1, true⟩) :
    ∀ r ∈ (add_rule st t ea eb al).1, RuleGood s r := by
  intro r hr
  simp only [add_rule] at hr
  split at hr
  · exact hst r hr
  · split at hr
    · exact hst r hr
    · rcases List.mem_append.mp hr with h | h
      · exact hst r h
      · rw [List.mem_singleton] at h
        subst h
        exact hnew

theorem rule_errors_nil_of_found (s : Snapshot) (capPairs : List (String × String))
    (rComps lComps : List (List String)) (r : Rule)
    (hC : r.rule_type = "C_DIRECT")
    (hna : resolve_endpoint_nets s r.endpoint_a ≠ [])
    (hnb : resolve_endpoint_nets s r.endpoint_b ≠ [])
    (hfound : (check_cap_rule (resolve_endpoint_nets s r.endpoint_a)
      (resolve_endpoint_nets s r.endpoint_b) capPairs).1 = true) :
    rule_errors s none capPairs rComps lComps r = [] := by
  simp only [rule_errors]
  rw [if_neg (by simp), if_neg (by simp), if_neg (by simp)]
  by_cases hm : is_mosfet_source_drain_cap_rule r = true
  · rw [if_pos hm]
  · rw [if_neg hm, if_neg (fun h => h.elim hna hnb), if_pos hC]
    rcases hkk : check_cap_rule (resolve_endpoint_nets s r.endpoint_a)
      (resolve_endpoint_nets s r.endpoint_b) capPairs with ⟨ok, sh, pr2⟩
    rw [hkk] at hfound
    cases ok
    · exact absurd hfound (by simp)
    · rfl

theorem rule_errors_nil_of_rpath (s : Snapshot) (capPairs : List (String × String))
    (rComps lComps : List (List String)) (r : Rule)
    (hC : r.rule_type = "R_PATH")
    (hna : resolve_endpoint_nets s r.endpoint_a ≠ [])
    (hnb : resolve_endpoint_nets s r.endpoint_b ≠ [])
    (hfound : (check_path_rule (resolve_endpoint_nets s r.endpoint_a)
      (resolve_endpoint_nets s r.endpoint_b) rComps).1 = true) :
    rule_errors s none capPairs rComps lComps r = [] := by
  simp only [rule_errors]
  rw [if_neg (by simp), if_neg (by simp), if_neg (by simp)]
  by_cases hm : is_mosfet_source_drain_cap_rule r = true
  · rw [if_pos hm]
  · rw [if_neg hm, if_neg (fun h => h.elim hna hnb),
      if_neg (by rw [hC]; decide), if_pos hC]
    rcases hkk : check_path_rule (resolve_endpoint_nets s r.endpoint_a)
      (resolve_endpoint_nets s r.endpoint_b) rComps with ⟨ok, sh, pr2⟩
    rw [hkk] at hfound
    cases ok
    · exact absurd hfound (by simp)
    · rfl

theorem rule_errors_nil_of_lpath (s : Snapshot) (capPairs : List (String × String))
    (rComps lComps : List (List String)) (r : Rule)
    (hC : r.rule_type = "L_PATH")
    (hna : resolve_endpoint_nets s r.endpoint_a ≠ [])
    (hnb : resolve_endpoint_nets s r.endpoint_b ≠ [])
    (hfound : (check_path_rule (resolve_endpoint_nets s r.endpoint_a)
      (resolve_endpoint_nets s r.endpoint_b) lComps).1 = true) :
    rule_errors s none capPairs rComps lComps r = [] := by
  simp only [rule_errors]
  rw [if_neg (by simp), if_neg (by simp), if_neg (by simp)]
  by_cases hm : is_mosfet_source_drain_cap_rule r = true
  · rw [if_pos hm]
  · rw [if_neg hm, if_neg (fun h => h.elim hna hnb),
      if_neg (by rw [hC]; decide), if_neg (by rw [hC]; decide), if_pos hC]
    rcases hkk : check_path_rule (resolve_endpoint_nets s r.endpoint_a)
      (resolve_endpoint_nets s r.endpoint_b) lComps with ⟨ok, sh, pr2⟩
    rw [hkk] at hfound
    cases ok
    · exact absurd hfound (by simp)
    · rfl

theorem pathInner_fst (a : String) (comps : List (List String)) :
    ∀ (bs : List String) (sh : Bool),
      (pathInner a comps bs sh).1 = true ↔
        ∃ b ∈ bs, a ≠ b ∧ nets_connected_in a b comps = true := by
  intro bs
  induction bs with
  | nil => intro sh; simp [pathInner]
  | cons b bs ih =>
      intro sh
      simp only [pathInner]
      by_cases hab : a = b
      · rw [if_pos hab, ih true]
        constructor
        · rintro ⟨x, hx, h⟩
          exact ⟨x, List.mem_cons_of_mem _ hx, h⟩
        · rintro ⟨x, hx, hne, hmem⟩
          rcases List.mem_cons.mp hx with h | h
          · subst h
            exact absurd hab hne
          · exact ⟨x, h, hne, hmem⟩
      · rw [if_neg hab]
        by_cases hcap : nets_connected_in a b comps = true
        · rw [if_pos hcap]
          constructor
          · intro _
            exact ⟨b, List.mem_cons_self _ _, hab, hcap⟩
          · intro _
            rfl
        · rw [if_neg hcap, ih sh]
          constructor
          · rintro ⟨x, hx, h⟩
            exact ⟨x, List.mem_cons_of_mem _ hx, h⟩
          · rintro ⟨x, hx, hne, hmem⟩
            rcases List.mem_cons.mp hx with h | h
            · subst h
              exact absurd hmem hcap
            · exact ⟨x, h, hne, hmem⟩

theorem pathOuter_fst (bl : List String) (comps : List (List String)) :
    ∀ (al : List String) (sh : Bool),
      (pathOuter bl comps al sh).1 = true ↔
        ∃ a ∈ al, ∃ b ∈ bl, a ≠ b ∧ nets_connected_in a b comps = true := by
  intro al
  induction al with
  | nil => intro sh; simp [pathOuter]
  | cons a rest ih =>
      intro sh
      simp only [pathOuter]
      split
      · rename_i sh' heq
        constructor
        · intro _
          obtain ⟨b, hb, hh⟩ := (pathInner_fst a comps bl sh).mp (by rw [heq])
          exact ⟨a, List.mem_cons_self _ _, b, hb, hh⟩
        · intro _
          rfl
      · rename_i sh' heq
        rw [ih sh']
        constructor
        · rintro ⟨x, hx, h⟩
          exact ⟨x, List.mem_cons_of_mem _ hx, h⟩
        · rintro ⟨x, hx, h⟩
          rcases List.mem_cons.mp hx with h1 | h1
          · subst h1
            have hc := (pathInner_fst x comps bl sh).mpr h
            rw [heq] at hc
            exact absurd hc (by simp)
          · exact ⟨x, h1, h⟩

theorem check_path_rule_fst (na nb : List String) (comps : List (List String)) :
    (check_path_rule na nb comps).1 = true ↔
      ∃ a ∈ na, ∃ b ∈ nb, a ≠ b ∧ nets_connected_in a b comps = true := by
  simp only [check_path_rule]
  split
  · rename_i sh heq
    constructor
    · intro _
      exact (pathOuter_fst nb comps na false).mp (by rw [heq])
    · intro _
      rfl
  · rename_i sh heq
    constructor
    · intro h
      split at h
      · exact absurd h (by simp)
      · exact absurd h (by simp)
    · intro hex
      have hc := (pathOuter_fst nb comps na false).mpr hex
      rw [heq] at hc
      exact absurd hc (by simp)

theorem foldl_choice_mem :
    ∀ (rest : List EPDesc) (e : EPDesc),
      rest.foldl (fun best x => if epKeyLt x best then x else best) e ∈ e :: rest := by
  intro rest
  induction rest with
  | nil =>
      intro e
      exact List.mem_cons_self _ _
  | cons x xs ih =>
      intro e
      simp only [List.foldl_cons]
      by_cases h : epKeyLt x e = true
      · rw [if_pos h]
        rcases List.mem_cons.mp (ih x) with h1 | h1
        · rw [h1]
          exact List.mem_cons_of_mem _ (List.mem_cons_self _ _)
        · exact List.mem_cons_of_mem _ (List.mem_cons_of_mem _ h1)
      · rw [if_neg h]
        rcases List.mem_cons.mp (ih e) with h1 | h1
        · rw [h1]
          exact List.mem_cons_self _ _
        · exact List.mem_cons_of_mem _ (List.mem_cons_of_mem _ h1)

theorem pick_endpoint_mem {eps : List EPDesc} {ep : EPDesc}
    (h : pick_endpoint eps = some ep) : ep ∈ eps := by
  cases eps with
  | nil => exact Option.noConfusion h
  | cons e rest =>
      have := Option.some.inj h
      rw [← this]
      exact foldl_choice_mem rest e

theorem collect_resolve (s : Snapshot) (net : String) {ep : EPDesc}
    (h : ep ∈ collect_net_endpoints s net) : net ∈ resolve_endpoint_nets s ep := by
  simp only [collect_net_endpoints, List.mem_flatMap] at h
  obtain ⟨c, hc, hin⟩ := h
  by_cases hcat : c.category = "passive"
  · rw [if_pos hcat] at hin
    exact absurd hin (List.not_mem_nil ep)
  · rw [if_neg hcat] at hin
    rw [List.mem_filterMap] at hin
    obtain ⟨p, hp, hpe⟩ := hin
    split at hpe
    · rename_i hcond
      have hep := Option.some.inj hpe
      have hfields : ep.part_id = c.part_id ∧ ep.category = c.category
          ∧ ep.pin_role = p.pin_role ∧ ep.pin_id = p.pin_id ∧ ep.pin_name = p.pin_name := by
        rw [← hep]
        split
        · exact ⟨rfl, rfl, rfl, rfl, rfl⟩
        · exact ⟨rfl, rfl, rfl, rfl, rfl⟩
      obtain ⟨h1, h2, h3, h4, h5⟩ := hfields
      have hmem1 : net ∈ s.components.flatMap (fun c2 =>
          if ep.part_id ≠ "" ∧ c2.part_id ≠ ep.part_id then []
          else if ep.part_id = "" ∧ ep.category ≠ "" ∧ c2.category ≠ ep.category then []
          else c2.pins.filterMap (fun p2 =>
            if ep.pin_role ≠ "" ∧ p2.pin_role ≠ ep.pin_role then none
            else if ep.pin_id ≠ "" ∧ p2.pin_id ≠ ep.pin_id then none
            else if ep.pin_name ≠ "" ∧ p2.pin_name ≠ ep.pin_name then none
            else if p2.net ≠ "" then some p2.net else none)) := by
        rw [List.mem_flatMap]
        refine ⟨c, hc, ?_⟩
        rw [if_neg (fun hx => hx.2 h1.symm), if_neg (fun hx => hx.2.2 h2.symm)]
        refine List.mem_filterMap.mpr ⟨p, hp, ?_⟩
        rw [if_neg (fun hx => hx.2 h3.symm), if_neg (fun hx => hx.2 h4.symm),
          if_neg (fun hx => hx.2 h5.symm), if_pos hcond.2]
        exact congrArg some hcond.1
      simp only [resolve_endpoint_nets]
      have hpass1 : net ∈ dedup (s.components.flatMap (fun c2 =>
          if ep.part_id ≠ "" ∧ c2.part_id ≠ ep.part_id then []
          else if ep.part_id = "" ∧ ep.category ≠ "" ∧ c2.category ≠ ep.category then []
          else c2.pins.filterMap (fun p2 =>
            if ep.pin_role ≠ "" ∧ p2.pin_role ≠ ep.pin_role then none
            else if ep.pin_id ≠ "" ∧ p2.pin_id ≠ ep.pin_id then none
            else if ep.pin_name ≠ "" ∧ p2.pin_name ≠ ep.pin_name then none
            else if p2.net ≠ "" then some p2.net else none))) := mem_dedup.mpr hmem1
      rw [if_neg ?_]
      · exact hpass1
      · rintro ⟨hnil, -, -⟩
        rw [hnil] at hpass1
        exact absurd hpass1 (List.not_mem_nil net)
    · exact Option.noConfusion hpe

end PCB

namespace PCB

theorem map_net_filter (pins : List Pin) :
    (pins.filter (fun p => p.net ≠ "")).map (fun p => p.net)
      = (pins.map (fun p => p.net)).filter (fun n => n ≠ "") := by
  induction pins with
  | nil => rfl
  | cons p rest ih =>
      by_cases h : p.net = ""
      · simp [List.filter_cons, h]
        simpa using ih
      · simp [List.filter_cons, h]
        simpa using ih

theorem dedup_filter_comm (q : String → Bool) :
    ∀ (l : List String), dedup (l.filter q) = (dedup l).filter q := by
  intro l
  induction l with
  | nil => rfl
  | cons s rest ih =>
      by_cases hq : q s = true
      · have h1 : (s :: rest).filter q = s :: rest.filter q := by
          simp [List.filter_cons, hq]
        have h2 : (s :: (dedup rest).filter (fun x => x ≠ s)).filter q
            = s :: ((dedup rest).filter (fun x => x ≠ s)).filter q := by
          simp [List.filter_cons, hq]
        rw [h1, show dedup (s :: rest) = s :: (dedup rest).filter (fun x => x ≠ s) from rfl,
          h2, show dedup (s :: rest.filter q)
            = s :: (dedup (rest.filter q)).filter (fun x => x ≠ s) from rfl, ih,
          List.filter_comm]
      · have hq' : q s = false := by
          cases h : q s
          · rfl
          · exact absurd h hq
        have h1 : (s :: rest).filter q = rest.filter q := by
          simp [List.filter_cons, hq']
        have h2 : (s :: (dedup rest).filter (fun x => x ≠ s)).filter q
            = ((dedup rest).filter (fun x => x ≠ s)).filter q := by
          simp [List.filter_cons, hq']
        rw [h1, show dedup (s :: rest) = s :: (dedup rest).filter (fun x => x ≠ s) from rfl,
          h2, ih, List.filter_comm]
        symm
        apply List.filter_eq_self.mpr
        intro x hx
        have hqx := List.of_mem_filter hx
        simp only [decide_eq_true_eq]
        intro hxs
        subst hxs
        rw [hq'] at hqx
        exact Bool.noConfusion hqx

theorem component_nets_eq_capNets (c : Component) : component_nets c = capNets c := by
  simp only [component_nets, capNets]
  rw [map_net_filter, dedup_filter_comm]

theorem bfsConnectedAux_nodup (adj : String → List String) :
    ∀ (fuel : Nat) (q visited : List String), visited.Nodup →
      (bfsConnectedAux adj fuel q visited).Nodup := by
  intro fuel
  induction fuel with
  | zero =>
      intro q visited h
      simp only [bfsConnectedAux]
      exact h
  | succ n ih =>
      intro q visited h
      cases q with
      | nil =>
          simp only [bfsConnectedAux]
          exact h
      | cons net rest =>
          simp only [bfsConnectedAux]
          by_cases hmem : net ∈ visited
          · rw [if_pos hmem]
            exact ih rest visited h
          · rw [if_neg hmem]
            apply ih
            refine List.Nodup.append h (List.nodup_singleton _) ?_
            intro x hx hx2
            rw [List.mem_singleton] at hx2
            subst hx2
            exact hmem hx

theorem prefix_drop_inj {nd nd2 : String}
    (h1 : pyStartsWith nd "net:" = true) (h2 : pyStartsWith nd2 "net:" = true)
    (he : pyDrop nd 4 = pyDrop nd2 4) : nd = nd2 := by
  simp only [pyStartsWith] at h1 h2
  obtain ⟨t1, ht1⟩ := (List.isPrefixOf_iff_prefix.mp h1)
  obtain ⟨t2, ht2⟩ := (List.isPrefixOf_iff_prefix.mp h2)
  simp only [pyDrop] at he
  rw [← ht1, ← ht2] at he
  rw [show (4 : Nat) = ("net:".toList).length from rfl, List.drop_left, List.drop_left] at he
  have ht : t1 = t2 := by
    injection he
  apply String.ext
  have e1 : nd.data = nd.toList := rfl
  have e2 : nd2.data = nd2.toList := rfl
  rw [e1, e2, ← ht1, ← ht2, ht]

theorem nets_of_comp_nodup {comp : List String} (h : comp.Nodup) :
    (comp.filterMap (fun nd =>
      if pyStartsWith nd "net:" then some (pyDrop nd 4) else none)).Nodup := by
  apply List.Nodup.filterMap ?_ h
  intro a a2 b hb hb2
  split at hb
  · rename_i hp1
    split at hb2
    · rename_i hp2
      have e1 := Option.some.inj hb
      have e2 := Option.some.inj hb2
      exact prefix_drop_inj hp1 hp2 (e1.trans e2.symm)
    · exact Option.noConfusion hb2
  · exact Option.noConfusion hb

theorem pncComponentsAux_nodup (s : Snapshot) (ptype : String) :
    ∀ (nodes visited : List String) (nets : List String),
      nets ∈ pncComponentsAux s ptype nodes visited → nets.Nodup := by
  intro nodes
  induction nodes with
  | nil =>
      intro visited nets h
      exact absurd h (List.not_mem_nil nets)
  | cons node rest ih =>
      intro visited nets h
      simp only [pncComponentsAux] at h
      split at h
      · exact ih _ _ h
      · rcases List.mem_append.mp h with h1 | h1
        · split at h1
          · rw [List.mem_singleton] at h1
            subst h1
            exact nets_of_comp_nodup (bfsConnectedAux_nodup _ _ _ _ List.nodup_nil)
          · exact absurd h1 (List.not_mem_nil nets)
        · exact ih _ _ h1

theorem pnc_nodup (s : Snapshot) (ptype : String) :
    ∀ nets ∈ passive_net_components s ptype, nets.Nodup :=
  fun nets h => pncComponentsAux_nodup s ptype _ _ nets h

theorem listCombinations2_mem {α : Type} :
    ∀ {l : List α} {p : α × α}, p ∈ listCombinations2 l → p.1 ∈ l ∧ p.2 ∈ l := by
  intro l
  induction l with
  | nil =>
      intro p hp
      exact absurd hp (List.not_mem_nil p)
  | cons x rest ih =>
      intro p hp
      simp only [listCombinations2] at hp
      rcases List.mem_append.mp hp with h | h
      · rw [List.mem_map] at h
        obtain ⟨y, hy, hpy⟩ := h
        subst hpy
        exact ⟨List.mem_cons_self _ _, List.mem_cons_of_mem _ hy⟩
      · obtain ⟨h1, h2⟩ := ih h
        exact ⟨List.mem_cons_of_mem _ h1, List.mem_cons_of_mem _ h2⟩

theorem listCombinations2_pairwise {α : Type} {R : α → α → Prop} :
    ∀ {l : List α}, l.Pairwise R → ∀ p ∈ listCombinations2 l, R p.1 p.2 := by
  intro l
  induction l with
  | nil =>
      intro _ p hp
      exact absurd hp (List.not_mem_nil p)
  | cons x rest ih =>
      intro hpw p hp
      rw [List.pairwise_cons] at hpw
      simp only [listCombinations2] at hp
      rcases List.mem_append.mp hp with h | h
      · rw [List.mem_map] at h
        obtain ⟨y, hy, hpy⟩ := h
        subst hpy
        exact hpw.1 y hy
      · exact ih hpw.2 p h

theorem mem_endpoints_filterMap (s : Snapshot) {l : List String} {pr : String × EPDesc}
    (h : pr ∈ l.filterMap (fun net =>
      match pick_endpoint (collect_net_endpoints s net) with
      | some ep => some (net, ep)
      | none => none)) :
    pr.1 ∈ l ∧ pick_endpoint (collect_net_endpoints s pr.1) = some pr.2 := by
  rw [List.mem_filterMap] at h
  obtain ⟨net, hnet, hf⟩ := h
  cases hpe : pick_endpoint (collect_net_endpoints s net) with
  | none =>
      rw [hpe] at hf
      exact Option.noConfusion hf
  | some ep =>
      rw [hpe] at hf
      cases Option.some.inj hf
      exact ⟨hnet, hpe⟩

theorem pairwise_fst_of_filterMap (s : Snapshot) :
    ∀ (l : List String), l.Nodup →
      (l.filterMap (fun net =>
        match pick_endpoint (collect_net_endpoints s net) with
        | some ep => some (net, ep)
        | none => none)).Pairwise (fun a b => a.1 ≠ b.1) := by
  intro l
  induction l with
  | nil =>
      intro _
      exact List.Pairwise.nil
  | cons net rest ih =>
      intro hnd
      rw [List.nodup_cons] at hnd
      cases hpe : pick_endpoint (collect_net_endpoints s net) with
      | none =>
          simp only [List.filterMap_cons, hpe]
          exact ih hnd.2
      | some ep =>
          simp only [List.filterMap_cons, hpe]
          rw [List.pairwise_cons]
          refine ⟨?_, ih hnd.2⟩
          intro b hb
          have hb1 : b.1 ∈ rest := by
            rw [List.mem_filterMap] at hb
            obtain ⟨x, hx, hfx⟩ := hb
            cases hpx : pick_endpoint (collect_net_endpoints s x) with
            | none =>
                rw [hpx] at hfx
                exact Option.noConfusion hfx
            | some e =>
                rw [hpx] at hfx
                cases Option.some.inj hfx
                exact hx
          intro heq
          rw [← heq] at hb1
          exact hnd.1 hb1

/-- The fold state of `build_rules`. -/
abbrev RuleSt := List Rule ×
  List (String × ((String × String × String × String × String) × (String × String × String × String × String)))

/-- Every accumulated rule is accepted by the task-free checker. -/
def GoodSt (s : Snapshot) (st : RuleSt) : Prop := ∀ r ∈ st.1, RuleGood s r

/-- C3 (rule stability): extracting rules from a snapshot with `build_rules`
and running `check_rules` on the same snapshot against those rules (no task
id) yields no errors — the reference snapshot is self-verifying.  Every
C_DIRECT rule's generating capacitor satisfies it, and every R_PATH/L_PATH
rule's two nets lie in the same passive-connected component that generated
the rule. -/
theorem claim_C3 (s : Snapshot) :
    check_rules s (build_rules s) none = [] := by
  have hmain : ∀ r ∈ build_rules s, RuleGood s r := by
    simp only [build_rules]
    refine foldl_preserve (GoodSt s)
      (fun pr => pr = ("R", "R_PATH") ∨ pr = ("L", "L_PATH")) _ ?_ _ _ ?_ ?_
    · intro st pr hQ hG
      refine foldl_preserve (GoodSt s)
        (fun nets => nets ∈ passive_net_components s pr.1) _ ?_ _ _ (fun nets h => h) hG
      intro st2 nets hnets hG2
      refine foldl_preserve (GoodSt s)
        (fun ab => ab ∈ listCombinations2 ((sortStrings nets).filterMap (fun net =>
          match pick_endpoint (collect_net_endpoints s net) with
          | some ep => some (net, ep)
          | none => none))) _ ?_ _ _ (fun ab h => h) hG2
      intro st3 ab hab hG3
      apply add_rule_good s st3 _ _ _ _ hG3
      obtain ⟨hm1, hp1⟩ := mem_endpoints_filterMap s (listCombinations2_mem hab).1
      obtain ⟨hm2, hp2⟩ := mem_endpoints_filterMap s (listCombinations2_mem hab).2
      have hndSorted : (sortStrings nets).Nodup :=
        ((sortStrings_perm nets).nodup_iff).mpr (pnc_nodup s pr.1 nets hnets)
      have hne : ab.1.1 ≠ ab.2.1 :=
        listCombinations2_pairwise (pairwise_fst_of_filterMap s _ hndSorted) ab hab
      have hna1 : ab.1.1 ∈ resolve_endpoint_nets s ab.1.2 :=
        collect_resolve s _ (pick_endpoint_mem hp1)
      have hnb2 : ab.2.1 ∈ resolve_endpoint_nets s ab.2.2 :=
        collect_resolve s _ (pick_endpoint_mem hp2)
      have hconn : nets_connected_in ab.1.1 ab.2.1 (passive_net_components s pr.1) = true := by
        simp only [nets_connected_in, List.any_eq_true]
        refine ⟨nets, hnets, ?_⟩
        simp [mem_sortStrings.mp hm1, mem_sortStrings.mp hm2]
      rcases hQ with h | h
      · subst h
        refine rule_errors_nil_of_rpath s _ _ _ _ rfl ?_ ?_ ?_
        · intro hnil
          rw [hnil] at hna1
          exact absurd hna1 (List.not_mem_nil _)
        · intro hnil
          rw [hnil] at hnb2
          exact absurd hnb2 (List.not_mem_nil _)
        · exact (check_path_rule_fst _ _ _).mpr ⟨ab.1.1, hna1, ab.2.1, hnb2, hne, hconn⟩
      · subst h
        refine rule_errors_nil_of_lpath s _ _ _ _ rfl ?_ ?_ ?_
        · intro hnil
          rw [hnil] at hna1
          exact absurd hna1 (List.not_mem_nil _)
        · intro hnil
          rw [hnil] at hnb2
          exact absurd hnb2 (List.not_mem_nil _)
        · exact (check_path_rule_fst _ _ _).mpr ⟨ab.1.1, hna1, ab.2.1, hnb2, hne, hconn⟩
    · intro pr hpr
      simpa using hpr
    · refine foldl_preserve (GoodSt s)
        (fun c => c ∈ s.components) _ ?_ _ _ (fun c hc => hc) ?_
      · intro st c hc hG
        split
        · exact hG
        · rename_i hcls
          split
          · rename_i n1 n2 hcn
            split
            · rename_i ea eb hpa hpb
              apply add_rule_good s st _ _ _ _ hG
              have hnd : (component_nets c).Nodup := by
                rw [component_nets_eq_capNets]
                simp only [capNets]
                exact nodup_dedup _
              rw [hcn] at hnd
              have hne : n1 ≠ n2 := by simpa using hnd
              have hcapmem : sortPair n1 n2 ∈ capacitor_pairs s :=
                (mem_capacitor_pairs s hne).mpr ⟨c, hc, not_not.mp hcls,
                  Or.inl (by rw [← component_nets_eq_capNets]; exact hcn)⟩
              have h1mem : (sortPair n1 n2).1 ∈ resolve_endpoint_nets s ea :=
                collect_resolve s _ (pick_endpoint_mem hpa)
              have h2mem : (sortPair n1 n2).2 ∈ resolve_endpoint_nets s eb :=
                collect_resolve s _ (pick_endpoint_mem hpb)
              refine rule_errors_nil_of_found s _ _ _ _ rfl ?_ ?_ ?_
              · intro hnil
                rw [hnil] at h1mem
                exact absurd h1mem (List.not_mem_nil _)
              · intro hnil
                rw [hnil] at h2mem
                exact absurd h2mem (List.not_mem_nil _)
              · refine (check_cap_rule_fst _ _ _).mpr
                  ⟨(sortPair n1 n2).1, h1mem, (sortPair n1 n2).2, h2mem, sortPair_ne hne, ?_⟩
                rw [sortPair_idem]
                exact hcapmem
            · exact hG
          · exact hG
      · intro r hr
        exact absurd hr (List.not_mem_nil r)
  simp only [check_rules]
  rw [if_neg (by simp), if_neg (by simp), if_neg (by simp)]
  simp only [List.append_nil]
  rw [List.flatMap_eq_nil_iff]
  exact fun r hr => hmain r hr

end PCB

namespace PCB

/-! ## Claim C4 -/

/-- Declarative reachability of `_path_exists`' BFS: walks over the
passive-induced net graph (edges may repeat), accumulating the
`(has_film, has_inductor)` flags. -/
inductive TankReach (edges : List PEdge) (src : BState) : BState → Prop where
  | refl : TankReach edges src src
  | step {st : BState} (e : String × String) (he : e ∈ edgeNeighbors edges st.net)
      (h : TankReach edges src st) : TankReach edges src (succState st e)

/-- The finite state space of the BFS: every net it can ever hold times the
four flag combinations. -/
def tankStates (edges : List PEdge) (start : String) : List BState :=
  (tankAllNets edges start).flatMap (fun n =>
    [⟨n, false, false⟩, ⟨n, false, true⟩, ⟨n, true, false⟩, ⟨n, true, true⟩])

theorem mem_tankStates {edges : List PEdge} {start : String} {st : BState} :
    st ∈ tankStates edges start ↔ st.net ∈ tankAllNets edges start := by
  simp only [tankStates, List.mem_flatMap]
  constructor
  · rintro ⟨n, hn, hmem⟩
    simp only [List.mem_cons] at hmem
    rcases hmem with rfl | rfl | rfl | rfl | h
    · exact hn
    · exact hn
    · exact hn
    · exact hn
    · exact absurd h (List.not_mem_nil st)
  · intro hn
    refine ⟨st.net, hn, ?_⟩
    rcases st with ⟨n, f, i⟩
    cases f <;> cases i <;> simp

theorem tankStates_length (edges : List PEdge) (start : String) :
    (tankStates edges start).length = 4 * (tankAllNets edges start).length := by
  simp only [tankStates]
  suffices h : ∀ l : List String,
      (l.flatMap (fun n =>
        ([⟨n, false, false⟩, ⟨n, false, true⟩, ⟨n, true, false⟩, ⟨n, true, true⟩] : List BState))).length
        = 4 * l.length from h _
  intro l
  induction l with
  | nil => rfl
  | cons x xs ih =>
      simp only [List.flatMap_cons, List.length_append, ih]
      simp only [List.length_cons, List.length_nil]
      omega

theorem edgeNeighbors_fst_mem {edges : List PEdge} {net : String} (start : String)
    {e : String × String} (he : e ∈ edgeNeighbors edges net) :
    e.1 ∈ tankAllNets edges start := by
  simp only [edgeNeighbors, List.mem_filterMap] at he
  obtain ⟨ed, hed, hif⟩ := he
  simp only [tankAllNets]
  rw [mem_dedup]
  split at hif
  · cases Option.some.inj hif
    refine List.mem_cons_of_mem _ ?_
    rw [List.mem_flatMap]
    exact ⟨ed, hed, by simp⟩
  · split at hif
    · cases Option.some.inj hif
      refine List.mem_cons_of_mem _ ?_
      rw [List.mem_flatMap]
      exact ⟨ed, hed, by simp⟩
    · exact Option.noConfusion hif

theorem edgeNeighbors_length_le (edges : List PEdge) (net : String) :
    (edgeNeighbors edges net).length ≤ edges.length :=
  List.length_filterMap_le _ _

theorem tankBfsAux_sound (edges : List PEdge) (b : String) (reqF reqI : Bool)
    (src : BState) :
    ∀ (fuel : Nat) (q seen : List BState),
      (∀ st ∈ q, TankReach edges src st) →
      tankBfsAux edges b reqF reqI fuel q seen = true →
      ∃ st e, TankReach edges src st ∧ e ∈ edgeNeighbors edges st.net ∧
        tankTrigger b reqF reqI st e = true := by
  intro fuel
  induction fuel with
  | zero =>
      intro q seen hq h
      cases q with
      | nil => exact absurd h (by simp [tankBfsAux])
      | cons st q2 => exact absurd h (by simp [tankBfsAux])
  | succ n ih =>
      intro q seen hq h
      cases q with
      | nil => exact absurd h (by simp [tankBfsAux])
      | cons st q2 =>
          simp only [tankBfsAux] at h
          split at h
          · exact ih q2 seen (fun x hx => hq x (List.mem_cons_of_mem _ hx)) h
          · split at h
            · rename_i hany
              obtain ⟨e, he, htrig⟩ := List.any_eq_true.mp hany
              exact ⟨st, e, hq st (List.mem_cons_self _ _), he, htrig⟩
            · refine ih _ _ ?_ h
              intro x hx
              rcases List.mem_append.mp hx with h1 | h1
              · exact hq x (List.mem_cons_of_mem _ h1)
              · rw [List.mem_map] at h1
                obtain ⟨e, he, hse⟩ := h1
                subst hse
                exact TankReach.step e he (hq st (List.mem_cons_self _ _))

theorem reach_in_closed (edges : List PEdge) (b : String) (reqF reqI : Bool)
    (C : List BState)
    (hC : ∀ st ∈ C, ∀ e ∈ edgeNeighbors edges st.net,
      tankTrigger b reqF reqI st e = false ∧ succState st e ∈ C)
    {src st : BState} (hsrc : src ∈ C) (h : TankReach edges src st) : st ∈ C := by
  induction h with
  | refl => exact hsrc
  | step e he hre ih => exact (hC _ ih e he).2

theorem filter_cons_lt {l : List BState} {st : BState} {seen : List BState}
    (hl : st ∈ l) (hs : st ∉ seen) :
    (l.filter (fun x => x ∉ st :: seen)).length + 1
      ≤ (l.filter (fun x => x ∉ seen)).length := by
  induction l with
  | nil => exact absurd hl (List.not_mem_nil st)
  | cons y ys ih =>
      by_cases hy : y = st
      · subst hy
        have h1 : (y :: ys).filter (fun x => x ∉ y :: seen)
            = ys.filter (fun x => x ∉ y :: seen) := by
          simp [List.filter_cons]
        have h2 : (y :: ys).filter (fun x => x ∉ seen)
            = y :: ys.filter (fun x => x ∉ seen) := by
          simp [List.filter_cons, hs]
        rw [h1, h2, List.length_cons]
        have hsub : (ys.filter (fun x => x ∉ y :: seen)).length
            ≤ (ys.filter (fun x => x ∉ seen)).length := by
          apply List.Sublist.length_le
          apply List.monotone_filter_right
          intro a ha
          simp only [decide_eq_true_eq] at ha ⊢
          intro hmem
          exact ha (List.mem_cons_of_mem _ hmem)
        omega
      · have hl2 : st ∈ ys := by
          rcases List.mem_cons.mp hl with h | h
          · exact absurd h.symm hy
          · exact h
        by_cases hyseen : y ∈ seen
        · have h1 : (y :: ys).filter (fun x => x ∉ st :: seen)
              = ys.filter (fun x => x ∉ st :: seen) := by
            simp only [List.filter_cons]
            rw [if_neg]
            simp only [decide_eq_true_eq]
            intro hmem
            exact hmem (List.mem_cons_of_mem _ hyseen)
          have h2 : (y :: ys).filter (fun x => x ∉ seen)
              = ys.filter (fun x => x ∉ seen) := by
            simp [List.filter_cons, hyseen]
          rw [h1, h2]
          exact ih hl2
        · have hnot1 : y ∉ st :: seen := by
            intro hmem
            rcases List.mem_cons.mp hmem with h | h
            · exact hy h
            · exact hyseen h
          have h1 : (y :: ys).filter (fun x => x ∉ st :: seen)
              = y :: ys.filter (fun x => x ∉ st :: seen) := by
            simp [List.filter_cons, hnot1]
            exact ⟨hy, hyseen⟩
          have h2 : (y :: ys).filter (fun x => x ∉ seen)
              = y :: ys.filter (fun x => x ∉ seen) := by
            simp [List.filter_cons, hyseen]
          rw [h1, h2, List.length_cons, List.length_cons]
          have := ih hl2
          omega

end PCB

namespace PCB

theorem tankBfsAux_complete (edges : List PEdge) (start b : String) (reqF reqI : Bool) :
    ∀ (fuel : Nat) (q seen : List BState),
      ((tankStates edges start).filter (fun x => x ∉ seen)).length * (edges.length + 1)
        + q.length < fuel →
      (∀ st ∈ q, st ∈ tankStates edges start) →
      (∀ st ∈ seen, ∀ e ∈ edgeNeighbors edges st.net,
        tankTrigger b reqF reqI st e = false) →
      (∀ st ∈ seen, ∀ e ∈ edgeNeighbors edges st.net,
        succState st e ∈ q ∨ succState st e ∈ seen) →
      tankBfsAux edges b reqF reqI fuel q seen = false →
      ∃ C : List BState,
        (∀ st ∈ q, st ∈ C) ∧ (∀ st ∈ seen, st ∈ C) ∧
        ∀ st ∈ C, ∀ e ∈ edgeNeighbors edges st.net,
          tankTrigger b reqF reqI st e = false ∧ succState st e ∈ C := by
  intro fuel
  induction fuel with
  | zero =>
      intro q seen hm _ _ _ _
      exact absurd hm (Nat.not_lt_zero _)
  | succ n ih =>
      intro q seen hm hq hnt hcl hres
      cases q with
      | nil =>
          refine ⟨seen, ?_, fun st h => h, ?_⟩
          · intro st h
            exact absurd h (List.not_mem_nil st)
          · intro st hst e he
            refine ⟨hnt st hst e he, ?_⟩
            rcases hcl st hst e he with h | h
            · exact absurd h (List.not_mem_nil _)
            · exact h
      | cons st q2 =>
          simp only [tankBfsAux] at hres
          split at hres
          · rename_i hseen
            have hm2 : ((tankStates edges start).filter (fun x => x ∉ seen)).length
                * (edges.length + 1) + q2.length < n := by
              simp only [List.length_cons] at hm
              omega
            obtain ⟨C, hqC, hsC, hC⟩ := ih q2 seen hm2
              (fun x hx => hq x (List.mem_cons_of_mem _ hx)) hnt
              (fun x hx e he => by
                rcases hcl x hx e he with h | h
                · rcases List.mem_cons.mp h with h1 | h1
                  · rw [h1]
                    exact Or.inr hseen
                  · exact Or.inl h1
                · exact Or.inr h) hres
            refine ⟨C, ?_, hsC, hC⟩
            intro x hx
            rcases List.mem_cons.mp hx with h1 | h1
            · rw [h1]
              exact hsC st hseen
            · exact hqC x h1
          · rename_i hseen
            split at hres
            · exact Bool.noConfusion hres
            · rename_i hany
              have hanyf : ∀ e ∈ edgeNeighbors edges st.net,
                  tankTrigger b reqF reqI st e = false := by
                intro e he
                cases htr : tankTrigger b reqF reqI st e
                · rfl
                · exact absurd (List.any_eq_true.mpr ⟨e, he, htr⟩) hany
              have hstmem : st ∈ tankStates edges start := hq st (List.mem_cons_self _ _)
              have hcnt := filter_cons_lt hstmem hseen
              have hm2 : ((tankStates edges start).filter (fun x => x ∉ st :: seen)).length
                  * (edges.length + 1)
                  + (q2 ++ (edgeNeighbors edges st.net).map (succState st)).length < n := by
                have hlen : ((edgeNeighbors edges st.net).map (succState st)).length
                    ≤ edges.length := by
                  rw [List.length_map]
                  exact edgeNeighbors_length_le edges st.net
                have hmul : ((tankStates edges start).filter (fun x => x ∉ st :: seen)).length
                    * (edges.length + 1) + (edges.length + 1)
                    ≤ ((tankStates edges start).filter (fun x => x ∉ seen)).length
                      * (edges.length + 1) := by
                  have h2 := Nat.mul_le_mul_right (edges.length + 1) hcnt
                  calc ((tankStates edges start).filter (fun x => x ∉ st :: seen)).length
                        * (edges.length + 1) + (edges.length + 1)
                      = (((tankStates edges start).filter (fun x => x ∉ st :: seen)).length + 1)
                        * (edges.length + 1) := by ring
                    _ ≤ ((tankStates edges start).filter (fun x => x ∉ seen)).length
                        * (edges.length + 1) := h2
                simp only [List.length_append, List.length_cons] at hm ⊢
                omega
              obtain ⟨C, hqC, hsC, hC⟩ := ih
                (q2 ++ (edgeNeighbors edges st.net).map (succState st)) (st :: seen) hm2
                (fun x hx => by
                  rcases List.mem_append.mp hx with h1 | h1
                  · exact hq x (List.mem_cons_of_mem _ h1)
                  · rw [List.mem_map] at h1
                    obtain ⟨e, he, hse⟩ := h1
                    subst hse
                    exact mem_tankStates.mpr (edgeNeighbors_fst_mem start he))
                (fun x hx e he => by
                  rcases List.mem_cons.mp hx with h1 | h1
                  · rw [h1]
                    exact hanyf e (h1 ▸ he)
                  · exact hnt x h1 e he)
                (fun x hx e he => by
                  rcases List.mem_cons.mp hx with h1 | h1
                  · subst h1
                    refine Or.inl (List.mem_append.mpr (Or.inr ?_))
                    exact List.mem_map.mpr ⟨e, he, rfl⟩
                  · rcases hcl x h1 e he with h2 | h2
                    · rcases List.mem_cons.mp h2 with h3 | h3
                      · rw [h3]
                        exact Or.inr (List.mem_cons_self _ _)
                      · exact Or.inl (List.mem_append.mpr (Or.inl h3))
                    · exact Or.inr (List.mem_cons_of_mem _ h2)) hres
              refine ⟨C, ?_, ?_, hC⟩
              · intro x hx
                rcases List.mem_cons.mp hx with h1 | h1
                · rw [h1]
                  exact hsC st (List.mem_cons_self _ _)
                · exact hqC x (List.mem_append.mpr (Or.inl h1))
              · intro x hx
                exact hsC x (List.mem_cons_of_mem _ hx)

end PCB

namespace PCB

theorem path_exists_iff (s : Snapshot) (a b : String) (parts : List String)
    (reqF reqI : Bool) :
    path_exists s a b parts reqF reqI = true ↔
      (¬(a = "" ∨ b = "") ∧
        ((a = b ∧ (reqF || reqI) = false) ∨
         (a ≠ b ∧ ∃ st e, TankReach (passiveEdges s parts) ⟨a, false, false⟩ st ∧
            e ∈ edgeNeighbors (passiveEdges s parts) st.net ∧
            tankTrigger b reqF reqI st e = true))) := by
  simp only [path_exists]
  by_cases h0 : a = "" ∨ b = ""
  · rw [if_pos h0]
    simp [h0]
  · rw [if_neg h0]
    by_cases hab : a = b
    · rw [if_pos hab]
      constructor
      · intro h
        exact ⟨h0, Or.inl ⟨hab, by simpa using h⟩⟩
      · rintro ⟨-, h | h⟩
        · simp [h.2]
        · exact absurd hab h.1
    · rw [if_neg hab]
      constructor
      · intro h
        refine ⟨h0, Or.inr ⟨hab, ?_⟩⟩
        refine tankBfsAux_sound (passiveEdges s parts) b reqF reqI ⟨a, false, false⟩
          _ _ _ ?_ h
        intro st hst
        rw [List.mem_singleton] at hst
        subst hst
        exact TankReach.refl
      · rintro ⟨-, h | h⟩
        · exact absurd h.1 hab
        · obtain ⟨-, st, e, hr, he, htr⟩ := h
          by_contra hfalse
          have hf : tankBfsAux (passiveEdges s parts) b reqF reqI
              (tankFuel (passiveEdges s parts) a) [⟨a, false, false⟩] [] = false := by
            cases hres : tankBfsAux (passiveEdges s parts) b reqF reqI
                (tankFuel (passiveEdges s parts) a) [⟨a, false, false⟩] []
            · rfl
            · exact absurd hres hfalse
          have hfeq : ((tankStates (passiveEdges s parts) a).filter
              (fun x => x ∉ ([] : List BState))).length
              = (tankStates (passiveEdges s parts) a).length := by
            rw [List.filter_eq_self.mpr]
            intro x _
            simp
          obtain ⟨C, hqC, -, hC⟩ := tankBfsAux_complete (passiveEdges s parts) a b reqF reqI
            (tankFuel (passiveEdges s parts) a) [⟨a, false, false⟩] []
            (by
              rw [hfeq, tankStates_length]
              simp only [tankFuel, List.length_cons, List.length_nil]
              omega)
            (by
              intro st2 hst2
              rw [List.mem_singleton] at hst2
              subst hst2
              refine mem_tankStates.mpr ?_
              simp only [tankAllNets]
              exact mem_dedup.mpr (List.mem_cons_self _ _))
            (by intro st2 hst2; exact absurd hst2 (List.not_mem_nil _))
            (by intro st2 hst2; exact absurd hst2 (List.not_mem_nil _)) hf
          have hsrc : (⟨a, false, false⟩ : BState) ∈ C := hqC _ (List.mem_cons_self _ _)
          have hstC : st ∈ C :=
            reach_in_closed (passiveEdges s parts) b reqF reqI C hC hsrc hr
          have hft := (hC st hstC e he).1
          rw [htr] at hft
          exact Bool.noConfusion hft

/-- C4: the tank-path search (fuel-indexed here, with fuel proved to dominate
the BFS measure, so the source's loop terminates on every finite snapshot
with this answer) returns true for the DAB requirement (`require_film` and
`require_inductor` both set, parts restricted to R, C, C_film,
Inductor_power, L) iff some start net and some target net are distinct,
non-empty, and joined by a walk in the passive-induced net graph whose last
edge enters the target with both a C_film edge and an inductor edge
accumulated; the BFS state carries `(net, has_film, has_inductor)` and the
visited set is keyed by that full state.  `verify_dab` emits the
missing-series-tank-elements error exactly when this returns false on the
input-bridge switch nodes and the driven-side transformer terminals. -/
theorem claim_C4 (s : Snapshot) (starts targets : List String) :
    exists_required_tank_path s starts targets true true PATH_PART_IDS = true ↔
      ∃ a ∈ starts, ∃ b ∈ targets, a ≠ "" ∧ b ≠ "" ∧ a ≠ b ∧
        ∃ st e, TankReach (passiveEdges s PATH_PART_IDS) ⟨a, false, false⟩ st ∧
          e ∈ edgeNeighbors (passiveEdges s PATH_PART_IDS) st.net ∧ e.1 = b ∧
          (st.film || isFilmPart e.2) = true ∧ (st.ind || isIndPart e.2) = true := by
  simp only [exists_required_tank_path, List.any_eq_true]
  constructor
  · rintro ⟨a, ha, b, hb, hpe⟩
    obtain ⟨h0, hcase⟩ := (path_exists_iff s a b PATH_PART_IDS true true).mp hpe
    rcases hcase with ⟨hab, hff⟩ | ⟨hab, st, e, hr, he, htr⟩
    · exact absurd hff (by simp)
    · have htr' : e.1 = b ∧ (st.film || isFilmPart e.2) = true
          ∧ (st.ind || isIndPart e.2) = true := by
        simp only [tankTrigger, succState, Bool.not_true, Bool.false_or,
          Bool.and_eq_true, decide_eq_true_eq] at htr
        exact ⟨htr.1.1, htr.1.2, htr.2⟩
      exact ⟨a, ha, b, hb, fun h1 => h0 (Or.inl h1), fun h1 => h0 (Or.inr h1), hab,
        st, e, hr, he, htr'.1, htr'.2.1, htr'.2.2⟩
  · rintro ⟨a, ha, b, hb, ha0, hb0, hab, st, e, hr, he, hb1, hfl, hin⟩
    refine ⟨a, ha, b, hb, ?_⟩
    refine (path_exists_iff s a b PATH_PART_IDS true true).mpr
      ⟨?_, Or.inr ⟨hab, st, e, hr, he, ?_⟩⟩
    · rintro (h | h)
      · exact ha0 h
      · exact hb0 h
    · simp only [tankTrigger, succState, Bool.not_true, Bool.false_or,
        Bool.and_eq_true, decide_eq_true_eq]
      exact ⟨⟨hb1, hfl⟩, hin⟩

end PCB
